import Mathlib

/-!
swtpm: state persistence, request pipeline and option handling

A shallow embedding of the state-persistence code (`src/swtpm/swtpm_nvfile.c`), the
request pipeline and start-up (`src/swtpm/tpmlib.c`), the key and profile options
(`src/swtpm/common.c`) and the file-descriptor arguments of swtpm_setup
(`src/swtpm_setup/swtpm_setup.c`), and theorems about them.

Conventions of the embedding

* A byte buffer is a `List Nat`; a C pair (pointer, `uint32_t` length) is one list
  whose length is the C length.  Fixed-width integers are `Nat` with explicit
  reductions modulo `2^16` / `2^32` where the C code can wrap.
* `TPM_RESULT` is a `Nat`; the codes are those of libtpms' `tpm_error.h`.
* A function whose C original can read or write outside a buffer returns an
  `Option`: `none` stands for that undefined behaviour.
* `malloc` is taken to succeed; the branches that only report a failed allocation
  are left out (the response writers of `tpmlib.c` take the outcome as an argument).
* Functions and constants that are not among the sources are oracles or parameters.
* Calls to external primitives whose order matters are recorded in a list of `Call`s.
-/

namespace Swtpm

/-! ## Basic types and constants -/

abbrev Bytes := List Nat

/-- Result codes of libtpms (`tpm_error.h`, `tpm_library.h`). -/
def TPM_SUCCESS : Nat := 0
def TPM_BAD_PARAMETER : Nat := 3
def TPM_FAIL : Nat := 9
def TPM_KEYNOTFOUND : Nat := 13
def TPM_DECRYPT_ERROR : Nat := 33
def TPM_BAD_KEY_PROPERTY : Nat := 40
def TPM_BAD_MODE : Nat := 44
def TPM_BAD_VERSION : Nat := 46
def TPM_RETRY : Nat := 2048

/-- The constant `#define BLOB_HEADER_VERSION 2`. -/
def BLOB_HEADER_VERSION : Nat := 2

def BLOB_FLAG_ENCRYPTED : Nat := 1
def BLOB_FLAG_MIGRATION_ENCRYPTED : Nat := 2
def BLOB_FLAG_MIGRATION_DATA : Nat := 4

/-- The size `sizeof(blobheader)` of the packed header: 1 + 1 + 2 + 2 + 4 bytes. -/
def sizeof_blobheader : Nat := 10

/-- The size of a pointer, `sizeof(bh)` for `blobheader *bh`, on an LP64 platform. -/
def sizeof_bh_pointer : Nat := 8

def TPM_AES_BLOCK_SIZE : Nat := 16

def SHA256_DIGEST_LENGTH : Nat := 32

/-- Network byte order of a 16-bit value (`htons` followed by a byte-wise store). -/
def htons (x : Nat) : Bytes := [x / 256 % 256, x % 256]

/-- Network byte order of a 32-bit value (`htonl` followed by a byte-wise store). -/
def htonl (x : Nat) : Bytes :=
  [x / 16777216 % 256, x / 65536 % 256, x / 256 % 256, x % 256]

/-- Read of one byte at offset `i`; `none` when `i` is outside the buffer. -/
def rd8 (data : Bytes) (i : Nat) : Option Nat := data[i]?

/-- Read of a big-endian 16-bit field at offset `i` (`ntohs` of a packed field). -/
def rd16 (data : Bytes) (i : Nat) : Option Nat :=
  match data[i]?, data[i+1]? with
  | some a, some b => some (a * 256 + b)
  | _, _ => none

/-- Read of a big-endian 32-bit field at offset `i` (`ntohl` of a packed field). -/
def rd32 (data : Bytes) (i : Nat) : Option Nat :=
  match data[i]?, data[i+1]?, data[i+2]?, data[i+3]? with
  | some a, some b, some c, some d => some (a * 16777216 + b * 65536 + c * 256 + d)
  | _, _, _, _ => none

/-! ## Blob header -/

/-- Outcome of `SWTPM_NVRAM_CheckHeader`: the three outputs on success, the result
code on failure (the outputs are then left untouched), or a read beyond the buffer. -/
inductive HeaderCheck where
  | ok (hdrversion dataoffset hdrflags : Nat)
  | err (rc : Nat)
  | outOfBounds
  deriving DecidableEq, Repr

/-- The function `SWTPM_NVRAM_CheckHeader` (swtpm_nvfile.c:1005). The first test compares the
length with `sizeof(bh)`, the size of the pointer `bh`. -/
def SWTPM_NVRAM_CheckHeader (data : Bytes) : HeaderCheck :=
  let length := data.length
  if length < sizeof_bh_pointer then .err TPM_BAD_PARAMETER
  else
    match rd32 data 6 with
    | none => .outOfBounds
    | some totlen =>
      if totlen ≠ length then .err TPM_BAD_PARAMETER
      else
        match rd8 data 1 with
        | none => .outOfBounds
        | some min_version =>
          if min_version > BLOB_HEADER_VERSION then .err TPM_BAD_VERSION
          else
            match rd8 data 0, rd16 data 2, rd16 data 4 with
            | some version, some hdrsize, some flags => .ok version hdrsize flags
            | _, _, _ => .outOfBounds

/-- The function `SWTPM_NVRAM_PrependHeader` (swtpm_nvfile.c:963): result code and new buffer.
`out_len` is a `uint32_t`; when the sum wraps, the two `memcpy`s write beyond the
`out_len` allocated bytes. `flags` is a `uint16_t` parameter. -/
def SWTPM_NVRAM_PrependHeader (data : Bytes) (flags : Nat) : Option (Nat × Bytes) :=
  let out_len := (sizeof_blobheader + data.length) % 4294967296
  if out_len < sizeof_blobheader + data.length then none
  else
    some (TPM_SUCCESS,
      [BLOB_HEADER_VERSION, 1] ++ htons sizeof_blobheader ++ htons (flags % 65536)
        ++ htonl out_len ++ data)

/-! ## TLV codec -/

/-- One record of `tlv.h`: the tag and the value; the `length` field of the C struct is
the length of the value. -/
structure tlv_data where
  tag : Nat
  value : Bytes
  deriving DecidableEq, Repr

/-- The two macros `TLV_DATA(t, l, d)` and `TLV_DATA_CONST(t, l, d)`, which differ in
ownership only. -/
def TLV_DATA (tag : Nat) (d : Bytes) : tlv_data := ⟨tag, d⟩

/-- Modelled from the spec: the wire form of one record, `tag(u16 BE)‖length(u32 BE)‖value`
(`tlv.c`, which holds the TLV codec, is not among the sources). -/
def tlv_record (td : tlv_data) : Bytes :=
  htons td.tag ++ htonl td.value.length ++ td.value

/-- Modelled from the spec: `tlv_data_append` of the missing `tlv.c`, §4.1 `append`: every
record is serialized as `tag(u16 BE)‖length(u32 BE)‖value` behind the existing buffer. -/
def tlv_data_append (buffer : Bytes) (td : List tlv_data) : Bytes :=
  buffer ++ (td.map tlv_record).flatten

/-- Modelled from the spec: the scan of `tlv_data_find_tag` of the missing `tlv.c`, §4.1
`find`: a linear scan that returns the first record with the tag; a record whose header
or value overruns the buffer ends the scan with `absent`. Every step consumes at least
the 6 header bytes, so `fuel = length of the buffer` never runs out. -/
def tlv_data_find_tag_aux : Nat → Bytes → Nat → Option tlv_data
  | 0, _, _ => none
  | fuel + 1, buffer, tag =>
    match buffer with
    | t0 :: t1 :: l0 :: l1 :: l2 :: l3 :: rest =>
      let length := l0 * 16777216 + l1 * 65536 + l2 * 256 + l3
      if length > rest.length then none
      else if t0 * 256 + t1 = tag then some ⟨tag, rest.take length⟩
      else tlv_data_find_tag_aux fuel (rest.drop length) tag
    | _ => none

/-- Modelled from the spec: `tlv_data_find_tag` of the missing `tlv.c`, see
`tlv_data_find_tag_aux`. -/
def tlv_data_find_tag (buffer : Bytes) (tag : Nat) : Option tlv_data :=
  tlv_data_find_tag_aux buffer.length buffer tag

/-! ## Keys and external primitives -/

/-- The enumeration `enum encryption_mode` of `key.h`. -/
inductive encryption_mode where
  | ENCRYPTION_MODE_UNKNOWN
  | ENCRYPTION_MODE_AES_CBC
  deriving DecidableEq, Repr

/-- The fields of `TPM_SYMMETRIC_KEY_DATA` that this file uses. -/
structure TPM_SYMMETRIC_KEY_DATA where
  valid : Bool
  userKey : Bytes
  deriving DecidableEq, Repr

/-- The local structure `encryptionkey` (swtpm_nvfile.c:96). -/
structure encryptionkey where
  data_encmode : encryption_mode
  symkey : TPM_SYMMETRIC_KEY_DATA
  deriving DecidableEq, Repr

/-- The key registry: the two static variables `filekey` and `migrationkey`. -/
structure Keys where
  filekey : encryptionkey
  migrationkey : encryptionkey
  deriving DecidableEq, Repr

/-- Initial value of both static keys: `.symkey.valid = FALSE`, everything else zero. -/
def nokey : encryptionkey := ⟨.ENCRYPTION_MODE_UNKNOWN, ⟨false, []⟩⟩

/-- What the code takes from outside this repository: the five tag constants of `tlv.h`
(16-bit values), the AES-CBC primitives of `swtpm_aes.c`, OpenSSL's `HMAC` with
`EVP_sha256()` (`none` when the call fails) and `SHA256`, and libtpms' `TPMLIB_SetState`
(`none` as buffer is the `NULL` pointer). -/
structure Env where
  TAG_DATA : Nat
  TAG_ENCRYPTED_DATA : Nat
  TAG_HMAC : Nat
  TAG_MIGRATION_DATA : Nat
  TAG_ENCRYPTED_MIGRATION_DATA : Nat
  TPM_SymmetricKeyData_Encrypt : TPM_SYMMETRIC_KEY_DATA → Bytes → Nat × Bytes
  TPM_SymmetricKeyData_Decrypt : TPM_SYMMETRIC_KEY_DATA → Bytes → Nat × Bytes
  HMAC : Bytes → Bytes → Option Bytes
  SHA256 : Bytes → Bytes
  TPMLIB_SetState : Nat → Option Bytes → Nat

/-- A call of an external primitive, recorded in call order. -/
inductive Call where
  | HMAC (key data : Bytes)
  | Decrypt (key : TPM_SYMMETRIC_KEY_DATA) (data : Bytes)
  | SetState (st : Nat) (buffer : Option Bytes)
  deriving DecidableEq, Repr

/-- Result of the functions that hand back a buffer: the result code, the output buffer
(`none` when the function did not write its output parameters) and the calls made. -/
structure DataOut where
  rc : Nat
  data : Option Bytes
  calls : List Call
  deriving DecidableEq, Repr

/-! ## Crypto envelope -/

/-- The function `SWTPM_CalcHMAC` (swtpm_nvfile.c:660): the HMAC is keyed with the first
`TPM_AES_BLOCK_SIZE` bytes of `userKey`. -/
def SWTPM_CalcHMAC (env : Env) (inp : Bytes) (symkey : TPM_SYMMETRIC_KEY_DATA) :
    Nat × Option tlv_data :=
  match env.HMAC (symkey.userKey.take TPM_AES_BLOCK_SIZE) inp with
  | none => (TPM_FAIL, none)
  | some md => (0, some (TLV_DATA env.TAG_HMAC md))

/-- The function `SWTPM_CheckHMAC` (swtpm_nvfile.c:700): result code and calls. `memcmp`
compares the `md_len` bytes that `HMAC` reports; more bytes than the record holds would
be a read beyond the record. -/
def SWTPM_CheckHMAC (env : Env) (hmac encrypted_data : tlv_data)
    (symkey : TPM_SYMMETRIC_KEY_DATA) : Option (Nat × List Call) :=
  if SHA256_DIGEST_LENGTH > hmac.value.length then some (TPM_FAIL, [])
  else
    let key := symkey.userKey.take TPM_AES_BLOCK_SIZE
    match env.HMAC key encrypted_data.value with
    | none => some (TPM_FAIL, [.HMAC key encrypted_data.value])
    | some md =>
      if md.length > hmac.value.length then none
      else if hmac.value.take md.length ≠ md then
        some (TPM_DECRYPT_ERROR, [.HMAC key encrypted_data.value])
      else some (TPM_SUCCESS, [.HMAC key encrypted_data.value])

/-- The function `SWTPM_CheckHash` (swtpm_nvfile.c:743). `data_length = in_length - 32` is a
`uint32_t`: for an input shorter than the digest it wraps and `SHA256` reads beyond
the buffer. -/
def SWTPM_CheckHash (env : Env) (inp : Bytes) : Option (Nat × Option Bytes) :=
  if inp.length < SHA256_DIGEST_LENGTH then none
  else
    let data := inp.drop SHA256_DIGEST_LENGTH
    let hashbuf := env.SHA256 data
    if inp.take SHA256_DIGEST_LENGTH ≠ hashbuf then some (TPM_FAIL, none)
    else some (0, some data)

/-- The function `SWTPM_NVRAM_EncryptData` (swtpm_nvfile.c:778): result code and the records
`td[0 .. *td_len)`. -/
def SWTPM_NVRAM_EncryptData (env : Env) (key : encryptionkey) (tag_encrypted_data : Nat)
    (data : Bytes) : Nat × List tlv_data :=
  if key.symkey.valid then
    match key.data_encmode with
    | .ENCRYPTION_MODE_UNKNOWN => (TPM_BAD_MODE, [])
    | .ENCRYPTION_MODE_AES_CBC =>
      let r := env.TPM_SymmetricKeyData_Encrypt key.symkey data
      if r.1 ≠ 0 then (r.1, [])
      else
        match SWTPM_CalcHMAC env r.2 key.symkey with
        | (0, some td1) => (0, [TLV_DATA tag_encrypted_data r.2, td1])
        | (rc, _) => (rc, [])
  else (0, [])

/-- The function `SWTPM_NVRAM_DecryptData` (swtpm_nvfile.c:821). -/
def SWTPM_NVRAM_DecryptData (env : Env) (key : encryptionkey) (data : Bytes)
    (tag_encrypted_data : Nat) (hdrversion : Nat) : Option DataOut :=
  if key.symkey.valid then
    match key.data_encmode with
    | .ENCRYPTION_MODE_UNKNOWN => some ⟨TPM_BAD_MODE, none, []⟩
    | .ENCRYPTION_MODE_AES_CBC =>
      if hdrversion = 1 then
        let r := env.TPM_SymmetricKeyData_Decrypt key.symkey data
        if r.1 = 0 then
          match SWTPM_CheckHash env r.2 with
          | none => none
          | some (rc, out) => some ⟨rc, out, [.Decrypt key.symkey data]⟩
        else some ⟨r.1, none, [.Decrypt key.symkey data]⟩
      else if hdrversion = 2 then
        match tlv_data_find_tag data env.TAG_HMAC,
              tlv_data_find_tag data tag_encrypted_data with
        | some td0, some td1 =>
          match SWTPM_CheckHMAC env td0 td1 key.symkey with
          | none => none
          | some (rc, calls) =>
            if rc = 0 then
              let r := env.TPM_SymmetricKeyData_Decrypt key.symkey td1.value
              some ⟨r.1, if r.1 = 0 then some r.2 else none,
                    calls ++ [.Decrypt key.symkey td1.value]⟩
            else some ⟨rc, none, calls⟩
        | _, _ => some ⟨TPM_FAIL, none, []⟩
      else some ⟨TPM_FAIL, none, []⟩
  else some ⟨0, none, []⟩

/-- The function `SWTPM_NVRAM_GetPlainData` (swtpm_nvfile.c:879). The `switch` has no
`default`: for a header version other than 1 and 2 it returns 0 without writing
its outputs. -/
def SWTPM_NVRAM_GetPlainData (data : Bytes) (tag_data : Nat) (hdrversion : Nat) : DataOut :=
  if hdrversion = 1 then ⟨0, some data, []⟩
  else if hdrversion = 2 then
    match tlv_data_find_tag data tag_data with
    | none => ⟨TPM_FAIL, none, []⟩
    | some td => ⟨0, some td.value, []⟩
  else ⟨0, none, []⟩

/-- The function `SWTPM_NVRAM_GetDecryptedData` (swtpm_nvfile.c:940); every caller passes a
non-NULL `key`. -/
def SWTPM_NVRAM_GetDecryptedData (env : Env) (key : encryptionkey) (data : Bytes)
    (tag_encrypted_data tag_data : Nat) (hdrversion : Nat) : Option DataOut :=
  if key.symkey.valid then
    SWTPM_NVRAM_DecryptData env key data tag_encrypted_data hdrversion
  else some (SWTPM_NVRAM_GetPlainData data tag_data hdrversion)

/-! ## Files -/

/-- The constant `FILENAME_MAX` of `stdio.h` (glibc). -/
def FILENAME_MAX : Nat := 4096

/-- Output of the conversion `%02lx`: lower-case hexadecimal, at least two digits. -/
def fmt_02lx (n : Nat) : Bytes :=
  let ds := (Nat.toDigits 16 n).map (fun c => c.toNat)
  if ds.length < 2 then 48 :: ds else ds

/-- The function `SWTPM_NVRAM_GetFilenameForName` (swtpm_nvfile.c:506): C strings are byte
lists; `snprintf` returns the untruncated length `n` and stores at most
`bufsize - 1` characters. -/
def SWTPM_NVRAM_GetFilenameForName (state_directory : Bytes) (bufsize : Nat)
    (tpm_number : Nat) (name : Bytes) : Nat × Bytes :=
  let full := state_directory ++ [47, 116, 112, 109, 45] ++ fmt_02lx tpm_number ++ [46] ++ name
  let n := full.length
  (if n > bufsize then TPM_FAIL else TPM_SUCCESS, full.take (bufsize - 1))

/-- The state directory and its files: `files path` is the content of the file at `path`,
`none` when there is no such file. -/
structure FileSys where
  state_directory : Bytes
  files : Bytes → Option Bytes

/-- Failures of the C library calls of one load or store; all `false` when every
call succeeds. `fopen_fails` is a failure with an `errno` other than `ENOENT`. -/
structure IOFaults where
  fopen_fails : Bool
  fchmod_fails : Bool
  fseek_end_fails : Bool
  ftell_fails : Bool
  fseek_set_fails : Bool
  fread_short : Bool
  fwrite_short : Bool
  fclose_fails : Bool
  deriving DecidableEq, Repr

def noFaults : IOFaults := ⟨false, false, false, false, false, false, false, false⟩

/-- Replacement of one file (`none` removes it). -/
def FileSys.set (fs : FileSys) (path : Bytes) (c : Option Bytes) : FileSys :=
  { fs with files := fun p => if p = path then c else fs.files p }

/-! ## Load and store -/

/-- Outputs of `SWTPM_NVRAM_LoadData`: the result code, `*data` (`none` is `NULL`) and
`*length` (`none` when it is the value of the uninitialised local `decrypt_length`). -/
structure LoadOut where
  rc : Nat
  data : Option Bytes
  length : Option Nat
  deriving DecidableEq, Repr

/-- The tail of `SWTPM_NVRAM_LoadData` (swtpm_nvfile.c:336-374), which runs once the file
has been read into `data`: check for a header, fall back to header version 1, and get the
plain data with the state key. Forming `*data + dataoffset` beyond the end of the
buffer is undefined. -/
def SWTPM_NVRAM_LoadData_unwrap (env : Env) (filekey : encryptionkey) (data : Bytes) :
    Option LoadOut :=
  match SWTPM_NVRAM_CheckHeader data with
  | .outOfBounds => none
  | irc =>
    let hdrversion := match irc with | .ok v _ _ => v | _ => 1
    let dataoffset := match irc with | .ok _ off _ => off | _ => 0
    if dataoffset > data.length then none
    else
      match SWTPM_NVRAM_GetDecryptedData env filekey (data.drop dataoffset)
              env.TAG_ENCRYPTED_DATA env.TAG_DATA hdrversion with
      | none => none
      | some r =>
        if r.rc = 0 then some ⟨0, r.data, r.data.map List.length⟩
        else some ⟨r.rc, none, some data.length⟩

/-- The function `SWTPM_NVRAM_LoadData` (swtpm_nvfile.c:214). -/
def SWTPM_NVRAM_LoadData (env : Env) (fs : FileSys) (io : IOFaults) (filekey : encryptionkey)
    (tpm_number : Nat) (name : Bytes) : Option LoadOut :=
  let fn := SWTPM_NVRAM_GetFilenameForName fs.state_directory FILENAME_MAX tpm_number name
  if fn.1 ≠ 0 then some ⟨fn.1, none, some 0⟩
  else if io.fopen_fails then some ⟨TPM_FAIL, none, some 0⟩
  else
    match fs.files fn.2 with
    | none => some ⟨TPM_RETRY, none, some 0⟩
    | some contents =>
      let rc1 := if io.fchmod_fails then TPM_FAIL else 0
      let rc2 := if rc1 = 0 ∧ io.fseek_end_fails then TPM_FAIL else rc1
      let rc3 := if rc2 = 0 ∧ io.ftell_fails then TPM_FAIL else rc2
      let length := if rc3 = 0 then contents.length % 4294967296 else 0
      let rc4 := if rc3 = 0 ∧ io.fseek_set_fails then TPM_FAIL else rc3
      let rc5 := if rc4 = 0 ∧ length ≠ 0 ∧ io.fread_short then TPM_FAIL else rc4
      let rc6 := if io.fclose_fails then TPM_FAIL else rc5
      if rc6 = 0 then SWTPM_NVRAM_LoadData_unwrap env filekey (contents.take length)
      else some ⟨rc6, none, some length⟩

/-- Outputs of `SWTPM_NVRAM_StoreData_Intern`: the result code, the buffer `filedata`
handed to `fwrite` (`none` when `fwrite` is not reached) and the files afterwards. -/
structure StoreOut where
  rc : Nat
  filedata : Option Bytes
  fs : FileSys

/-- The part of `SWTPM_NVRAM_StoreData_Intern` (swtpm_nvfile.c:429-453) that builds the
blob: result code and `filedata`. -/
def SWTPM_NVRAM_StoreData_filedata (env : Env) (filekey : encryptionkey) (data : Bytes)
    (encrypt : Bool) : Option (Nat × Bytes) :=
  let e : Nat × List tlv_data × Nat :=
    if encrypt ∧ filekey.symkey.valid then
      let r := SWTPM_NVRAM_EncryptData env filekey env.TAG_ENCRYPTED_DATA data
      (r.1, r.2, BLOB_FLAG_ENCRYPTED)
    else (0, [TLV_DATA env.TAG_DATA data], 0)
  if e.1 ≠ 0 then some (e.1, [])
  else SWTPM_NVRAM_PrependHeader (tlv_data_append [] e.2.1) e.2.2

/-- The function `SWTPM_NVRAM_StoreData_Intern` (swtpm_nvfile.c:384). `fopen(filename, "wb")`
creates or truncates the file; after a failure with the file open the file
is unlinked. -/
def SWTPM_NVRAM_StoreData_Intern (env : Env) (fs : FileSys) (io : IOFaults)
    (filekey : encryptionkey) (data : Bytes) (tpm_number : Nat) (name : Bytes)
    (encrypt : Bool) : Option StoreOut :=
  let fn := SWTPM_NVRAM_GetFilenameForName fs.state_directory FILENAME_MAX tpm_number name
  if fn.1 ≠ 0 then some ⟨fn.1, none, fs⟩
  else if io.fopen_fails then some ⟨TPM_FAIL, none, fs⟩
  else
    let fs1 := fs.set fn.2 (some [])
    if io.fchmod_fails then some ⟨TPM_FAIL, none, fs1.set fn.2 none⟩
    else
      match SWTPM_NVRAM_StoreData_filedata env filekey data encrypt with
      | none => none
      | some (rc, filedata) =>
        if rc ≠ 0 then some ⟨if io.fclose_fails then TPM_FAIL else rc, none, fs1.set fn.2 none⟩
        else if io.fwrite_short ∨ io.fclose_fails then
          some ⟨TPM_FAIL, some filedata, fs1.set fn.2 none⟩
        else some ⟨0, some filedata, fs1.set fn.2 (some filedata)⟩

/-- The function `SWTPM_NVRAM_StoreData` (swtpm_nvfile.c:491). -/
def SWTPM_NVRAM_StoreData (env : Env) (fs : FileSys) (io : IOFaults)
    (filekey : encryptionkey) (data : Bytes) (tpm_number : Nat) (name : Bytes) :
    Option StoreOut :=
  SWTPM_NVRAM_StoreData_Intern env fs io filekey data tpm_number name true

/-- The function `SWTPM_NVRAM_Has_FileKey` (swtpm_nvfile.c:605). -/
def SWTPM_NVRAM_Has_FileKey (keys : Keys) : Bool := keys.filekey.symkey.valid

/-- The function `SWTPM_NVRAM_Has_MigrationKey` (swtpm_nvfile.c:626). -/
def SWTPM_NVRAM_Has_MigrationKey (keys : Keys) : Bool := keys.migrationkey.symkey.valid

/-! ## Export and import of state blobs -/

/-- Blob types of the control channel (`ptm_ioctl.h`). -/
def PTM_BLOB_TYPE_PERMANENT : Nat := 1
def PTM_BLOB_TYPE_VOLATILE : Nat := 2
def PTM_BLOB_TYPE_SAVESTATE : Nat := 3

/-- State types of libtpms (`enum TPMLIB_StateType` of `tpm_library.h`). -/
def TPMLIB_STATE_PERMANENT : Nat := 1
def TPMLIB_STATE_VOLATILE : Nat := 2
def TPMLIB_STATE_SAVE_STATE : Nat := 4

/-- The function `tpmlib_blobtype_to_statetype` (tpmlib.c:572). -/
def tpmlib_blobtype_to_statetype (blobtype : Nat) : Nat :=
  if blobtype = PTM_BLOB_TYPE_PERMANENT then TPMLIB_STATE_PERMANENT
  else if blobtype = PTM_BLOB_TYPE_VOLATILE then TPMLIB_STATE_VOLATILE
  else if blobtype = PTM_BLOB_TYPE_SAVESTATE then TPMLIB_STATE_SAVE_STATE
  else 0

/-- Outputs of `SWTPM_NVRAM_GetStateBlob`: the result code, `*data` (`none` is `NULL`) and
`*is_encrypted` (`none` when the function did not write it). -/
structure BlobOut where
  rc : Nat
  data : Option Bytes
  is_encrypted : Option Bool
  deriving DecidableEq, Repr

/-- The function `SWTPM_NVRAM_GetStateBlob` (swtpm_nvfile.c:1048). When `LoadData` returns 0
with a `NULL` buffer, its length is indeterminate and the record built from them
makes the following copy read through `NULL`. -/
def SWTPM_NVRAM_GetStateBlob (env : Env) (fs : FileSys) (io : IOFaults) (keys : Keys)
    (tpm_number : Nat) (name : Bytes) (decrypt : Bool) : Option BlobOut :=
  match SWTPM_NVRAM_LoadData env fs io keys.filekey tpm_number name with
  | none => none
  | some l =>
    if l.rc ≠ 0 then some ⟨l.rc, none, none⟩
    else
      match l.data with
      | none => none
      | some plain =>
        let enc := (!decrypt) && keys.filekey.symkey.valid
        let inner : Nat × List tlv_data :=
          if enc then SWTPM_NVRAM_EncryptData env keys.filekey env.TAG_ENCRYPTED_DATA plain
          else (0, [TLV_DATA env.TAG_DATA plain])
        if inner.1 ≠ 0 then some ⟨inner.1, none, none⟩
        else
          let is_encrypted := enc
          let buffer := tlv_data_append [] inner.2
          let outer : Nat × List tlv_data × Nat :=
            if keys.migrationkey.symkey.valid then
              let r := SWTPM_NVRAM_EncryptData env keys.migrationkey
                         env.TAG_ENCRYPTED_MIGRATION_DATA buffer
              (r.1, r.2, BLOB_FLAG_MIGRATION_ENCRYPTED)
            else (0, [TLV_DATA env.TAG_MIGRATION_DATA buffer], 0)
          if outer.1 ≠ 0 then some ⟨outer.1, none, some is_encrypted⟩
          else
            let flags := outer.2.2 ||| BLOB_FLAG_MIGRATION_DATA
            let flags := if is_encrypted then flags ||| BLOB_FLAG_ENCRYPTED else flags
            match SWTPM_NVRAM_PrependHeader (tlv_data_append [] outer.2.1) flags with
            | none => none
            | some r => some ⟨r.1, some r.2, some is_encrypted⟩

/-- Subtraction of two `uint32_t` values. -/
def sub32 (a b : Nat) : Nat := (a % 4294967296 + 4294967296 - b % 4294967296) % 4294967296

/-- Outputs of `SWTPM_NVRAM_SetStateBlob`: the result code and the calls made. -/
structure SetOut where
  rc : Nat
  calls : List Call
  deriving DecidableEq, Repr

/-- The call `TPMLIB_SetState(st, buffer, length)` as last action. -/
def callSetState (env : Env) (calls : List Call) (st : Nat) (buffer : Option Bytes) : SetOut :=
  ⟨env.TPMLIB_SetState st buffer, calls ++ [.SetState st buffer]⟩

/-- The second half of `SWTPM_NVRAM_SetStateBlob` (swtpm_nvfile.c:1204-1243), after the
migration layer has been taken off: `mig_decrypt` is `none` for the `NULL` pointer with
length 0 that a callee which wrote no output leaves behind. -/
def SWTPM_NVRAM_SetStateBlob_inner (env : Env) (keys : Keys) (is_encrypted : Bool)
    (st hdrflags hdrversion : Nat) (mig_decrypt : Option Bytes) (calls : List Call) :
    Option SetOut :=
  if is_encrypted ∨ hdrflags &&& BLOB_FLAG_ENCRYPTED ≠ 0 then
    if !SWTPM_NVRAM_Has_FileKey keys then some ⟨TPM_KEYNOTFOUND, calls⟩
    else
      match SWTPM_NVRAM_DecryptData env keys.filekey (mig_decrypt.getD [])
              env.TAG_ENCRYPTED_DATA hdrversion with
      | none => none
      | some r =>
        if r.rc ≠ 0 then some ⟨r.rc, calls ++ r.calls⟩
        else some (callSetState env (calls ++ r.calls) st r.data)
  else
    let r := SWTPM_NVRAM_GetPlainData (mig_decrypt.getD []) env.TAG_DATA hdrversion
    if r.rc ≠ 0 then some ⟨r.rc, calls⟩
    else some (callSetState env calls st r.data)

/-- The function `SWTPM_NVRAM_SetStateBlob` (swtpm_nvfile.c:1136). Forming `&data[dataoffset]`
beyond the end of the buffer is undefined. -/
def SWTPM_NVRAM_SetStateBlob (env : Env) (keys : Keys) (data : Bytes) (is_encrypted : Bool)
    (blobtype : Nat) : Option SetOut :=
  let st := tpmlib_blobtype_to_statetype blobtype
  if st = 0 then some ⟨TPM_BAD_PARAMETER, []⟩
  else if data.length = 0 then some (callSetState env [] st none)
  else
    match SWTPM_NVRAM_CheckHeader data with
    | .outOfBounds => none
    | .err res => some ⟨res, []⟩
    | .ok hdrversion dataoffset hdrflags =>
      if sub32 data.length dataoffset = 0 then some (callSetState env [] st none)
      else if hdrflags &&& BLOB_FLAG_MIGRATION_ENCRYPTED ≠ 0 then
        if !SWTPM_NVRAM_Has_MigrationKey keys then some ⟨TPM_KEYNOTFOUND, []⟩
        else if dataoffset > data.length then none
        else
          match SWTPM_NVRAM_DecryptData env keys.migrationkey (data.drop dataoffset)
                  env.TAG_ENCRYPTED_MIGRATION_DATA hdrversion with
          | none => none
          | some r =>
            if r.rc ≠ 0 then some ⟨r.rc, r.calls⟩
            else SWTPM_NVRAM_SetStateBlob_inner env keys is_encrypted st hdrflags hdrversion
                   r.data r.calls
      else if dataoffset > data.length then none
      else
        let r := SWTPM_NVRAM_GetPlainData (data.drop dataoffset) env.TAG_MIGRATION_DATA
                   hdrversion
        if r.rc ≠ 0 then some ⟨r.rc, []⟩
        else SWTPM_NVRAM_SetStateBlob_inner env keys is_encrypted st hdrflags hdrversion
               r.data []

/-- The five tags of `tlv.h` are 16-bit values, and the HMAC tag differs from the two
tags for encrypted data. -/
def tagsOk (env : Env) : Prop :=
  env.TAG_DATA < 65536 ∧ env.TAG_ENCRYPTED_DATA < 65536 ∧ env.TAG_HMAC < 65536 ∧
  env.TAG_MIGRATION_DATA < 65536 ∧ env.TAG_ENCRYPTED_MIGRATION_DATA < 65536 ∧
  env.TAG_ENCRYPTED_DATA ≠ env.TAG_HMAC ∧ env.TAG_ENCRYPTED_MIGRATION_DATA ≠ env.TAG_HMAC

instance (env : Env) : Decidable (tagsOk env) := by
  unfold tagsOk
  infer_instance

/-! ## A concrete environment for evaluation -/

/-- A toy cipher standing in for AES-CBC in evaluations: `Encrypt` puts the first key byte
in front of the reversed plaintext, `Decrypt` undoes that and fails on a foreign first
byte; the toy MAC is 31 zero bytes and the sum of key and data bytes modulo 256. -/
def toyEnv : Env where
  TAG_DATA := 1
  TAG_ENCRYPTED_DATA := 2
  TAG_HMAC := 3
  TAG_MIGRATION_DATA := 4
  TAG_ENCRYPTED_MIGRATION_DATA := 5
  TPM_SymmetricKeyData_Encrypt := fun k d => (0, k.userKey.headD 0 :: d.reverse)
  TPM_SymmetricKeyData_Decrypt := fun k d =>
    match d with
    | [] => (TPM_FAIL, [])
    | b :: r => if b = k.userKey.headD 0 then (0, r.reverse) else (TPM_FAIL, [])
  HMAC := fun k d => some (List.replicate 31 0 ++ [(k.sum + d.sum) % 256])
  SHA256 := fun d => List.replicate 31 0 ++ [d.sum % 256]
  TPMLIB_SetState := fun _ _ => 0

/-- A valid 16-byte AES-CBC key whose bytes all equal `b`. -/
def aesKey (b : Nat) : encryptionkey :=
  ⟨.ENCRYPTION_MODE_AES_CBC, ⟨true, List.replicate 16 b⟩⟩

/-- A state directory `/s` without files. -/
def emptyFs : FileSys := ⟨[47, 115], fun _ => none⟩

/-- The blob that `StoreData` writes for "hello" without a key (flags 0, one DATA
record, tags of `toyEnv`). -/
def helloBlob : Bytes :=
  [2, 1, 0, 10, 0, 0, 0, 0, 0, 21, 0, 1, 0, 0, 0, 5, 104, 101, 108, 108, 111]

/-- The blob that `StoreData` writes for "hello" under `aesKey 7` with the toy cipher
(flags ENCRYPTED, an ENCRYPTED_DATA record and an HMAC record). -/
def helloBlobEncrypted : Bytes :=
  [2, 1, 0, 10, 0, 1, 0, 0, 0, 60, 0, 2, 0, 0, 0, 6, 7, 111, 108, 108, 101, 104,
   0, 3, 0, 0, 0, 32] ++ List.replicate 31 0 ++ [139]

/-- The blob that `GetStateBlob` exports for `helloBlobEncrypted` with the state key
`aesKey 7` and the migration key `aesKey 9` installed and `decrypt = false` (flags 7). -/
def helloExport : Bytes :=
  [2, 1, 0, 10, 0, 7, 0, 0, 0, 105, 0, 5, 0, 0, 0, 51, 9, 139] ++ List.replicate 31 0
    ++ [32, 0, 0, 0, 3, 0, 104, 101, 108, 108, 111, 7, 6, 0, 0, 0, 2, 0, 0, 3, 0, 0, 0, 32]
    ++ List.replicate 31 0 ++ [106]

/-- The blob that `GetStateBlob` exports for `helloBlob` with no key installed (flags 4:
a MIGRATION_DATA record around the DATA record). -/
def helloExportPlain : Bytes :=
  [2, 1, 0, 10, 0, 4, 0, 0, 0, 27, 0, 4, 0, 0, 0, 11, 0, 1, 0, 0, 0, 5,
   104, 101, 108, 108, 111]

/-- The state directory `/s` holding `blob` as the file `/s/tpm-00.p`, the file of the
blob named `p` of TPM 0. -/
def fsWith (blob : Bytes) : FileSys :=
  emptyFs.set [47, 115, 47, 116, 112, 109, 45, 48, 48, 46, 112] (some blob)

/-! ## Setting the keys -/

/-- The function `SWTPM_NVRAM_KeyParamCheck` (swtpm_nvfile.c:586): the length test comes
first, the `switch` on the mode overrides its result for the unknown mode. -/
def SWTPM_NVRAM_KeyParamCheck (keylen : Nat) (encmode : encryption_mode) : Nat :=
  let rc := if keylen ≠ TPM_AES_BLOCK_SIZE then TPM_BAD_KEY_PROPERTY else 0
  match encmode with
  | .ENCRYPTION_MODE_AES_CBC => rc
  | .ENCRYPTION_MODE_UNKNOWN => TPM_BAD_MODE

/-- Result of `memcpy(dst, src, n)` with `n` the length of `src`: the first `n` bytes of
`dst` are replaced, the others stay. -/
def memcpy (dst src : Bytes) : Bytes := src ++ dst.drop src.length

/-- The function `SWTPM_NVRAM_Set_FileKey` (swtpm_nvfile.c:610) on the key registry: the
result code and the registry afterwards; `key` holds the `keylen` bytes passed. -/
def SWTPM_NVRAM_Set_FileKey (keys : Keys) (key : Bytes) (encmode : encryption_mode) :
    Nat × Keys :=
  let rc := SWTPM_NVRAM_KeyParamCheck key.length encmode
  if rc = 0 then
    (rc, { keys with
            filekey := ⟨encmode, ⟨true, memcpy keys.filekey.symkey.userKey key⟩⟩ })
  else (rc, keys)

/-- The function `SWTPM_NVRAM_Set_MigrationKey` (swtpm_nvfile.c:631). -/
def SWTPM_NVRAM_Set_MigrationKey (keys : Keys) (key : Bytes) (encmode : encryption_mode) :
    Nat × Keys :=
  let rc := SWTPM_NVRAM_KeyParamCheck key.length encmode
  if rc = 0 then
    (rc, { keys with
            migrationkey := ⟨encmode, ⟨true, memcpy keys.migrationkey.symkey.userKey key⟩⟩ })
  else (rc, keys)

/-- The key registry at program start: both static keys have `.symkey.valid = FALSE`. -/
def initialKeys : Keys := ⟨nokey, nokey⟩

/-- A headerless legacy file: the 32-byte toy digest of "hello" followed by "hello". -/
def legacyFile : Bytes := List.replicate 31 0 ++ [20] ++ [104, 101, 108, 108, 111]

/-! ## The request pipeline (`src/swtpm/tpmlib.c`, built with `WITH_VTPM_PROXY`) -/

/-- The enumeration `TPMLIB_TPMVersion` of libtpms. -/
inductive TPMLIB_TPMVersion where
  | TPMLIB_TPM_VERSION_1_2
  | TPMLIB_TPM_VERSION_2
  deriving DecidableEq, Repr

/-- Result codes of TPM 1.2 (`tpm_error.h`) and TPM 2 used by the pipeline. -/
def TPM_BAD_PARAM_SIZE : Nat := 25
def TPM_BAD_LOCALITY : Nat := 61
def TPM_RC_INITIALIZE : Nat := 256
def TPM_RC_FAILURE : Nat := 257
def TPM_RC_LOCALITY : Nat := 263
def TPM_RC_INSUFFICIENT : Nat := 154

/-- Structure tags and startup types of TPM 2, and the opcode of the TCG transport prefix. -/
def TPM2_ST_NO_SESSION : Nat := 32769
def TPM2_ST_SESSIONS : Nat := 32770
def TPM2_SU_CLEAR : Nat := 0
def TPM2_SU_STATE : Nat := 1
def TPM2_SEND_COMMAND : Nat := 8

/-- Ordinals of the cancelable commands and of `TPM2_Shutdown` (TCG command codes). -/
def TPMLIB_TPM_ORD_TakeOwnership : Nat := 13
def TPMLIB_TPM_ORD_CreateWrapKey : Nat := 31
def TPMLIB_TPM2_CC_CreatePrimary : Nat := 305
def TPMLIB_TPM2_CC_Create : Nat := 339
def TPMLIB_TPM2_CC_Shutdown : Nat := 325

/-- Size of the packed `struct tpm_req_header`: tag (u16), size (u32), ordinal (u32). -/
def sizeof_tpm_req_header : Nat := 10

/-- Size of the packed `struct tpm_resp_header`: tag (u16), size (u32), errcode (u32). -/
def sizeof_tpm_resp_header : Nat := 10

/-- Size of the packed `struct tpm2_send_command_prefix`: cmd (u32), locality (u8),
size (u32); the locality byte is at offset 4. -/
def sizeof_tpm2_send_command_prefix : Nat := 9

/-- Constants of swtpm headers that are not among the sources (`vtpm_proxy.h`,
`locality.h`, `tpmlib.h`): the two vendor ordinals for SET_LOCALITY, the value that stands
for "no ordinal", and the two bits of the locality flags. They are parameters. -/
structure Consts where
  TPM_CC_SET_LOCALITY : Nat
  TPM2_CC_SET_LOCALITY : Nat
  TPM_ORDINAL_NONE : Nat
  LOCALITY_FLAG_REJECT_LOCALITY_4 : Nat
  LOCALITY_FLAG_ALLOW_SETLOCALITY : Nat
  deriving DecidableEq, Repr

/-- The response buffer of the caller: `*rbuffer` (`none` is `NULL`, otherwise the bytes
of the allocation), `*rlength` and `*rTotal`. -/
structure Resp where
  rbuffer : Option Bytes
  rlength : Nat
  rTotal : Nat
  deriving DecidableEq, Repr

/-- The 10 bytes of `struct tpm_resp_header errresp` in `tpmlib_write_error_response`. -/
def errresp (errcode : Nat) (tpmversion : TPMLIB_TPMVersion) : Bytes :=
  htons (if tpmversion = .TPMLIB_TPM_VERSION_2 then 32769 else 196)
    ++ htonl sizeof_tpm_resp_header ++ htonl errcode

/-- The function `tpmlib_write_error_response` (tpmlib.c:392). `malloc_ok` says whether the
`malloc` of a new buffer succeeds; a new allocation holds no determined bytes before the
header is copied into it. -/
def tpmlib_write_error_response (malloc_ok : Bool) (r : Resp) (errcode : Nat)
    (tpmversion : TPMLIB_TPMVersion) : Resp :=
  let r1 : Resp :=
    if r.rbuffer = none ∨ r.rTotal < sizeof_tpm_resp_header then
      if malloc_ok then ⟨some [], r.rlength, sizeof_tpm_resp_header⟩
      else ⟨none, r.rlength, 0⟩
    else r
  match r1.rbuffer with
  | some b =>
    ⟨some (memcpy b (errresp errcode tpmversion)), sizeof_tpm_resp_header, r1.rTotal⟩
  | none => r1

/-- The function `tpmlib_write_fatal_error_response` (tpmlib.c:421). -/
def tpmlib_write_fatal_error_response (malloc_ok : Bool) (r : Resp)
    (tpmversion : TPMLIB_TPMVersion) : Resp :=
  tpmlib_write_error_response malloc_ok r
    (if tpmversion = .TPMLIB_TPM_VERSION_2 then TPM_RC_FAILURE else TPM_FAIL) tpmversion

/-- The function `tpmlib_write_locality_error_response` (tpmlib.c:434). -/
def tpmlib_write_locality_error_response (malloc_ok : Bool) (r : Resp)
    (tpmversion : TPMLIB_TPMVersion) : Resp :=
  tpmlib_write_error_response malloc_ok r
    (if tpmversion = .TPMLIB_TPM_VERSION_2 then TPM_RC_LOCALITY else TPM_BAD_LOCALITY)
    tpmversion

/-- The function `tpmlib_write_success_response` (tpmlib.c:447). -/
def tpmlib_write_success_response (malloc_ok : Bool) (r : Resp)
    (tpmversion : TPMLIB_TPMVersion) : Resp :=
  tpmlib_write_error_response malloc_ok r 0 tpmversion

/-- The function `tpmlib_write_shortmsg_error_response` (tpmlib.c:457). -/
def tpmlib_write_shortmsg_error_response (malloc_ok : Bool) (r : Resp)
    (tpmversion : TPMLIB_TPMVersion) : Resp :=
  tpmlib_write_error_response malloc_ok r
    (if tpmversion = .TPMLIB_TPM_VERSION_2 then TPM_RC_INSUFFICIENT else TPM_BAD_PARAM_SIZE)
    tpmversion

/-- Outputs of `tpmlib_process`: the result code, the response buffer, the locality, and
the commands handed on to the TPM library (the function makes no such call). -/
structure ProcessOut where
  rc : Nat
  resp : Resp
  locality : Nat
  forwarded : List Bytes
  deriving DecidableEq, Repr

/-- The function `tpmlib_process_setlocality` (tpmlib.c:470). The byte `command[10]` is
read only when the command has at least 11 bytes. -/
def tpmlib_process_setlocality (c : Consts) (malloc_ok : Bool) (r : Resp) (command : Bytes)
    (tpmversion : TPMLIB_TPMVersion) (locality_flags : Nat) (locality : Nat) : ProcessOut :=
  if command.length ≥ sizeof_tpm_req_header + 1 then
    if locality_flags &&& c.LOCALITY_FLAG_ALLOW_SETLOCALITY = 0 then
      ⟨TPM_SUCCESS, tpmlib_write_fatal_error_response malloc_ok r tpmversion, locality, []⟩
    else
      let new_locality := command.getD sizeof_tpm_req_header 0
      if new_locality ≥ 5 ∨
          (new_locality = 4 ∧ locality_flags &&& c.LOCALITY_FLAG_REJECT_LOCALITY_4 ≠ 0) then
        ⟨TPM_SUCCESS, tpmlib_write_locality_error_response malloc_ok r tpmversion,
          locality, []⟩
      else
        ⟨TPM_SUCCESS, tpmlib_write_success_response malloc_ok r tpmversion,
          new_locality, []⟩
  else
    ⟨TPM_SUCCESS, tpmlib_write_shortmsg_error_response malloc_ok r tpmversion, locality, []⟩

/-- The big-endian `ordinal` field (bytes 6..9) of a request of at least 10 bytes. -/
def req_ordinal (command : Bytes) : Nat := (rd32 command 6).getD 0

/-- The function `tpmlib_process` (tpmlib.c:510). -/
def tpmlib_process (c : Consts) (malloc_ok : Bool) (r : Resp) (command : Bytes)
    (locality_flags : Nat) (locality : Nat) (tpmversion : TPMLIB_TPMVersion) : ProcessOut :=
  if command.length < sizeof_tpm_req_header then
    ⟨TPM_SUCCESS, tpmlib_write_shortmsg_error_response malloc_ok r tpmversion, locality, []⟩
  else
    let ordinal := req_ordinal command
    match tpmversion with
    | .TPMLIB_TPM_VERSION_1_2 =>
      if ordinal = c.TPM_CC_SET_LOCALITY then
        tpmlib_process_setlocality c malloc_ok r command tpmversion locality_flags locality
      else ⟨TPM_SUCCESS, r, locality, []⟩
    | .TPMLIB_TPM_VERSION_2 =>
      if ordinal = c.TPM2_CC_SET_LOCALITY then
        tpmlib_process_setlocality c malloc_ok r command tpmversion locality_flags locality
      else ⟨TPM_SUCCESS, r, locality, []⟩

/-- The function `tpmlib_get_cmd_ordinal` (tpmlib.c:364). -/
def tpmlib_get_cmd_ordinal (c : Consts) (request : Bytes) : Nat :=
  if request.length < sizeof_tpm_req_header then c.TPM_ORDINAL_NONE
  else req_ordinal request

/-- The function `tpmlib_is_request_cancelable` (tpmlib.c:375). -/
def tpmlib_is_request_cancelable (c : Consts) (tpmversion : TPMLIB_TPMVersion)
    (request : Bytes) : Bool :=
  let ordinal := tpmlib_get_cmd_ordinal c request
  if ordinal = c.TPM_ORDINAL_NONE then false
  else if tpmversion = .TPMLIB_TPM_VERSION_2 then
    ordinal = TPMLIB_TPM2_CC_CreatePrimary || ordinal = TPMLIB_TPM2_CC_Create
  else
    ordinal = TPMLIB_TPM_ORD_TakeOwnership || ordinal = TPMLIB_TPM_ORD_CreateWrapKey

/-- The function `tpmlib_handle_tcg_tpm2_cmd_header` (tpmlib.c:593): the returned offset
and the locality afterwards. The tag is read only when the buffer holds a request
header. -/
def tpmlib_handle_tcg_tpm2_cmd_header (command : Bytes) (locality : Nat) : Nat × Nat :=
  if command.length < sizeof_tpm_req_header ∨
      (rd16 command 0).getD 0 = TPM2_ST_NO_SESSION ∨
      (rd16 command 0).getD 0 = TPM2_ST_SESSIONS ∨
      command.length < sizeof_tpm2_send_command_prefix then (0, locality)
  else if (rd32 command 0).getD 0 = TPM2_SEND_COMMAND then
    ( sizeof_tpm2_send_command_prefix, command.getD 4 0)
  else (0, locality)

/-- What one call of `TPMLIB_Process` hands back: the result code and the `rlength`
bytes of the response buffer. -/
structure ProcessReply where
  res : Nat
  response : Bytes
  deriving DecidableEq, Repr

/-- The 12 bytes of `struct tpm2_shutdown` with the given shutdown type. -/
def tpm2_shutdown (shutdownType : Nat) : Bytes :=
  htons TPM2_ST_NO_SESSION ++ htonl 12 ++ htonl TPMLIB_TPM2_CC_Shutdown
    ++ htons shutdownType

/-- The `for` loop of `tpmlib_maybe_send_tpm2_shutdown` over the remaining shutdown types:
the state of the library, the commands sent so far and `*lastCommand`. -/
def shutdown_loop {σ : Type} (TPMLIB_Process : σ → Bytes → σ × ProcessReply) :
    List Nat → σ → List Bytes → Nat → σ × List Bytes × Nat
  | [], s, sent, lastCommand => (s, sent, lastCommand)
  | t :: ts, s, sent, lastCommand =>
    let p := TPMLIB_Process s (tpm2_shutdown t)
    if p.2.res ≠ 0 ∨ p.2.response.length < sizeof_tpm_resp_header then
      shutdown_loop TPMLIB_Process ts p.1 (sent ++ [tpm2_shutdown t]) lastCommand
    else
      let errcode := (rd32 p.2.response 6).getD 0
      if errcode = TPM_SUCCESS then
        (p.1, sent ++ [tpm2_shutdown t], TPMLIB_TPM2_CC_Shutdown)
      else if errcode = TPM_RC_INITIALIZE then
        (p.1, sent ++ [tpm2_shutdown t], lastCommand)
      else shutdown_loop TPMLIB_Process ts p.1 (sent ++ [tpm2_shutdown t]) lastCommand

/-- The function `tpmlib_maybe_send_tpm2_shutdown` (tpmlib.c:681) with `TPMLIB_Process`
as an oracle on a library state: the state afterwards, the commands sent in order and
`*lastCommand`. -/
def tpmlib_maybe_send_tpm2_shutdown {σ : Type}
    (TPMLIB_Process : σ → Bytes → σ × ProcessReply) (s : σ)
    (tpmversion : TPMLIB_TPMVersion) (lastCommand : Nat) : σ × List Bytes × Nat :=
  if tpmversion ≠ .TPMLIB_TPM_VERSION_2 ∨ lastCommand = TPMLIB_TPM2_CC_Shutdown then
    (s, [], lastCommand)
  else shutdown_loop TPMLIB_Process [TPM2_SU_STATE, TPM2_SU_CLEAR] s [] lastCommand

/-- Modelled from the spec: values for the constants of the missing headers, used for
evaluation. The TPM 2 SET_LOCALITY ordinal is the one that the command of scenario 3 of
the spec carries (`00 00 01 3B`); the TPM 1.2 ordinal, "no ordinal" and the two flag bits
are example values. -/
def exampleConsts : Consts := ⟨315, 315, 0, 1, 2⟩

/-- The SetLocality(3) command of scenario 3 of the spec. -/
def setLocality3 : Bytes := [128, 1, 0, 0, 0, 11, 0, 0, 1, 59, 3]

/-- An empty response buffer: `rbuffer = NULL`, `rlength = 0`, `rTotal = 0`. -/
def noResp : Resp := ⟨none, 0, 0⟩

/-- A well-formed in-band reply with result code `code`: `rlength` is 10, `rTotal` is at
least 10, and the first 10 bytes of the buffer are the tag (`80 01` for TPM 2, `00 C4` for
TPM 1.2), the size 10 and the result code, all big-endian. -/
def WellFormedReply (o : Resp) (tpmversion : TPMLIB_TPMVersion) (code : Nat) : Prop :=
  o.rlength = 10 ∧ 10 ≤ o.rTotal ∧
  ∃ b, o.rbuffer = some b ∧
    b.take 10 = (if tpmversion = .TPMLIB_TPM_VERSION_2 then [128, 1] else [0, 196])
                  ++ [0, 0, 0, 10] ++ htonl code

/-- The SET_LOCALITY ordinal of the TPM version. -/
def setLocalityOrdinal (c : Consts) (tpmversion : TPMLIB_TPMVersion) : Nat :=
  match tpmversion with
  | .TPMLIB_TPM_VERSION_1_2 => c.TPM_CC_SET_LOCALITY
  | .TPMLIB_TPM_VERSION_2 => c.TPM2_CC_SET_LOCALITY

/-- The claim's "returned result code 0" for one call of `TPMLIB_Process`: no library
error, a response of at least a response header, and the big-endian result code 0. -/
def shutdownSucceeded (p : ProcessReply) : Prop :=
  p.res = 0 ∧ sizeof_tpm_resp_header ≤ p.response.length ∧
    (rd32 p.response 6).getD 0 = TPM_SUCCESS

/-- The claim's "attempt failed" for one call of `TPMLIB_Process`: a library error, a
response shorter than a response header, or a non-zero result code other than
TPM_RC_INITIALIZE. -/
def shutdownFailed (p : ProcessReply) : Prop :=
  p.res ≠ 0 ∨ p.response.length < sizeof_tpm_resp_header ∨
    ((rd32 p.response 6).getD 0 ≠ TPM_SUCCESS ∧
      (rd32 p.response 6).getD 0 ≠ TPM_RC_INITIALIZE)

instance (p : ProcessReply) : Decidable (shutdownSucceeded p) := by
  unfold shutdownSucceeded
  infer_instance

instance (p : ProcessReply) : Decidable (shutdownFailed p) := by
  unfold shutdownFailed
  infer_instance

/-- A library for evaluation: its state counts the calls, and call number `n` (from 0)
answers with a TPM 2 response header whose result code is `codes n`. -/
def countingLibrary (codes : Nat → Nat) : Nat → Bytes → Nat × ProcessReply :=
  fun n _ => (n + 1, ⟨0, [128, 1, 0, 0, 0, 10] ++ htonl (codes n)⟩)

/-! ### Start of the TPM (tpmlib.c) -/

/-- The calls that `tpmlib_start` makes into libtpms, the NVRAM layer and the OpenSSL
configuration, in the order of a trace. -/
inductive StartCall where
  | ChooseTPMVersion
  | SetProfile
  | MainInit
  | RestoreBackup
  | WasManufactured
  | Lock_Storage
  | DeleteName
  | configure_openssl
  | Terminate
  deriving DecidableEq, Repr

/-- The functions that `tpmlib_start` calls and that are not part of the sources, as
oracles on a state `σ` (libtpms, the state files, the process environment), together with
the backup policy `tpmstate_get_make_backup()` and the bit `PTM_INIT_FLAG_DELETE_VOLATILE`
of a missing header. `tpmlib_maybe_configure_openssl` (tpmlib.c:228) only queries the
OpenSSL configuration and is taken as an oracle as well. -/
structure StartEnv (σ : Type) where
  TPMLIB_ChooseTPMVersion : σ → TPMLIB_TPMVersion → σ × Nat
  TPMLIB_SetProfile : σ → Bytes → σ × Nat
  TPMLIB_MainInit : σ → σ × Nat
  tpmstate_get_make_backup : Bool
  SWTPM_NVRAM_RestoreBackup : σ → σ × Nat
  TPMLIB_WasManufactured : σ → Bool
  SWTPM_NVRAM_Lock_Storage : σ → σ × Nat
  SWTPM_NVRAM_DeleteName : σ → σ × Nat
  tpmlib_maybe_configure_openssl : σ → TPMLIB_TPMVersion → σ × Nat
  TPMLIB_Terminate : σ → σ
  PTM_INIT_FLAG_DELETE_VOLATILE : Nat

/-- The state, the trace of calls and the result of (a part of) `tpmlib_start`. -/
structure StartOut (σ : Type) where
  st : σ
  calls : List StartCall
  res : Nat

/-- Lines 282-291 of `tpmlib_start`: choose the TPM version and, for a TPM 2 with a
profile, set the profile. A non-zero `res` is the value that `tpmlib_start` returns at
once. -/
def tpmlib_start_setup {σ : Type} (env : StartEnv σ) (s : σ)
    (tpmversion : TPMLIB_TPMVersion) (json_profile : Option Bytes) : StartOut σ :=
  let c := env.TPMLIB_ChooseTPMVersion s tpmversion
  if c.2 ≠ TPM_SUCCESS then ⟨c.1, [.ChooseTPMVersion], c.2⟩
  else
    match json_profile with
    | some prof =>
      if tpmversion = .TPMLIB_TPM_VERSION_2 then
        let p := env.TPMLIB_SetProfile c.1 prof
        ⟨p.1, [.ChooseTPMVersion, .SetProfile], p.2⟩
      else ⟨c.1, [.ChooseTPMVersion], TPM_SUCCESS⟩
    | none => ⟨c.1, [.ChooseTPMVersion], TPM_SUCCESS⟩

/-- Lines 293-313 of `tpmlib_start`: `TPMLIB_MainInit`, and on its failure the restore
of the backup, the second `TPMLIB_MainInit` and the second `RestoreBackup`. -/
def tpmlib_start_init {σ : Type} (env : StartEnv σ) (s : σ) : StartOut σ :=
  let m1 := env.TPMLIB_MainInit s
  if m1.2 ≠ TPM_SUCCESS then
    if env.tpmstate_get_make_backup then
      let r1 := env.SWTPM_NVRAM_RestoreBackup m1.1
      if r1.2 = TPM_SUCCESS then
        let m2 := env.TPMLIB_MainInit r1.1
        if m2.2 ≠ TPM_SUCCESS then
          let r2 := env.SWTPM_NVRAM_RestoreBackup m2.1
          ⟨r2.1, [.MainInit, .RestoreBackup, .MainInit, .RestoreBackup], m2.2⟩
        else ⟨m2.1, [.MainInit, .RestoreBackup, .MainInit], m2.2⟩
      else ⟨r1.1, [.MainInit, .RestoreBackup], r1.2⟩
    else ⟨m1.1, [.MainInit], m1.2⟩
  else ⟨m1.1, [.MainInit], TPM_SUCCESS⟩

/-- Lines 315-349 of `tpmlib_start`: the check of the profile, the lock of the storage,
the deletion of the volatile state and the OpenSSL configuration; errors after the first
check go through `error_terminate`. -/
def tpmlib_start_finish {σ : Type} (env : StartEnv σ) (s : σ) (flags : Nat)
    (tpmversion : TPMLIB_TPMVersion) (lock_nvram : Bool) (json_profile : Option Bytes) :
    StartOut σ :=
  let checkProfile : Bool := json_profile.isSome && decide (tpmversion = .TPMLIB_TPM_VERSION_2)
  if checkProfile && !env.TPMLIB_WasManufactured s then ⟨s, [.WasManufactured], TPM_FAIL⟩
  else
    let c0 : List StartCall := if checkProfile then [.WasManufactured] else []
    let l : StartOut σ :=
      if lock_nvram then
        let x := env.SWTPM_NVRAM_Lock_Storage s
        ⟨x.1, c0 ++ [.Lock_Storage], x.2⟩
      else ⟨s, c0, TPM_SUCCESS⟩
    if l.res ≠ TPM_SUCCESS then
      ⟨env.TPMLIB_Terminate l.st, l.calls ++ [.Terminate], l.res⟩
    else
      let d : StartOut σ :=
        if flags &&& env.PTM_INIT_FLAG_DELETE_VOLATILE ≠ 0 then
          let x := env.SWTPM_NVRAM_DeleteName l.st
          ⟨x.1, l.calls ++ [.DeleteName], x.2⟩
        else ⟨l.st, l.calls, TPM_SUCCESS⟩
      if d.res ≠ TPM_SUCCESS then
        ⟨env.TPMLIB_Terminate d.st, d.calls ++ [.Terminate], d.res⟩
      else
        let o := env.tpmlib_maybe_configure_openssl d.st tpmversion
        if o.2 ≠ 0 then
          ⟨env.TPMLIB_Terminate o.1, d.calls ++ [.configure_openssl, .Terminate], TPM_FAIL⟩
        else ⟨o.1, d.calls ++ [.configure_openssl], TPM_SUCCESS⟩

/-- The function `tpmlib_start` (tpmlib.c:277): the three parts in sequence, each
returning at once on an error. -/
def tpmlib_start {σ : Type} (env : StartEnv σ) (s : σ) (flags : Nat)
    (tpmversion : TPMLIB_TPMVersion) (lock_nvram : Bool) (json_profile : Option Bytes) :
    StartOut σ :=
  let a := tpmlib_start_setup env s tpmversion json_profile
  if a.res ≠ TPM_SUCCESS then a
  else
    let b := tpmlib_start_init env a.st
    if b.res ≠ TPM_SUCCESS then ⟨b.st, a.calls ++ b.calls, b.res⟩
    else
      let f := tpmlib_start_finish env b.st flags tpmversion lock_nvram json_profile
      ⟨f.st, a.calls ++ b.calls ++ f.calls, f.res⟩

/-- State of a library for evaluation: the number of `TPMLIB_MainInit` calls so far and
whether the backup of the permanent state is swapped in for the state file. -/
structure ToyStart where
  inits : Nat
  backup_in_place : Bool
  deriving DecidableEq, Repr

/-- A library for evaluation: `TPMLIB_MainInit` call number `n` (from 0) returns
`codes n`; `SWTPM_NVRAM_RestoreBackup` succeeds and swaps the backup in, or back out when
it is in; every other call succeeds and changes nothing, and the backup policy is
`backup`. -/
def startLibrary (codes : Nat → Nat) (backup : Bool) : StartEnv ToyStart where
  TPMLIB_ChooseTPMVersion := fun s _ => (s, 0)
  TPMLIB_SetProfile := fun s _ => (s, 0)
  TPMLIB_MainInit := fun s => (⟨s.inits + 1, s.backup_in_place⟩, codes s.inits)
  tpmstate_get_make_backup := backup
  SWTPM_NVRAM_RestoreBackup := fun s => (⟨s.inits, !s.backup_in_place⟩, 0)
  TPMLIB_WasManufactured := fun _ => true
  SWTPM_NVRAM_Lock_Storage := fun s => (s, 0)
  SWTPM_NVRAM_DeleteName := fun s => (s, 0)
  tpmlib_maybe_configure_openssl := fun s _ => (s, 0)
  TPMLIB_Terminate := fun s => s
  PTM_INIT_FLAG_DELETE_VOLATILE := 1

/-- The blob of "hello" of `helloBlob` with the header version 3 and `min_version` 1. -/
def helloBlobV3 : Bytes :=
  [3, 1, 0, 10, 0, 0, 0, 0, 0, 21, 0, 1, 0, 0, 0, 5, 104, 101, 108, 108, 111]

/-- A 10-byte blob (header only) whose `hdrsize` field is 0xFFFF. -/
def hdrsizeBlob : Bytes := [2, 1, 255, 255, 0, 0, 0, 0, 0, 10]

/-! ### Key options (common.c) -/

/-- Size of the local buffer `unsigned char key[256/8]` of `handle_key_options` and
`handle_migration_key_options`. -/
def sizeof_key : Nat := 256 / 8

/-- The C library function `memset(buf, c, n)` on the first `n` bytes of a buffer. -/
def memset (buf : Bytes) (c n : Nat) : Bytes := List.replicate n c ++ buf.drop n

/-- What `parse_key_options` (common.c:393) leaves behind: its return value, the content
of the caller's key buffer, `*keylen` and `*encmode`. -/
structure KeyParse where
  ret : Int
  key : Bytes
  keylen : Nat
  encmode : encryption_mode

/-- Outputs of `handle_key_options`: the return value, the key registry, and the local
key buffer at the return. -/
structure KeyOptOut where
  ret : Int
  keys : Keys
  key : Bytes

/-- The function `handle_key_options` (common.c:506). `parse_key_options` reads the key
through helpers that are not among the sources (`options_parse`, `key_load_key`,
`key_from_pwdfile`); it is an oracle from the option string and the buffer to what it
leaves behind. `key0` is the buffer before the call. Both failures jump to the label
`error`, where the success path arrives as well. -/
def handle_key_options (parse_key_options : Bytes → Bytes → Nat → KeyParse) (keys : Keys)
    (options : Option Bytes) (key0 : Bytes) : KeyOptOut :=
  match options with
  | none => ⟨0, keys, key0⟩
  | some o =>
    let maxkeylen := sizeof_key
    let p := parse_key_options o key0 maxkeylen
    if p.ret < 0 then ⟨-1, keys, memset p.key 0 maxkeylen⟩
    else
      let r := SWTPM_NVRAM_Set_FileKey keys (p.key.take p.keylen) p.encmode
      if r.1 ≠ TPM_SUCCESS then ⟨-1, r.2, memset p.key 0 maxkeylen⟩
      else ⟨0, r.2, memset p.key 0 maxkeylen⟩

/-- The function `handle_migration_key_options` (common.c:542). -/
def handle_migration_key_options (parse_key_options : Bytes → Bytes → Nat → KeyParse)
    (keys : Keys) (options : Option Bytes) (key0 : Bytes) : KeyOptOut :=
  match options with
  | none => ⟨0, keys, key0⟩
  | some o =>
    let maxkeylen := sizeof_key
    let p := parse_key_options o key0 maxkeylen
    if p.ret < 0 then ⟨-1, keys, memset p.key 0 maxkeylen⟩
    else
      let r := SWTPM_NVRAM_Set_MigrationKey keys (p.key.take p.keylen) p.encmode
      if r.1 ≠ TPM_SUCCESS then ⟨-1, r.2, memset p.key 0 maxkeylen⟩
      else ⟨0, r.2, memset p.key 0 maxkeylen⟩

/-- A key parser for evaluation: it writes `keylen` bytes of value 7 to the front of the
buffer and reports the AES-CBC mode. -/
def toyKeyParse (keylen : Nat) : Bytes → Bytes → Nat → KeyParse :=
  fun _ key0 _ => ⟨0, memset key0 7 keylen, keylen, .ENCRYPTION_MODE_AES_CBC⟩

/-! ### Profile options (common.c) -/

/-- The values that `parse_profile_options` gets from the parsed options:
`option_get_string` of "profile", "name", "file" and "remove-disabled" (`none` is `NULL`)
and `option_get_int(ovs, "fd", -1)`. -/
structure ProfileOpts where
  profile : Option Bytes
  name : Option Bytes
  filename : Option Bytes
  profilefd : Int
  remove_disabled : Option Bytes
  deriving DecidableEq, Repr

/-- The library functions behind `parse_profile_options`: the content of a file
(`g_file_get_contents`, `none` on failure), the bytes that `read_eintr` reads from a
descriptor with the given count (`none` on failure), `g_strstrip`, and
`profile_remove_fips_disabled_algorithms` (`none` for the return value -1). -/
structure ProfileEnv where
  g_file_get_contents : Bytes → Option Bytes
  read_eintr : Int → Nat → Option Bytes
  g_strstrip : Bytes → Bytes
  profile_remove_fips_disabled_algorithms : Bytes → Bool → Option Bytes

/-- The bytes of a buffer up to the first NUL byte: the C string in it. -/
def cstr (buf : Bytes) : Bytes := buf.takeWhile (fun b => b ≠ 0)

/-- A C truth value as a number. -/
def b2n (b : Bool) : Nat := if b then 1 else 0

/-- The function `parse_profile_options` (common.c:1467), from the parsed options on
(`none` when `options_parse` fails): the return value and `*json_profile` (`none` is
`NULL`). Memory allocation succeeds. -/
def parse_profile_options (env : ProfileEnv) (ovs : Option ProfileOpts) :
    Int × Option Bytes :=
  match ovs with
  | none => (-1, none)
  | some o =>
    if b2n o.profile.isSome + b2n o.name.isSome + b2n o.filename.isSome
        > 1 + b2n (decide (o.profilefd ≥ 0)) then (-1, none)
    else
      let src : Option Bytes :=
        match o.profile, o.name, o.filename with
        | some profile, _, _ => some profile
        | none, some name, _ =>
          some ([123, 34, 78, 97, 109, 101, 34, 58, 34] ++ name ++ [34, 125])
        | none, none, some filename =>
          (env.g_file_get_contents filename).map cstr
        | none, none, none =>
          if o.profilefd ≥ 0 then
            (env.read_eintr o.profilefd (10 * 1024 - 1)).map
              (fun b => cstr (b.take (10 * 1024 - 1)))
          else none
      match src with
      | none => (-1, none)
      | some j =>
        let json := env.g_strstrip j
        match o.remove_disabled with
        | none => (0, some json)
        | some rd =>
          if rd = [99, 104, 101, 99, 107] then
            match env.profile_remove_fips_disabled_algorithms json false with
            | none => (-1, none)
            | some j2 => (0, some j2)
          else if rd = [102, 105, 112, 115, 45, 104, 111, 115, 116] then
            match env.profile_remove_fips_disabled_algorithms json true with
            | none => (-1, none)
            | some j2 => (0, some j2)
          else (-1, none)

/-- Library functions for evaluation: no files, descriptor 5 holds the text `fd`,
`g_strstrip` and the FIPS filter change nothing. -/
def toyProfileEnv : ProfileEnv where
  g_file_get_contents := fun _ => none
  read_eintr := fun fd _ => if fd = 5 then some [102, 100] else none
  g_strstrip := fun j => j
  profile_remove_fips_disabled_algorithms := fun j _ => some j

/-! ### File-descriptor arguments (swtpm_setup.c) -/

def INT_MAX : Int := 2147483647

def ULLONG_MAX : Nat := 18446744073709551615

/-- The C library predicates `isspace` and `isdigit` in the C locale. -/
def isspace (c : Nat) : Bool := c = 32 || (9 ≤ c && c ≤ 13)

def isdigit (c : Nat) : Bool := 48 ≤ c && c ≤ 57

/-- The C library function `strtoull(nptr, &endptr, 10)` on a C string: the value and
the string at `endptr`. White space and one sign are skipped; without a digit the value
is 0 and `endptr` is `nptr`; a value beyond `ULLONG_MAX` gives `ULLONG_MAX`; a minus sign
negates the value as an unsigned number. -/
def strtoull (nptr : Bytes) : Nat × Bytes :=
  let s1 := nptr.dropWhile isspace
  let neg : Bool := s1.head? = some 45
  let s2 := if s1.head? = some 45 ∨ s1.head? = some 43 then s1.tail else s1
  let digits := s2.takeWhile isdigit
  if digits = [] then (0, nptr)
  else
    let v := digits.foldl (fun a d => a * 10 + (d - 48)) 0
    let u := if v > ULLONG_MAX then ULLONG_MAX
             else if neg then (ULLONG_MAX + 1 - v) % (ULLONG_MAX + 1) else v
    (u, s2.dropWhile isdigit)

/-- Conversion of an `unsigned long long` to the 64-bit `long int`. -/
def to_long (u : Nat) : Int :=
  if u < 9223372036854775808 then (u : Int) else (u : Int) - 18446744073709551616

/-- Conversion of an `unsigned long long` to the 32-bit `int`. -/
def to_int (u : Nat) : Int :=
  if u % 4294967296 < 2147483648 then ((u % 4294967296 : Nat) : Int)
  else ((u % 4294967296 : Nat) : Int) - 4294967296

/-- Outcome of one file-descriptor option of `main` in swtpm_setup.c: the descriptor, or
the message "Invalid file descriptor" followed by `goto error`, where the exit code
becomes 1. -/
inductive FdArg where
  | fd (v : Int)
  | invalid_file_descriptor
  deriving DecidableEq, Repr

/-- Case 'X' (`--keyfile-fd`) of the option loop of `main` (swtpm_setup.c:1536);
`keyfile_fd` is a `long int`. -/
def main_keyfile_fd (optarg : Bytes) : FdArg :=
  let r := strtoull optarg
  let keyfile_fd := to_long r.1
  if r.2 ≠ [] ∧ keyfile_fd ≥ INT_MAX then .invalid_file_descriptor else .fd keyfile_fd

/-- Case 'K' (`--pwdfile-fd`) of the option loop of `main` (swtpm_setup.c:1547);
`pwdfile_fd` is a `long int`. -/
def main_pwdfile_fd (optarg : Bytes) : FdArg :=
  let r := strtoull optarg
  let pwdfile_fd := to_long r.1
  if r.2 ≠ [] ∨ pwdfile_fd ≥ INT_MAX then .invalid_file_descriptor else .fd pwdfile_fd

/-- Case 'G' (`--profile-file-fd`) of the option loop of `main` (swtpm_setup.c:1624);
`json_profile_fd` is an `int`. -/
def main_json_profile_fd (optarg : Bytes) : FdArg :=
  let r := strtoull optarg
  let json_profile_fd := to_int r.1
  if r.2 ≠ [] ∨ json_profile_fd ≥ INT_MAX then .invalid_file_descriptor
  else .fd json_profile_fd

/-! ## Theorems -/

theorem CheckHeader_cons (v mv h0 h1 f0 f1 t0 t1 t2 t3 : Nat) (rest : Bytes) :
    SWTPM_NVRAM_CheckHeader (v :: mv :: h0 :: h1 :: f0 :: f1 :: t0 :: t1 :: t2 :: t3 :: rest) =
      if t0 * 16777216 + t1 * 65536 + t2 * 256 + t3 ≠ rest.length + 10 then
        .err TPM_BAD_PARAMETER
      else if mv > BLOB_HEADER_VERSION then .err TPM_BAD_VERSION
      else .ok v (h0 * 256 + h1) (f0 * 256 + f1) := by
  simp [SWTPM_NVRAM_CheckHeader, rd32, rd16, rd8, sizeof_bh_pointer]

/-! ### The TLV codec: the scan finds what `append` wrote -/

/-- The scan never runs out of fuel: any two amounts of fuel that are at least the length
of the buffer give the same result. -/
theorem find_aux_fuel (tag : Nat) :
    ∀ (n m : Nat) (buf : Bytes), buf.length ≤ n → buf.length ≤ m →
      tlv_data_find_tag_aux n buf tag = tlv_data_find_tag_aux m buf tag := by
  intro n
  induction n with
  | zero =>
    intro m buf hn _
    have hb : buf = [] := List.length_eq_zero.mp (Nat.le_zero.mp hn)
    subst hb
    cases m <;> simp [tlv_data_find_tag_aux]
  | succ n ih =>
    intro m buf hn hm
    cases m with
    | zero =>
      have hb : buf = [] := List.length_eq_zero.mp (Nat.le_zero.mp hm)
      subst hb
      simp [tlv_data_find_tag_aux]
    | succ m =>
      match buf with
      | [] => simp [tlv_data_find_tag_aux]
      | [_] => simp [tlv_data_find_tag_aux]
      | [_, _] => simp [tlv_data_find_tag_aux]
      | [_, _, _] => simp [tlv_data_find_tag_aux]
      | [_, _, _, _] => simp [tlv_data_find_tag_aux]
      | [_, _, _, _, _] => simp [tlv_data_find_tag_aux]
      | t0 :: t1 :: l0 :: l1 :: l2 :: l3 :: rest =>
        simp only [tlv_data_find_tag_aux]
        have h1 : (rest.drop (l0 * 16777216 + l1 * 65536 + l2 * 256 + l3)).length ≤ n := by
          simp only [List.length_drop, List.length_cons] at *
          omega
        have h2 : (rest.drop (l0 * 16777216 + l1 * 65536 + l2 * 256 + l3)).length ≤ m := by
          simp only [List.length_drop, List.length_cons] at *
          omega
        rw [ih m _ h1 h2]

theorem find_aux_step (fuel t0 t1 l0 l1 l2 l3 tag : Nat) (rest : Bytes) :
    tlv_data_find_tag_aux (fuel + 1) (t0 :: t1 :: l0 :: l1 :: l2 :: l3 :: rest) tag =
      if l0 * 16777216 + l1 * 65536 + l2 * 256 + l3 > rest.length then none
      else if t0 * 256 + t1 = tag then
        some ⟨tag, rest.take (l0 * 16777216 + l1 * 65536 + l2 * 256 + l3)⟩
      else tlv_data_find_tag_aux fuel
             (rest.drop (l0 * 16777216 + l1 * 65536 + l2 * 256 + l3)) tag := rfl

theorem find_record_hit (tag : Nat) (v rest : Bytes) (ht : tag < 65536)
    (hv : v.length < 4294967296) :
    tlv_data_find_tag (tlv_record ⟨tag, v⟩ ++ rest) tag = some ⟨tag, v⟩ := by
  have e1 : tag / 256 % 256 * 256 + tag % 256 = tag := by omega
  have e2 : v.length / 16777216 % 256 * 16777216 + v.length / 65536 % 256 * 65536
      + v.length / 256 % 256 * 256 + v.length % 256 = v.length := by omega
  simp [tlv_data_find_tag, tlv_record, htons, htonl, tlv_data_find_tag_aux, e1, e2]

theorem find_record_skip (t tag : Nat) (v rest : Bytes) (ht : t < 65536) (hne : t ≠ tag)
    (hv : v.length < 4294967296) :
    tlv_data_find_tag (tlv_record ⟨t, v⟩ ++ rest) tag = tlv_data_find_tag rest tag := by
  have e1 : t / 256 % 256 * 256 + t % 256 = t := by omega
  have e2 : v.length / 16777216 % 256 * 16777216 + v.length / 65536 % 256 * 65536
      + v.length / 256 % 256 * 256 + v.length % 256 = v.length := by omega
  unfold tlv_data_find_tag
  rw [find_aux_fuel tag _ (v.length + rest.length + 5 + 1) _ (le_refl _)
    (by simp [tlv_record, htons, htonl])]
  simp only [tlv_record, htons, htonl, List.cons_append, List.nil_append, find_aux_step, e1, e2]
  have h1 : ¬ (v.length > (v ++ rest).length) := by simp
  rw [if_neg h1, if_neg hne, List.drop_left]
  apply find_aux_fuel <;> omega

/-! ### Header written by `PrependHeader`, read by `CheckHeader` -/

theorem PrependHeader_eq (payload : Bytes) (f : Nat)
    (hn : payload.length + 10 < 4294967296) (hf : f < 65536) :
    SWTPM_NVRAM_PrependHeader payload f =
      some (TPM_SUCCESS, [2, 1, 0, 10] ++ htons f ++ htonl (payload.length + 10) ++ payload) := by
  have h1 : (10 + payload.length) % 4294967296 = payload.length + 10 := by omega
  have h2 : f % 65536 = f := by omega
  simp [SWTPM_NVRAM_PrependHeader, sizeof_blobheader, h1, h2, htons, htonl,
    BLOB_HEADER_VERSION]
  omega

/-- Beyond the 32-bit range `out_len` wraps and the copy overruns the allocation. -/
theorem PrependHeader_wraps (payload : Bytes) (f : Nat)
    (hn : 4294967296 ≤ payload.length + 10) :
    SWTPM_NVRAM_PrependHeader payload f = none := by
  have h := Nat.mod_lt (10 + payload.length) (by decide : 4294967296 > 0)
  simp only [SWTPM_NVRAM_PrependHeader, sizeof_blobheader]
  rw [if_pos (by omega)]

theorem CheckHeader_prepended (payload : Bytes) (f : Nat)
    (hn : payload.length + 10 < 4294967296) (hf : f < 65536) :
    SWTPM_NVRAM_CheckHeader ([2, 1, 0, 10] ++ htons f ++ htonl (payload.length + 10) ++ payload)
      = .ok 2 10 f := by
  simp only [htons, htonl, List.cons_append, List.nil_append, CheckHeader_cons,
    BLOB_HEADER_VERSION]
  have h3 : (payload.length + 10) / 16777216 % 256 * 16777216
      + (payload.length + 10) / 65536 % 256 * 65536
      + (payload.length + 10) / 256 % 256 * 256 + (payload.length + 10) % 256
      = payload.length + 10 := by omega
  have h4 : f / 256 % 256 * 256 + f % 256 = f := by omega
  simp [h3, h4]

theorem drop_prepended (payload : Bytes) (f n : Nat) :
    ([2, 1, 0, 10] ++ htons f ++ htonl n ++ payload).drop 10 = payload := by
  simp [htons, htonl]

theorem length_prepended (payload : Bytes) (f n : Nat) :
    ([2, 1, 0, 10] ++ htons f ++ htonl n ++ payload).length = payload.length + 10 := by
  simp [htons, htonl]

theorem length_tlv_record (td : tlv_data) : (tlv_record td).length = td.value.length + 6 := by
  simp [tlv_record, htons, htonl]

/-! ### Unwrapping a version-2 blob -/

/-- The unwrap path on a blob with a version-2 header of size 10 goes to
`SWTPM_NVRAM_GetDecryptedData` on the payload. -/
theorem unwrap_prepended (env : Env) (filekey : encryptionkey) (payload : Bytes) (f : Nat)
    (hn : payload.length + 10 < 4294967296) (hf : f < 65536) :
    SWTPM_NVRAM_LoadData_unwrap env filekey
        ([2, 1, 0, 10] ++ htons f ++ htonl (payload.length + 10) ++ payload) =
      match SWTPM_NVRAM_GetDecryptedData env filekey payload env.TAG_ENCRYPTED_DATA
              env.TAG_DATA 2 with
      | none => none
      | some r =>
        if r.rc = 0 then some ⟨0, r.data, r.data.map List.length⟩
        else some ⟨r.rc, none, some (payload.length + 10)⟩ := by
  unfold SWTPM_NVRAM_LoadData_unwrap
  rw [CheckHeader_prepended payload f hn hf]
  simp only [drop_prepended, length_prepended]
  have : ¬ (10 > payload.length + 10) := by omega
  simp only [this, if_false]

/-! ### Store and load on the file system -/

theorem set_files_same (fs : FileSys) (path : Bytes) (c : Option Bytes) :
    (fs.set path c).files path = c := by
  simp [FileSys.set]

/-- Without faults and with a file name that fits, `StoreData_Intern` writes the
blob that `StoreData_filedata` builds. -/
theorem StoreData_Intern_ok (env : Env) (fs : FileSys) (filekey : encryptionkey)
    (data : Bytes) (tpm_number : Nat) (name : Bytes) (encrypt : Bool) (blob : Bytes)
    (hname : (SWTPM_NVRAM_GetFilenameForName fs.state_directory FILENAME_MAX
                tpm_number name).1 = 0)
    (hblob : SWTPM_NVRAM_StoreData_filedata env filekey data encrypt = some (0, blob)) :
    SWTPM_NVRAM_StoreData_Intern env fs noFaults filekey data tpm_number name encrypt =
      some ⟨0, some blob,
        (fs.set (SWTPM_NVRAM_GetFilenameForName fs.state_directory FILENAME_MAX
                  tpm_number name).2 (some [])).set
          (SWTPM_NVRAM_GetFilenameForName fs.state_directory FILENAME_MAX
                  tpm_number name).2 (some blob)⟩ := by
  simp [SWTPM_NVRAM_StoreData_Intern, hname, hblob, noFaults]

/-- Without faults, `LoadData` of an existing file of less than 4 GiB is the unwrap path
on its content. -/
theorem LoadData_ok (env : Env) (fs : FileSys) (filekey : encryptionkey)
    (tpm_number : Nat) (name : Bytes) (blob : Bytes)
    (hname : (SWTPM_NVRAM_GetFilenameForName fs.state_directory FILENAME_MAX
                tpm_number name).1 = 0)
    (hfile : fs.files (SWTPM_NVRAM_GetFilenameForName fs.state_directory FILENAME_MAX
                tpm_number name).2 = some blob)
    (hlen : blob.length < 4294967296) :
    SWTPM_NVRAM_LoadData env fs noFaults filekey tpm_number name =
      SWTPM_NVRAM_LoadData_unwrap env filekey blob := by
  have h : blob.length % 4294967296 = blob.length := Nat.mod_eq_of_lt hlen
  simp [SWTPM_NVRAM_LoadData, hname, hfile, noFaults, h]

/-- Reading back the file that a fault-free store has just written. -/
theorem LoadData_stored (env : Env) (fs : FileSys) (filekey : encryptionkey)
    (tpm_number : Nat) (name : Bytes) (blob : Bytes)
    (hname : (SWTPM_NVRAM_GetFilenameForName fs.state_directory FILENAME_MAX
                tpm_number name).1 = 0)
    (hlen : blob.length < 4294967296) :
    SWTPM_NVRAM_LoadData env
        ((fs.set (SWTPM_NVRAM_GetFilenameForName fs.state_directory FILENAME_MAX
                  tpm_number name).2 (some [])).set
          (SWTPM_NVRAM_GetFilenameForName fs.state_directory FILENAME_MAX
                  tpm_number name).2 (some blob))
        noFaults filekey tpm_number name =
      SWTPM_NVRAM_LoadData_unwrap env filekey blob :=
  LoadData_ok env _ filekey tpm_number name blob hname (set_files_same _ _ _) hlen

/-! ### Blob without a key -/

theorem filedata_plain (env : Env) (filekey : encryptionkey) (P : Bytes) (encrypt : Bool)
    (hkey : (encrypt && filekey.symkey.valid) = false)
    (hP : P.length + 16 < 4294967296) :
    SWTPM_NVRAM_StoreData_filedata env filekey P encrypt =
      some (TPM_SUCCESS, [2, 1, 0, 10] ++ htons 0 ++ htonl (P.length + 6 + 10)
        ++ tlv_record ⟨env.TAG_DATA, P⟩) := by
  have hk : ¬ (encrypt = true ∧ filekey.symkey.valid = true) := by
    intro h; simp [h.1, h.2] at hkey
  have hl : (tlv_record ⟨env.TAG_DATA, P⟩).length = P.length + 6 := length_tlv_record _
  simp only [SWTPM_NVRAM_StoreData_filedata, hk, if_false, ne_eq, not_true_eq_false,
    tlv_data_append, TLV_DATA, List.map_cons, List.map_nil, List.flatten_cons,
    List.flatten_nil, List.append_nil, List.nil_append]
  rw [PrependHeader_eq _ 0 (by rw [hl]; omega) (by decide), hl]

theorem GetPlainData_record (tag : Nat) (P rest : Bytes) (ht : tag < 65536)
    (hP : P.length < 4294967296) :
    SWTPM_NVRAM_GetPlainData (tlv_record ⟨tag, P⟩ ++ rest) tag 2 = ⟨0, some P, []⟩ := by
  simp [SWTPM_NVRAM_GetPlainData, find_record_hit tag P rest ht hP]

/-- C5: for every buffer of length L >= 10, `SWTPM_NVRAM_CheckHeader` returns
TPM_BAD_PARAMETER when the big-endian total_len field (bytes 6..9) differs from L,
otherwise TPM_BAD_VERSION when min_version (byte 1) exceeds 2, otherwise success with
hdrversion = byte 0, dataoffset = big-endian bytes 2..3 and hdrflags = big-endian
bytes 4..5; so a blob whose total_len field is overwritten with any value other than
its length gives TPM_BAD_PARAMETER, and a min_version above 2 gives TPM_BAD_VERSION. -/
theorem C5_CheckHeader_validation (data : Bytes) (hL : 10 ≤ data.length) :
    let totlen := data.getD 6 0 * 16777216 + data.getD 7 0 * 65536 + data.getD 8 0 * 256
                    + data.getD 9 0
    (totlen ≠ data.length → SWTPM_NVRAM_CheckHeader data = .err TPM_BAD_PARAMETER) ∧
    (totlen = data.length → data.getD 1 0 > 2 →
      SWTPM_NVRAM_CheckHeader data = .err TPM_BAD_VERSION) ∧
    (totlen = data.length → data.getD 1 0 ≤ 2 →
      SWTPM_NVRAM_CheckHeader data =
        .ok (data.getD 0 0) (data.getD 2 0 * 256 + data.getD 3 0)
            (data.getD 4 0 * 256 + data.getD 5 0)) ∧
    (∀ x, x < 4294967296 → x ≠ data.length →
      SWTPM_NVRAM_CheckHeader (data.take 6 ++ htonl x ++ data.drop 10)
        = .err TPM_BAD_PARAMETER) := by
  match data, hL with
  | v :: mv :: h0 :: h1 :: f0 :: f1 :: t0 :: t1 :: t2 :: t3 :: rest, _ =>
    simp only [CheckHeader_cons, List.getD_cons_zero, List.getD_cons_succ, List.length_cons,
      BLOB_HEADER_VERSION]
    refine ⟨?_, ?_, ?_, ?_⟩
    · intro h; simp [h]
    · intro h hmv; simp [h, hmv]
    · intro h hmv
      have : ¬ mv > 2 := by omega
      simp [h, this]
    · intro x hx hne
      simp only [List.take, List.drop, htonl, List.cons_append, List.nil_append,
        CheckHeader_cons]
      have : x / 16777216 % 256 * 16777216 + x / 65536 % 256 * 65536 + x / 256 % 256 * 256
          + x % 256 = x := by omega
      rw [this]
      have : x ≠ rest.length + 10 := by omega
      simp [this]

/-- C5, at a concrete blob: the header of an 11-byte blob with total_len 11 is accepted. -/
theorem C5_CheckHeader_validation_witness :
    SWTPM_NVRAM_CheckHeader [2, 1, 0, 10, 0, 1, 0, 0, 0, 11, 7] = .ok 2 10 1 ∧
    SWTPM_NVRAM_CheckHeader [2, 3, 0, 10, 0, 1, 0, 0, 0, 11, 7] = .err TPM_BAD_VERSION ∧
    SWTPM_NVRAM_CheckHeader ([2, 1, 0, 10, 0, 1] ++ htonl 12 ++ [7]) = .err TPM_BAD_PARAMETER :=
  have h := C5_CheckHeader_validation [2, 1, 0, 10, 0, 1, 0, 0, 0, 11, 7] (by decide)
  have h2 := C5_CheckHeader_validation [2, 3, 0, 10, 0, 1, 0, 0, 0, 11, 7] (by decide)
  ⟨h.2.2.1 (by decide) (by decide), h2.2.1 (by decide) (by decide),
   h.2.2.2 12 (by decide) (by decide)⟩

/-- C6: for every payload of length n with n + 10 < 2^32 and every 16-bit flags value f,
`SWTPM_NVRAM_PrependHeader` succeeds with the 10 header bytes version 2, min_version 1,
hdrsize 10, flags f, total_len n + 10 (big-endian) followed by the payload; the
result has length n + 10 and `SWTPM_NVRAM_CheckHeader` accepts it with hdrversion 2,
dataoffset 10 and hdrflags f. -/
theorem C6_PrependHeader_layout (payload : Bytes) (f : Nat)
    (hn : payload.length + 10 < 4294967296) (hf : f < 65536) :
    ∃ blob, SWTPM_NVRAM_PrependHeader payload f = some (TPM_SUCCESS, blob) ∧
      blob = [2, 1, 0, 10, f / 256, f % 256,
              (payload.length + 10) / 16777216 % 256, (payload.length + 10) / 65536 % 256,
              (payload.length + 10) / 256 % 256, (payload.length + 10) % 256] ++ payload ∧
      blob.length = payload.length + 10 ∧
      blob.take 10 ++ payload = blob ∧
      SWTPM_NVRAM_CheckHeader blob = .ok 2 10 f := by
  have h1 : (10 + payload.length) % 4294967296 = payload.length + 10 := by omega
  have h2 : f % 65536 = f := by omega
  have h3 : f / 256 % 256 = f / 256 := by omega
  refine ⟨_, ?_, rfl, ?_, ?_, ?_⟩
  · simp [SWTPM_NVRAM_PrependHeader, sizeof_blobheader, h1, h2, h3, htons, htonl,
      BLOB_HEADER_VERSION]
    omega
  · simp
  · simp
  · simp only [List.cons_append, List.nil_append, CheckHeader_cons, BLOB_HEADER_VERSION]
    have : (payload.length + 10) / 16777216 % 256 * 16777216
        + (payload.length + 10) / 65536 % 256 * 65536
        + (payload.length + 10) / 256 % 256 * 256 + (payload.length + 10) % 256
        = payload.length + 10 := by omega
    have h4 : f / 256 * 256 + f % 256 = f := by omega
    simp [this, h4]

/-- C6, at the payload `[7, 8]` with flags 5. -/
theorem C6_PrependHeader_layout_witness :
    ∃ blob, SWTPM_NVRAM_PrependHeader [7, 8] 5 = some (TPM_SUCCESS, blob) ∧
      blob = [2, 1, 0, 10, 5 / 256, 5 % 256,
              (2 + 10) / 16777216 % 256, (2 + 10) / 65536 % 256,
              (2 + 10) / 256 % 256, (2 + 10) % 256] ++ [7, 8] ∧
      blob.length = 2 + 10 ∧
      blob.take 10 ++ [7, 8] = blob ∧
      SWTPM_NVRAM_CheckHeader blob = .ok 2 10 5 :=
  C6_PrependHeader_layout [7, 8] 5 (by decide) (by decide)


/-! ### The encryption envelope -/

theorem EncryptData_ok (env : Env) (key : encryptionkey) (tag : Nat) (data c md : Bytes)
    (hvalid : key.symkey.valid = true)
    (hmode : key.data_encmode = .ENCRYPTION_MODE_AES_CBC)
    (henc : env.TPM_SymmetricKeyData_Encrypt key.symkey data = (0, c))
    (hmac : env.HMAC (key.symkey.userKey.take 16) c = some md) :
    SWTPM_NVRAM_EncryptData env key tag data = (0, [⟨tag, c⟩, ⟨env.TAG_HMAC, md⟩]) := by
  simp [SWTPM_NVRAM_EncryptData, hvalid, hmode, henc, SWTPM_CalcHMAC, TPM_AES_BLOCK_SIZE, hmac,
    TLV_DATA]

theorem append_two (a b : tlv_data) :
    tlv_data_append [] [a, b] = tlv_record a ++ tlv_record b := by
  simp [tlv_data_append]

theorem append_one (a : tlv_data) : tlv_data_append [] [a] = tlv_record a := by
  simp [tlv_data_append]

theorem CheckHMAC_match (env : Env) (symkey : TPM_SYMMETRIC_KEY_DATA) (t t' : Nat)
    (c md : Bytes) (hlen : md.length = 32)
    (hmac : env.HMAC (symkey.userKey.take 16) c = some md) :
    SWTPM_CheckHMAC env ⟨t, md⟩ ⟨t', c⟩ symkey
      = some (TPM_SUCCESS, [.HMAC (symkey.userKey.take 16) c]) := by
  simp [SWTPM_CheckHMAC, SHA256_DIGEST_LENGTH, hlen, TPM_AES_BLOCK_SIZE, hmac]

/-- Decryption of an envelope `ENCRYPTED(c) ‖ HMAC(md)` whose HMAC record holds the
HMAC of `c` under the key: the HMAC is computed, then the AES primitive is called. -/
theorem DecryptData_envelope (env : Env) (key : encryptionkey) (tag : Nat) (c md : Bytes)
    (hvalid : key.symkey.valid = true)
    (hmode : key.data_encmode = .ENCRYPTION_MODE_AES_CBC)
    (htag : tag < 65536) (hth : env.TAG_HMAC < 65536) (hne : tag ≠ env.TAG_HMAC)
    (hc : c.length < 4294967296) (hlen : md.length = 32)
    (hmac : env.HMAC (key.symkey.userKey.take 16) c = some md) :
    SWTPM_NVRAM_DecryptData env key (tlv_record ⟨tag, c⟩ ++ tlv_record ⟨env.TAG_HMAC, md⟩) tag 2
      = some ⟨(env.TPM_SymmetricKeyData_Decrypt key.symkey c).1,
              if (env.TPM_SymmetricKeyData_Decrypt key.symkey c).1 = 0
              then some (env.TPM_SymmetricKeyData_Decrypt key.symkey c).2 else none,
              [.HMAC (key.symkey.userKey.take 16) c, .Decrypt key.symkey c]⟩ := by
  have h1 : tlv_data_find_tag (tlv_record ⟨tag, c⟩ ++ tlv_record ⟨env.TAG_HMAC, md⟩)
      env.TAG_HMAC = some ⟨env.TAG_HMAC, md⟩ := by
    rw [find_record_skip tag env.TAG_HMAC c _ htag hne hc]
    have := find_record_hit env.TAG_HMAC md [] hth (by omega)
    rwa [List.append_nil] at this
  have h2 := find_record_hit tag c (tlv_record ⟨env.TAG_HMAC, md⟩) htag hc
  simp [SWTPM_NVRAM_DecryptData, hvalid, hmode, h1, h2,
    CheckHMAC_match env key.symkey env.TAG_HMAC tag c md hlen hmac, TPM_SUCCESS]

theorem filedata_encrypted (env : Env) (filekey : encryptionkey) (P c md : Bytes)
    (hvalid : filekey.symkey.valid = true)
    (hmode : filekey.data_encmode = .ENCRYPTION_MODE_AES_CBC)
    (henc : env.TPM_SymmetricKeyData_Encrypt filekey.symkey P = (0, c))
    (hmac : env.HMAC (filekey.symkey.userKey.take 16) c = some md)
    (hsize : c.length + md.length + 22 < 4294967296) :
    SWTPM_NVRAM_StoreData_filedata env filekey P true =
      some (TPM_SUCCESS, [2, 1, 0, 10] ++ htons 1
        ++ htonl ((tlv_record ⟨env.TAG_ENCRYPTED_DATA, c⟩
                    ++ tlv_record ⟨env.TAG_HMAC, md⟩).length + 10)
        ++ (tlv_record ⟨env.TAG_ENCRYPTED_DATA, c⟩ ++ tlv_record ⟨env.TAG_HMAC, md⟩)) := by
  have he := EncryptData_ok env filekey env.TAG_ENCRYPTED_DATA P c md hvalid hmode henc hmac
  simp only [SWTPM_NVRAM_StoreData_filedata, hvalid, and_self, if_true, he, ne_eq,
    not_true_eq_false, if_false, append_two, BLOB_FLAG_ENCRYPTED]
  rw [PrependHeader_eq _ 1 (by simp only [List.length_append, length_tlv_record]; omega)
    (by decide)]

/-- C1: with no state key installed, for every byte string P with |P| + 16 < 2^32 the blob
`SWTPM_NVRAM_StoreData` writes is the 10-byte header (version 2, min_version 1, hdrsize
10, flags 0, total_len |P| + 16) followed by one DATA record holding P, and both the
unwrap path of `SWTPM_NVRAM_LoadData` on that blob and `SWTPM_NVRAM_LoadData` on the file
just written return result 0 and exactly P. -/
theorem C1_roundtrip_without_key (env : Env) (fs : FileSys) (filekey : encryptionkey)
    (P : Bytes) (tpm_number : Nat) (name : Bytes)
    (htag : env.TAG_DATA < 65536)
    (hkey : filekey.symkey.valid = false)
    (hP : P.length + 16 < 4294967296)
    (hname : (SWTPM_NVRAM_GetFilenameForName fs.state_directory FILENAME_MAX
                tpm_number name).1 = 0) :
    ∃ blob fs',
      blob = [2, 1, 0, 10, 0, 0] ++ htonl (P.length + 16)
               ++ (htons env.TAG_DATA ++ htonl P.length ++ P) ∧
      SWTPM_NVRAM_StoreData env fs noFaults filekey P tpm_number name
        = some ⟨0, some blob, fs'⟩ ∧
      SWTPM_NVRAM_LoadData_unwrap env filekey blob = some ⟨0, some P, some P.length⟩ ∧
      SWTPM_NVRAM_LoadData env fs' noFaults filekey tpm_number name
        = some ⟨0, some P, some P.length⟩ := by
  have hfd := filedata_plain env filekey P true (by simp [hkey]) hP
  have hl : (tlv_record ⟨env.TAG_DATA, P⟩).length = P.length + 6 := length_tlv_record _
  have hunwrap : SWTPM_NVRAM_LoadData_unwrap env filekey
      ([2, 1, 0, 10] ++ htons 0 ++ htonl (P.length + 6 + 10) ++ tlv_record ⟨env.TAG_DATA, P⟩)
      = some ⟨0, some P, some P.length⟩ := by
    have h := unwrap_prepended env filekey (tlv_record ⟨env.TAG_DATA, P⟩) 0
      (by rw [hl]; omega) (by decide)
    rw [hl] at h
    rw [h]
    have hg := GetPlainData_record env.TAG_DATA P [] htag (by omega)
    rw [List.append_nil] at hg
    simp [SWTPM_NVRAM_GetDecryptedData, hkey, hg]
  refine ⟨_, _, ?_, StoreData_Intern_ok env fs filekey P tpm_number name true _ hname hfd,
    ?_, ?_⟩
  · simp [htons, htonl, tlv_record]
  · exact hunwrap
  · rw [LoadData_stored env fs filekey tpm_number name _ hname
      (by rw [length_prepended, hl]; omega)]
    exact hunwrap

/-- C1, for the payload "hello" stored as blob `p` of TPM 0 in the state directory `/s`. -/
theorem C1_roundtrip_without_key_witness :
    ∃ blob fs',
      blob = [2, 1, 0, 10, 0, 0] ++ htonl ([104, 101, 108, 108, 111].length + 16)
               ++ (htons toyEnv.TAG_DATA ++ htonl [104, 101, 108, 108, 111].length
                   ++ [104, 101, 108, 108, 111]) ∧
      SWTPM_NVRAM_StoreData toyEnv emptyFs noFaults nokey [104, 101, 108, 108, 111] 0 [112]
        = some ⟨0, some blob, fs'⟩ ∧
      SWTPM_NVRAM_LoadData_unwrap toyEnv nokey blob
        = some ⟨0, some [104, 101, 108, 108, 111], some [104, 101, 108, 108, 111].length⟩ ∧
      SWTPM_NVRAM_LoadData toyEnv fs' noFaults nokey 0 [112]
        = some ⟨0, some [104, 101, 108, 108, 111], some [104, 101, 108, 108, 111].length⟩ :=
  C1_roundtrip_without_key toyEnv emptyFs nokey [104, 101, 108, 108, 111] 0 [112]
    (by decide) rfl (by decide) (by decide)

/-- C2: with a valid AES-CBC state key K installed, for every byte string P whose
encryption succeeds with ciphertext c, where the AES primitive satisfies
Decrypt(K, c) = P and HMAC-SHA-256(K, c) is the 32-byte value md (sizes within 32 bits),
the blob `SWTPM_NVRAM_StoreData` writes is the header with flags ENCRYPTED followed by
an ENCRYPTED_DATA record holding c and an HMAC record holding md, and
`SWTPM_NVRAM_LoadData` with K installed unwraps it to result 0 and exactly P. -/
theorem C2_roundtrip_with_key (env : Env) (fs : FileSys) (filekey : encryptionkey)
    (P c md : Bytes) (tpm_number : Nat) (name : Bytes)
    (hvalid : filekey.symkey.valid = true)
    (hmode : filekey.data_encmode = .ENCRYPTION_MODE_AES_CBC)
    (hte : env.TAG_ENCRYPTED_DATA < 65536) (hth : env.TAG_HMAC < 65536)
    (hne : env.TAG_ENCRYPTED_DATA ≠ env.TAG_HMAC)
    (henc : env.TPM_SymmetricKeyData_Encrypt filekey.symkey P = (0, c))
    (hdec : env.TPM_SymmetricKeyData_Decrypt filekey.symkey c = (0, P))
    (hmac : env.HMAC (filekey.symkey.userKey.take 16) c = some md)
    (hlen : md.length = 32)
    (hsize : c.length + 54 < 4294967296)
    (hname : (SWTPM_NVRAM_GetFilenameForName fs.state_directory FILENAME_MAX
                tpm_number name).1 = 0) :
    ∃ blob fs',
      blob = [2, 1, 0, 10, 0, 1] ++ htonl (c.length + 54)
               ++ (htons env.TAG_ENCRYPTED_DATA ++ htonl c.length ++ c)
               ++ (htons env.TAG_HMAC ++ htonl 32 ++ md) ∧
      SWTPM_NVRAM_StoreData env fs noFaults filekey P tpm_number name
        = some ⟨0, some blob, fs'⟩ ∧
      SWTPM_NVRAM_LoadData_unwrap env filekey blob = some ⟨0, some P, some P.length⟩ ∧
      SWTPM_NVRAM_LoadData env fs' noFaults filekey tpm_number name
        = some ⟨0, some P, some P.length⟩ := by
  have hfd := filedata_encrypted env filekey P c md hvalid hmode henc hmac (by omega)
  have hl : (tlv_record ⟨env.TAG_ENCRYPTED_DATA, c⟩ ++ tlv_record ⟨env.TAG_HMAC, md⟩).length
      = c.length + 44 := by
    simp only [List.length_append, length_tlv_record]; omega
  have hunwrap : SWTPM_NVRAM_LoadData_unwrap env filekey
      ([2, 1, 0, 10] ++ htons 1
        ++ htonl ((tlv_record ⟨env.TAG_ENCRYPTED_DATA, c⟩
                    ++ tlv_record ⟨env.TAG_HMAC, md⟩).length + 10)
        ++ (tlv_record ⟨env.TAG_ENCRYPTED_DATA, c⟩ ++ tlv_record ⟨env.TAG_HMAC, md⟩))
      = some ⟨0, some P, some P.length⟩ := by
    rw [unwrap_prepended env filekey _ 1 (by rw [hl]; omega) (by decide)]
    have hd := DecryptData_envelope env filekey env.TAG_ENCRYPTED_DATA c md hvalid hmode
      hte hth hne (by omega) hlen hmac
    simp [SWTPM_NVRAM_GetDecryptedData, hvalid, hd, hdec]
  refine ⟨_, _, ?_, StoreData_Intern_ok env fs filekey P tpm_number name true _ hname hfd,
    ?_, ?_⟩
  · simp only [hl]
    simp [htons, htonl, tlv_record, hlen]
  · exact hunwrap
  · rw [LoadData_stored env fs filekey tpm_number name _ hname
      (by rw [length_prepended, hl]; omega)]
    exact hunwrap

/-- C2, for the payload "hello" under the key of sixteen bytes 7 with the toy cipher. -/
theorem C2_roundtrip_with_key_witness :
    ∃ blob fs',
      blob = [2, 1, 0, 10, 0, 1] ++ htonl ([7, 111, 108, 108, 101, 104].length + 54)
               ++ (htons toyEnv.TAG_ENCRYPTED_DATA ++ htonl [7, 111, 108, 108, 101, 104].length
                   ++ [7, 111, 108, 108, 101, 104])
               ++ (htons toyEnv.TAG_HMAC ++ htonl 32 ++ (List.replicate 31 0 ++ [139])) ∧
      SWTPM_NVRAM_StoreData toyEnv emptyFs noFaults (aesKey 7) [104, 101, 108, 108, 111] 0 [112]
        = some ⟨0, some blob, fs'⟩ ∧
      SWTPM_NVRAM_LoadData_unwrap toyEnv (aesKey 7) blob
        = some ⟨0, some [104, 101, 108, 108, 111], some [104, 101, 108, 108, 111].length⟩ ∧
      SWTPM_NVRAM_LoadData toyEnv fs' noFaults (aesKey 7) 0 [112]
        = some ⟨0, some [104, 101, 108, 108, 111], some [104, 101, 108, 108, 111].length⟩ :=
  C2_roundtrip_with_key toyEnv emptyFs (aesKey 7) [104, 101, 108, 108, 111]
    [7, 111, 108, 108, 101, 104] (List.replicate 31 0 ++ [139]) 0 [112]
    rfl rfl (by decide) (by decide) (by decide) (by decide) (by decide) (by decide)
    (by decide) (by decide) (by decide)

/-! ### The unwrap path is driven by the key registry -/

theorem unwrap_v2 (env : Env) (filekey : encryptionkey) (data : Bytes) (v off flags : Nat)
    (hhdr : SWTPM_NVRAM_CheckHeader data = .ok v off flags) (hoff : off ≤ data.length) :
    SWTPM_NVRAM_LoadData_unwrap env filekey data =
      match SWTPM_NVRAM_GetDecryptedData env filekey (data.drop off) env.TAG_ENCRYPTED_DATA
              env.TAG_DATA v with
      | none => none
      | some r =>
        if r.rc = 0 then some ⟨0, r.data, r.data.map List.length⟩
        else some ⟨r.rc, none, some data.length⟩ := by
  unfold SWTPM_NVRAM_LoadData_unwrap
  rw [hhdr]
  have : ¬ (off > data.length) := by omega
  simp only [this, if_false]

/-- C7 (counterexample): the unencrypted version-2 blob of "hello" (flags 0, one DATA
record) is accepted by `CheckHeader` and loads to "hello" without a key, but with a state
key installed `SWTPM_NVRAM_LoadData` fails with TPM_FAIL instead of returning the DATA
value. -/
theorem C7_counterexample :
    SWTPM_NVRAM_CheckHeader helloBlob = .ok 2 10 0 ∧
    SWTPM_NVRAM_LoadData toyEnv (fsWith helloBlob) noFaults nokey 0 [112]
      = some ⟨0, some [104, 101, 108, 108, 111], some 5⟩ ∧
    SWTPM_NVRAM_LoadData toyEnv (fsWith helloBlob) noFaults (aesKey 7) 0 [112]
      = some ⟨TPM_FAIL, none, some 21⟩ := by
  refine ⟨by decide, by decide, by decide⟩

/-- C7 (amended): the unwrap is driven by the key registry, not by the header's
ENCRYPTED flag. For a persisted blob with a valid version-2 header (any flags),
`SWTPM_NVRAM_LoadData` returns the value of the first DATA record when no state key is
installed (TPM_FAIL when there is none) and, when an AES-CBC state key is installed,
locates the HMAC and ENCRYPTED_DATA records (TPM_FAIL when one is missing) and
returns the decryption of the ENCRYPTED_DATA value once the HMAC record matches. -/
theorem C7_unwrap_driven_by_key (env : Env) (fs : FileSys) (filekey : encryptionkey)
    (tpm_number : Nat) (name data : Bytes) (off flags : Nat)
    (hname : (SWTPM_NVRAM_GetFilenameForName fs.state_directory FILENAME_MAX
                tpm_number name).1 = 0)
    (hfile : fs.files (SWTPM_NVRAM_GetFilenameForName fs.state_directory FILENAME_MAX
                tpm_number name).2 = some data)
    (hlen : data.length < 4294967296)
    (hhdr : SWTPM_NVRAM_CheckHeader data = .ok 2 off flags) (hoff : off ≤ data.length) :
    (filekey.symkey.valid = false →
      SWTPM_NVRAM_LoadData env fs noFaults filekey tpm_number name =
        match tlv_data_find_tag (data.drop off) env.TAG_DATA with
        | some td => some ⟨0, some td.value, some td.value.length⟩
        | none => some ⟨TPM_FAIL, none, some data.length⟩) ∧
    (filekey.symkey.valid = true →
      filekey.data_encmode = .ENCRYPTION_MODE_AES_CBC →
      (tlv_data_find_tag (data.drop off) env.TAG_HMAC = none ∨
       tlv_data_find_tag (data.drop off) env.TAG_ENCRYPTED_DATA = none) →
      SWTPM_NVRAM_LoadData env fs noFaults filekey tpm_number name
        = some ⟨TPM_FAIL, none, some data.length⟩) ∧
    (∀ hm e md P, filekey.symkey.valid = true →
      filekey.data_encmode = .ENCRYPTION_MODE_AES_CBC →
      tlv_data_find_tag (data.drop off) env.TAG_HMAC = some hm →
      tlv_data_find_tag (data.drop off) env.TAG_ENCRYPTED_DATA = some e →
      env.HMAC (filekey.symkey.userKey.take 16) e.value = some md →
      md.length = 32 → hm.value.take 32 = md →
      env.TPM_SymmetricKeyData_Decrypt filekey.symkey e.value = (0, P) →
      SWTPM_NVRAM_LoadData env fs noFaults filekey tpm_number name
        = some ⟨0, some P, some P.length⟩) := by
  rw [LoadData_ok env fs filekey tpm_number name data hname hfile hlen,
    unwrap_v2 env filekey data 2 off flags hhdr hoff]
  refine ⟨?_, ?_, ?_⟩
  · intro hk
    simp only [SWTPM_NVRAM_GetDecryptedData, hk, SWTPM_NVRAM_GetPlainData]
    cases hf : tlv_data_find_tag (data.drop off) env.TAG_DATA <;> simp [TPM_FAIL]
  · intro hk hm hnone
    simp only [SWTPM_NVRAM_GetDecryptedData, hk, SWTPM_NVRAM_DecryptData, hm, if_true]
    rcases hnone with h | h
    · simp [h, TPM_FAIL]
    · cases hf : tlv_data_find_tag (data.drop off) env.TAG_HMAC <;> simp [h, TPM_FAIL]
  · intro hm e md P hk hmode h1 h2 hmac hl htake hdec
    have hge : 32 ≤ hm.value.length := by
      have := congrArg List.length htake
      rw [List.length_take, hl] at this
      omega
    have hnot : ¬ (hm.value.length < 32) := by omega
    simp [SWTPM_NVRAM_GetDecryptedData, hk, SWTPM_NVRAM_DecryptData, hmode, h1, h2,
      SWTPM_CheckHMAC, SHA256_DIGEST_LENGTH, TPM_AES_BLOCK_SIZE, hmac, hl, htake, hnot,
      hdec, TPM_SUCCESS]

/-- C7 (amended), at the blob of "hello" written without a key and read without a key,
and at the blob of "hello" written and read under `aesKey 7`. -/
theorem C7_unwrap_driven_by_key_witness :
    (SWTPM_NVRAM_LoadData toyEnv (fsWith helloBlob) noFaults nokey 0 [112] =
      match tlv_data_find_tag (helloBlob.drop 10) toyEnv.TAG_DATA with
      | some td => some ⟨0, some td.value, some td.value.length⟩
      | none => some ⟨TPM_FAIL, none, some helloBlob.length⟩) ∧
    SWTPM_NVRAM_LoadData toyEnv (fsWith helloBlobEncrypted) noFaults (aesKey 7) 0 [112]
      = some ⟨0, some [104, 101, 108, 108, 111], some [104, 101, 108, 108, 111].length⟩ :=
  ⟨(C7_unwrap_driven_by_key toyEnv (fsWith helloBlob) nokey 0 [112] helloBlob 10 0
      (by decide) (by decide) (by decide) (by decide) (by decide)).1 rfl,
   (C7_unwrap_driven_by_key toyEnv (fsWith helloBlobEncrypted) (aesKey 7) 0 [112]
      helloBlobEncrypted 10 1 (by decide) (by decide) (by decide) (by decide)
      (by decide)).2.2 ⟨3, List.replicate 31 0 ++ [139]⟩ ⟨2, [7, 111, 108, 108, 101, 104]⟩
      (List.replicate 31 0 ++ [139]) [104, 101, 108, 108, 111]
      rfl rfl (by rfl) (by rfl) (by rfl) (by rfl) (by rfl) (by rfl)⟩

/-- C8 (counterexample): the blob written for "hello" under a state key has a valid
version-2 header with the ENCRYPTED flag set; loaded with no state key installed,
`SWTPM_NVRAM_LoadData` fails with TPM_FAIL (9), not with TPM_KEYNOTFOUND (13). -/
theorem C8_counterexample :
    SWTPM_NVRAM_CheckHeader helloBlobEncrypted = .ok 2 10 1 ∧
    1 &&& BLOB_FLAG_ENCRYPTED ≠ 0 ∧
    nokey.symkey.valid = false ∧
    SWTPM_NVRAM_LoadData toyEnv (fsWith helloBlobEncrypted) noFaults nokey 0 [112]
      = some ⟨TPM_FAIL, none, some 60⟩ ∧
    TPM_FAIL ≠ TPM_KEYNOTFOUND := by
  refine ⟨by decide, by decide, by decide, by decide, by decide⟩

/-- C8 (amended): if a persisted blob has a valid version-2 header with the ENCRYPTED
flag set and no state key is installed, `SWTPM_NVRAM_LoadData` does not look at the flag
and never answers TPM_KEYNOTFOUND: it fails with TPM_FAIL and returns no data when the
payload holds no DATA record, and it returns the value of the first DATA record when
there is one. -/
theorem C8_encrypted_blob_without_key (env : Env) (fs : FileSys) (filekey : encryptionkey)
    (tpm_number : Nat) (name data : Bytes) (off flags : Nat)
    (hname : (SWTPM_NVRAM_GetFilenameForName fs.state_directory FILENAME_MAX
                tpm_number name).1 = 0)
    (hfile : fs.files (SWTPM_NVRAM_GetFilenameForName fs.state_directory FILENAME_MAX
                tpm_number name).2 = some data)
    (hlen : data.length < 4294967296)
    (hhdr : SWTPM_NVRAM_CheckHeader data = .ok 2 off flags) (hoff : off ≤ data.length)
    (_hflag : flags &&& BLOB_FLAG_ENCRYPTED ≠ 0)
    (hkey : filekey.symkey.valid = false) :
    ∃ r, SWTPM_NVRAM_LoadData env fs noFaults filekey tpm_number name = some r ∧
      r.rc ≠ TPM_KEYNOTFOUND ∧
      (tlv_data_find_tag (data.drop off) env.TAG_DATA = none →
        r = ⟨TPM_FAIL, none, some data.length⟩) ∧
      (∀ td, tlv_data_find_tag (data.drop off) env.TAG_DATA = some td →
        r = ⟨0, some td.value, some td.value.length⟩) := by
  rw [LoadData_ok env fs filekey tpm_number name data hname hfile hlen,
    unwrap_v2 env filekey data 2 off flags hhdr hoff]
  simp only [SWTPM_NVRAM_GetDecryptedData, hkey, SWTPM_NVRAM_GetPlainData]
  cases hf : tlv_data_find_tag (data.drop off) env.TAG_DATA with
  | none =>
    refine ⟨⟨TPM_FAIL, none, some data.length⟩, by simp [TPM_FAIL],
      by simp [TPM_FAIL, TPM_KEYNOTFOUND], ?_, ?_⟩
    · intro _; rfl
    · intro td h; cases h
  | some td =>
    refine ⟨⟨0, some td.value, some td.value.length⟩, by simp,
      by simp [TPM_KEYNOTFOUND], ?_, ?_⟩
    · intro h; cases h
    · intro td' h; cases h; rfl

/-- C8 (amended), at the encrypted blob of "hello" read with no state key. -/
theorem C8_encrypted_blob_without_key_witness :
    ∃ r, SWTPM_NVRAM_LoadData toyEnv (fsWith helloBlobEncrypted) noFaults nokey 0 [112]
        = some r ∧
      r.rc ≠ TPM_KEYNOTFOUND ∧
      (tlv_data_find_tag (helloBlobEncrypted.drop 10) toyEnv.TAG_DATA = none →
        r = ⟨TPM_FAIL, none, some helloBlobEncrypted.length⟩) ∧
      (∀ td, tlv_data_find_tag (helloBlobEncrypted.drop 10) toyEnv.TAG_DATA = some td →
        r = ⟨0, some td.value, some td.value.length⟩) :=
  C8_encrypted_blob_without_key toyEnv (fsWith helloBlobEncrypted) nokey 0 [112]
    helloBlobEncrypted 10 1 (by decide) (by decide) (by decide) (by decide) (by decide)
    (by decide) rfl

/-! ### HMAC verification precedes decryption -/

theorem DecryptData_mismatch (env : Env) (key : encryptionkey) (data : Bytes) (tag : Nat)
    (hm e : tlv_data) (md : Bytes)
    (hvalid : key.symkey.valid = true)
    (hmode : key.data_encmode = .ENCRYPTION_MODE_AES_CBC)
    (h1 : tlv_data_find_tag data env.TAG_HMAC = some hm)
    (h2 : tlv_data_find_tag data tag = some e)
    (hmac : env.HMAC (key.symkey.userKey.take 16) e.value = some md)
    (hl : md.length = 32) (hge : 32 ≤ hm.value.length) (hne : hm.value.take 32 ≠ md) :
    SWTPM_NVRAM_DecryptData env key data tag 2 =
      some ⟨TPM_DECRYPT_ERROR, none, [.HMAC (key.symkey.userKey.take 16) e.value]⟩ := by
  have hnot : ¬ (hm.value.length < 32) := by omega
  simp [SWTPM_NVRAM_DecryptData, hvalid, hmode, h1, h2, SWTPM_CheckHMAC,
    SHA256_DIGEST_LENGTH, TPM_AES_BLOCK_SIZE, hmac, hl, hnot, hne, TPM_DECRYPT_ERROR]

/-- C4: in the version-2 decrypt path of `SWTPM_NVRAM_DecryptData` with a valid AES-CBC key,
(1) when both records are found, the HMAC record holds at least 32 bytes and its first 32
bytes differ from HMAC-SHA-256(key, ENCRYPTED_DATA value), the result is
TPM_DECRYPT_ERROR, no output is written and the only external call is the HMAC;
(2) whenever the AES decryption primitive is called at all, both records were found, the
HMAC comparison has succeeded, and the HMAC call precedes the one decryption call;
(3) so an envelope whose ENCRYPTED_DATA value was changed to one with a different HMAC
gives TPM_DECRYPT_ERROR. -/
theorem C4_hmac_before_decryption (env : Env) (key : encryptionkey) (tag : Nat)
    (hvalid : key.symkey.valid = true)
    (hmode : key.data_encmode = .ENCRYPTION_MODE_AES_CBC) :
    (∀ data hm e md,
      tlv_data_find_tag data env.TAG_HMAC = some hm →
      tlv_data_find_tag data tag = some e →
      env.HMAC (key.symkey.userKey.take 16) e.value = some md → md.length = 32 →
      32 ≤ hm.value.length → hm.value.take 32 ≠ md →
      SWTPM_NVRAM_DecryptData env key data tag 2 =
        some ⟨TPM_DECRYPT_ERROR, none, [.HMAC (key.symkey.userKey.take 16) e.value]⟩) ∧
    (∀ data r, SWTPM_NVRAM_DecryptData env key data tag 2 = some r →
      ∀ k d, Call.Decrypt k d ∈ r.calls →
        ∃ hm e md,
          tlv_data_find_tag data env.TAG_HMAC = some hm ∧
          tlv_data_find_tag data tag = some e ∧
          env.HMAC (key.symkey.userKey.take 16) e.value = some md ∧
          hm.value.take md.length = md ∧
          r.calls = [.HMAC (key.symkey.userKey.take 16) e.value,
                     .Decrypt key.symkey e.value]) ∧
    (∀ c md md', tag < 65536 → env.TAG_HMAC < 65536 → tag ≠ env.TAG_HMAC →
      c.length < 4294967296 → md.length = 32 → md'.length = 32 →
      env.HMAC (key.symkey.userKey.take 16) c = some md' → md' ≠ md →
      SWTPM_NVRAM_DecryptData env key
          (tlv_record ⟨tag, c⟩ ++ tlv_record ⟨env.TAG_HMAC, md⟩) tag 2 =
        some ⟨TPM_DECRYPT_ERROR, none, [.HMAC (key.symkey.userKey.take 16) c]⟩) := by
  refine ⟨?_, ?_, ?_⟩
  · intro data hm e md h1 h2 hmac hl hge hne
    exact DecryptData_mismatch env key data tag hm e md hvalid hmode h1 h2 hmac hl hge hne
  · intro data r hr k d hmem
    simp only [SWTPM_NVRAM_DecryptData, hvalid, hmode, if_true, OfNat.ofNat_ne_one,
      if_false] at hr
    cases h1 : tlv_data_find_tag data env.TAG_HMAC with
    | none =>
      simp only [h1] at hr
      cases hr
      simp at hmem
    | some hm =>
      cases h2 : tlv_data_find_tag data tag with
      | none =>
        simp only [h1, h2] at hr
        cases hr
        simp at hmem
      | some e =>
        simp only [h1, h2, SWTPM_CheckHMAC, SHA256_DIGEST_LENGTH, TPM_AES_BLOCK_SIZE] at hr
        by_cases hshort : 32 > hm.value.length
        · simp only [hshort, if_true] at hr
          simp [TPM_FAIL] at hr
          subst hr
          simp at hmem
        · simp only [hshort, if_false] at hr
          cases hmac : env.HMAC (key.symkey.userKey.take 16) e.value with
          | none =>
            simp [hmac, TPM_FAIL] at hr
            subst hr
            simp at hmem
          | some md =>
            simp only [hmac] at hr
            by_cases hlong : md.length > hm.value.length
            · simp [hlong] at hr
            · simp only [hlong, if_false] at hr
              by_cases hcmp : hm.value.take md.length = md
              · refine ⟨hm, e, md, rfl, rfl, hmac, hcmp, ?_⟩
                simp [hcmp, TPM_SUCCESS] at hr
                subst hr
                simp
              · simp [hcmp, TPM_DECRYPT_ERROR] at hr
                subst hr
                simp at hmem
  · intro c md md' htag hth hne hc hl hl' hmac hdiff
    have h1 : tlv_data_find_tag (tlv_record ⟨tag, c⟩ ++ tlv_record ⟨env.TAG_HMAC, md⟩)
        env.TAG_HMAC = some ⟨env.TAG_HMAC, md⟩ := by
      rw [find_record_skip tag env.TAG_HMAC c _ htag hne hc]
      have := find_record_hit env.TAG_HMAC md [] hth (by omega)
      rwa [List.append_nil] at this
    have h2 := find_record_hit tag c (tlv_record ⟨env.TAG_HMAC, md⟩) htag hc
    refine DecryptData_mismatch env key _ tag _ _ md' hvalid hmode h1 h2 hmac hl'
      (by simp [hl]) ?_
    intro h
    apply hdiff
    rw [← h, ← hl, List.take_length]

/-- C4, at the envelope of "hello" under `aesKey 7` whose ciphertext had its last byte
changed from 104 to 105 while the HMAC record was kept. -/
theorem C4_hmac_before_decryption_witness :
    SWTPM_NVRAM_DecryptData toyEnv (aesKey 7)
        (tlv_record ⟨2, [7, 111, 108, 108, 101, 105]⟩
          ++ tlv_record ⟨toyEnv.TAG_HMAC, List.replicate 31 0 ++ [139]⟩) 2 2 =
      some ⟨TPM_DECRYPT_ERROR, none,
        [.HMAC ((aesKey 7).symkey.userKey.take 16) [7, 111, 108, 108, 101, 105]]⟩ :=
  (C4_hmac_before_decryption toyEnv (aesKey 7) 2 rfl rfl).2.2
    [7, 111, 108, 108, 101, 105] (List.replicate 31 0 ++ [139])
    (List.replicate 31 0 ++ [140])
    (by decide) (by decide) (by decide) (by decide) (by decide) (by decide) (by decide)
    (by decide)

/-! ### Import of state blobs -/

theorem CheckHMAC_calls (env : Env) (hm e : tlv_data) (k : TPM_SYMMETRIC_KEY_DATA)
    (rc : Nat) (calls : List Call) (h : SWTPM_CheckHMAC env hm e k = some (rc, calls)) :
    ∀ st b, Call.SetState st b ∉ calls := by
  intro st b
  unfold SWTPM_CheckHMAC at h
  dsimp only at h
  repeat' split at h
  all_goals first
    | (injection h with h; injection h with h1 h2; subst h2; simp)
    | cases h

/-- No path of `SWTPM_NVRAM_DecryptData` calls `TPMLIB_SetState`. -/
theorem DecryptData_calls (env : Env) (key : encryptionkey) (data : Bytes) (tag v : Nat)
    (r : DataOut) (h : SWTPM_NVRAM_DecryptData env key data tag v = some r) :
    ∀ st b, Call.SetState st b ∉ r.calls := by
  intro st b
  unfold SWTPM_NVRAM_DecryptData at h
  dsimp only at h
  repeat' split at h
  all_goals first
    | (injection h with h; subst h; simp; done)
    | (cases h; done)
    | (injection h with h; subst h
       simpa using CheckHMAC_calls env _ _ _ _ _ ‹SWTPM_CheckHMAC _ _ _ _ = some (_, _)› st b)

theorem SetStateBlob_header (env : Env) (keys : Keys) (data : Bytes) (is_encrypted : Bool)
    (blobtype v off flags : Nat)
    (hst : tpmlib_blobtype_to_statetype blobtype ≠ 0)
    (hhdr : SWTPM_NVRAM_CheckHeader data = .ok v off flags)
    (hpay : sub32 data.length off ≠ 0) :
    SWTPM_NVRAM_SetStateBlob env keys data is_encrypted blobtype =
      if flags &&& BLOB_FLAG_MIGRATION_ENCRYPTED ≠ 0 then
        if !SWTPM_NVRAM_Has_MigrationKey keys then some ⟨TPM_KEYNOTFOUND, []⟩
        else if off > data.length then none
        else
          match SWTPM_NVRAM_DecryptData env keys.migrationkey (data.drop off)
                  env.TAG_ENCRYPTED_MIGRATION_DATA v with
          | none => none
          | some r =>
            if r.rc ≠ 0 then some ⟨r.rc, r.calls⟩
            else SWTPM_NVRAM_SetStateBlob_inner env keys is_encrypted
                   (tpmlib_blobtype_to_statetype blobtype) flags v r.data r.calls
      else if off > data.length then none
      else
        if (SWTPM_NVRAM_GetPlainData (data.drop off) env.TAG_MIGRATION_DATA v).rc ≠ 0 then
          some ⟨(SWTPM_NVRAM_GetPlainData (data.drop off) env.TAG_MIGRATION_DATA v).rc, []⟩
        else SWTPM_NVRAM_SetStateBlob_inner env keys is_encrypted
               (tpmlib_blobtype_to_statetype blobtype) flags v
               (SWTPM_NVRAM_GetPlainData (data.drop off) env.TAG_MIGRATION_DATA v).data [] := by
  have hlen : data.length ≠ 0 := by
    intro h0
    have : data = [] := List.length_eq_zero.mp h0
    subst this
    simp [SWTPM_NVRAM_CheckHeader, sizeof_bh_pointer] at hhdr
  simp only [SWTPM_NVRAM_SetStateBlob, hst, if_false, hlen, hhdr, hpay]

/-- C9: for a blob of a known blob type whose header is valid and whose payload is not
empty, `SWTPM_NVRAM_SetStateBlob` returns TPM_KEYNOTFOUND without calling
`TPMLIB_SetState` (a) when the header has MIGRATION_ENCRYPTED set and no migration key is
installed, and (b) when the migration layer was read successfully (decrypted with the
migration key, or taken from the MIGRATION_DATA record), `is_encrypted` is true or the
header has ENCRYPTED set, and no state key is installed; (c) when MIGRATION_ENCRYPTED
is clear the result does not depend on the migration key. -/
theorem C9_import_requires_keys (env : Env) (keys : Keys) (data : Bytes)
    (is_encrypted : Bool) (blobtype v off flags : Nat)
    (hst : tpmlib_blobtype_to_statetype blobtype ≠ 0)
    (hhdr : SWTPM_NVRAM_CheckHeader data = .ok v off flags)
    (hpay : sub32 data.length off ≠ 0) :
    (flags &&& BLOB_FLAG_MIGRATION_ENCRYPTED ≠ 0 →
      SWTPM_NVRAM_Has_MigrationKey keys = false →
      SWTPM_NVRAM_SetStateBlob env keys data is_encrypted blobtype
        = some ⟨TPM_KEYNOTFOUND, []⟩) ∧
    (∀ r, flags &&& BLOB_FLAG_MIGRATION_ENCRYPTED ≠ 0 →
      SWTPM_NVRAM_Has_MigrationKey keys = true → off ≤ data.length →
      SWTPM_NVRAM_DecryptData env keys.migrationkey (data.drop off)
        env.TAG_ENCRYPTED_MIGRATION_DATA v = some r → r.rc = 0 →
      (is_encrypted = true ∨ flags &&& BLOB_FLAG_ENCRYPTED ≠ 0) →
      SWTPM_NVRAM_Has_FileKey keys = false →
      SWTPM_NVRAM_SetStateBlob env keys data is_encrypted blobtype
        = some ⟨TPM_KEYNOTFOUND, r.calls⟩ ∧
      ∀ st b, Call.SetState st b ∉ r.calls) ∧
    (flags &&& BLOB_FLAG_MIGRATION_ENCRYPTED = 0 → off ≤ data.length →
      (SWTPM_NVRAM_GetPlainData (data.drop off) env.TAG_MIGRATION_DATA v).rc = 0 →
      (is_encrypted = true ∨ flags &&& BLOB_FLAG_ENCRYPTED ≠ 0) →
      SWTPM_NVRAM_Has_FileKey keys = false →
      SWTPM_NVRAM_SetStateBlob env keys data is_encrypted blobtype
        = some ⟨TPM_KEYNOTFOUND, []⟩) ∧
    (flags &&& BLOB_FLAG_MIGRATION_ENCRYPTED = 0 →
      ∀ mk, SWTPM_NVRAM_SetStateBlob env ⟨keys.filekey, mk⟩ data is_encrypted blobtype
        = SWTPM_NVRAM_SetStateBlob env keys data is_encrypted blobtype) := by
  refine ⟨?_, ?_, ?_, ?_⟩
  · intro hf hk
    rw [SetStateBlob_header env keys data is_encrypted blobtype v off flags hst hhdr hpay]
    simp [hf, hk]
  · intro r hf hk hoff hd hrc henc hfk
    refine ⟨?_, DecryptData_calls env _ _ _ _ r hd⟩
    rw [SetStateBlob_header env keys data is_encrypted blobtype v off flags hst hhdr hpay]
    have hno : ¬ (off > data.length) := by omega
    simp only [hf, ne_eq, not_false_eq_true, if_true, hk, Bool.not_true, Bool.false_eq_true,
      if_false, hno, hd, hrc, not_true_eq_false, SWTPM_NVRAM_SetStateBlob_inner, hfk,
      Bool.not_false]
    rcases henc with h | h <;> simp [h]
  · intro hf hoff hrc henc hfk
    rw [SetStateBlob_header env keys data is_encrypted blobtype v off flags hst hhdr hpay]
    have hno : ¬ (off > data.length) := by omega
    simp only [hf, ne_eq, not_true_eq_false, if_false, hno, hrc,
      SWTPM_NVRAM_SetStateBlob_inner, hfk, Bool.not_false, if_true]
    rcases henc with h | h <;> simp [h]
  · intro hf mk
    rw [SetStateBlob_header env keys data is_encrypted blobtype v off flags hst hhdr hpay,
      SetStateBlob_header env ⟨keys.filekey, mk⟩ data is_encrypted blobtype v off flags hst
        hhdr hpay]
    simp only [hf, ne_eq, not_true_eq_false, if_false, SWTPM_NVRAM_SetStateBlob_inner,
      SWTPM_NVRAM_Has_FileKey]

/-- C9, at the export of "hello" made with the state key `aesKey 7` and the migration
key `aesKey 9`: imported where only the state key is installed (a), and imported where
only the migration key is installed (b). -/
theorem C9_import_requires_keys_witness :
    SWTPM_NVRAM_SetStateBlob toyEnv ⟨aesKey 7, nokey⟩ helloExport false
      PTM_BLOB_TYPE_PERMANENT = some ⟨TPM_KEYNOTFOUND, []⟩ ∧
    (SWTPM_NVRAM_SetStateBlob toyEnv ⟨nokey, aesKey 9⟩ helloExport false
      PTM_BLOB_TYPE_PERMANENT =
        some ⟨TPM_KEYNOTFOUND,
          [.HMAC (List.replicate 16 9) (helloExport.drop 16 |>.take 51),
           .Decrypt ⟨true, List.replicate 16 9⟩ (helloExport.drop 16 |>.take 51)]⟩ ∧
     ∀ st b, Call.SetState st b ∉
       [Call.HMAC (List.replicate 16 9) (helloExport.drop 16 |>.take 51),
        Call.Decrypt ⟨true, List.replicate 16 9⟩ (helloExport.drop 16 |>.take 51)]) :=
  ⟨(C9_import_requires_keys toyEnv ⟨aesKey 7, nokey⟩ helloExport false
      PTM_BLOB_TYPE_PERMANENT 2 10 7 (by decide) (by decide) (by decide)).1 (by decide) rfl,
   (C9_import_requires_keys toyEnv ⟨nokey, aesKey 9⟩ helloExport false
      PTM_BLOB_TYPE_PERMANENT 2 10 7 (by decide) (by decide) (by decide)).2.1
      ⟨0, some ([0, 2, 0, 0, 0, 6, 7, 111, 108, 108, 101, 104, 0, 3, 0, 0, 0, 32]
            ++ List.replicate 31 0 ++ [139]),
       [.HMAC (List.replicate 16 9) (helloExport.drop 16 |>.take 51),
        .Decrypt ⟨true, List.replicate 16 9⟩ (helloExport.drop 16 |>.take 51)]⟩
      (by decide) rfl (by decide) (by rfl) rfl (Or.inr (by decide)) rfl⟩

/-! ### Export of state blobs -/

theorem EncryptData_shape (env : Env) (key : encryptionkey) (tag : Nat) (data : Bytes)
    (tds : List tlv_data) (hvalid : key.symkey.valid = true)
    (h : (SWTPM_NVRAM_EncryptData env key tag data).1 = 0)
    (h2 : (SWTPM_NVRAM_EncryptData env key tag data).2 = tds) :
    ∃ c md, tds = [⟨tag, c⟩, ⟨env.TAG_HMAC, md⟩] := by
  unfold SWTPM_NVRAM_EncryptData at h h2
  simp only [hvalid, if_true] at h h2
  cases hm : key.data_encmode with
  | ENCRYPTION_MODE_UNKNOWN => simp [hm, TPM_BAD_MODE] at h
  | ENCRYPTION_MODE_AES_CBC =>
    simp only [hm] at h h2
    by_cases hr : (env.TPM_SymmetricKeyData_Encrypt key.symkey data).1 = 0
    · simp only [hr, ne_eq, not_true_eq_false, if_false, SWTPM_CalcHMAC] at h h2
      cases hh : env.HMAC (key.symkey.userKey.take TPM_AES_BLOCK_SIZE)
          (env.TPM_SymmetricKeyData_Encrypt key.symkey data).2 with
      | none => simp [hh, TPM_FAIL] at h
      | some md =>
        simp only [hh, TLV_DATA] at h2
        exact ⟨_, md, h2.symm⟩
    · simp [hr] at h

theorem PrependHeader_shape (payload : Bytes) (f rc : Nat) (blob : Bytes)
    (h : SWTPM_NVRAM_PrependHeader payload f = some (rc, blob)) :
    rc = 0 ∧ blob = [2, 1, 0, 10] ++ htons (f % 65536) ++ htonl (payload.length + 10)
      ++ payload := by
  unfold SWTPM_NVRAM_PrependHeader at h
  dsimp only at h
  split at h
  · cases h
  · rename_i hlt
    simp only [sizeof_blobheader] at hlt
    have e : (10 + payload.length) % 4294967296 = payload.length + 10 := by
      have := Nat.mod_le (10 + payload.length) 4294967296
      omega
    injection h with h
    injection h with h1 h2
    refine ⟨h1.symm.trans rfl, ?_⟩
    rw [← h2]
    simp [sizeof_blobheader, e, BLOB_HEADER_VERSION, htons, htonl]

theorem export_step (a : Nat) (x : Option Bool) (Y : Option BlobOut) (out : BlobOut)
    (h : (if ¬ a = 0 then some (BlobOut.mk a none x) else Y) = some out)
    (hrc : out.rc = 0) : a = 0 ∧ Y = some out := by
  by_cases ha : a = 0
  · simp only [ha, not_true_eq_false, if_false] at h
    exact ⟨ha, h⟩
  · simp only [ha, not_false_eq_true, if_true] at h
    injection h with h
    subst h
    exact absurd hrc ha

theorem export_tail (payload : Bytes) (flags : Nat) (ie : Bool) (out : BlobOut)
    (h : (match SWTPM_NVRAM_PrependHeader payload flags with
          | none => none
          | some r => some (BlobOut.mk r.1 (some r.2) (some ie))) = some out)
    (hf : flags < 65536) :
    out.data = some ([2, 1, 0, 10] ++ htons flags ++ htonl (payload.length + 10) ++ payload) ∧
    out.is_encrypted = some ie := by
  cases hp : SWTPM_NVRAM_PrependHeader payload flags with
  | none => simp [hp] at h
  | some r =>
    obtain ⟨rc, blob⟩ := r
    have hs := PrependHeader_shape payload flags rc blob hp
    simp only [hp] at h
    injection h with h
    subst h
    rw [Nat.mod_eq_of_lt hf] at hs
    exact ⟨by rw [hs.2], rfl⟩

/-- The second half of `GetStateBlob`: wrapping the inner TLV stream `buffer` for
migration and prepending the header. -/
theorem export_outer (env : Env) (keys : Keys) (buffer : Bytes) (ie : Bool) (out : BlobOut)
    (h : (if ¬ (if keys.migrationkey.symkey.valid = true then
                  ((SWTPM_NVRAM_EncryptData env keys.migrationkey
                      env.TAG_ENCRYPTED_MIGRATION_DATA buffer).1,
                   (SWTPM_NVRAM_EncryptData env keys.migrationkey
                      env.TAG_ENCRYPTED_MIGRATION_DATA buffer).2,
                   BLOB_FLAG_MIGRATION_ENCRYPTED)
                else (0, [TLV_DATA env.TAG_MIGRATION_DATA buffer], 0)).1 = 0 then
            some (BlobOut.mk
              (if keys.migrationkey.symkey.valid = true then
                  ((SWTPM_NVRAM_EncryptData env keys.migrationkey
                      env.TAG_ENCRYPTED_MIGRATION_DATA buffer).1,
                   (SWTPM_NVRAM_EncryptData env keys.migrationkey
                      env.TAG_ENCRYPTED_MIGRATION_DATA buffer).2,
                   BLOB_FLAG_MIGRATION_ENCRYPTED)
                else (0, [TLV_DATA env.TAG_MIGRATION_DATA buffer], 0)).1 none (some ie))
          else
            match SWTPM_NVRAM_PrependHeader
                (tlv_data_append []
                  (if keys.migrationkey.symkey.valid = true then
                    ((SWTPM_NVRAM_EncryptData env keys.migrationkey
                        env.TAG_ENCRYPTED_MIGRATION_DATA buffer).1,
                     (SWTPM_NVRAM_EncryptData env keys.migrationkey
                        env.TAG_ENCRYPTED_MIGRATION_DATA buffer).2,
                     BLOB_FLAG_MIGRATION_ENCRYPTED)
                  else (0, [TLV_DATA env.TAG_MIGRATION_DATA buffer], 0)).2.1)
                (if ie = true then
                  (if keys.migrationkey.symkey.valid = true then
                    ((SWTPM_NVRAM_EncryptData env keys.migrationkey
                        env.TAG_ENCRYPTED_MIGRATION_DATA buffer).1,
                     (SWTPM_NVRAM_EncryptData env keys.migrationkey
                        env.TAG_ENCRYPTED_MIGRATION_DATA buffer).2,
                     BLOB_FLAG_MIGRATION_ENCRYPTED)
                  else (0, [TLV_DATA env.TAG_MIGRATION_DATA buffer], 0)).2.2
                    ||| BLOB_FLAG_MIGRATION_DATA ||| BLOB_FLAG_ENCRYPTED
                 else
                  (if keys.migrationkey.symkey.valid = true then
                    ((SWTPM_NVRAM_EncryptData env keys.migrationkey
                        env.TAG_ENCRYPTED_MIGRATION_DATA buffer).1,
                     (SWTPM_NVRAM_EncryptData env keys.migrationkey
                        env.TAG_ENCRYPTED_MIGRATION_DATA buffer).2,
                     BLOB_FLAG_MIGRATION_ENCRYPTED)
                  else (0, [TLV_DATA env.TAG_MIGRATION_DATA buffer], 0)).2.2
                    ||| BLOB_FLAG_MIGRATION_DATA) with
            | none => none
            | some r => some (BlobOut.mk r.1 (some r.2) (some ie))) = some out)
    (hrc : out.rc = 0) :
    ∃ flags payload,
      out.data = some ([2, 1, 0, 10] ++ htons flags ++ htonl (payload.length + 10)
                        ++ payload) ∧
      flags &&& BLOB_FLAG_MIGRATION_DATA ≠ 0 ∧
      (flags &&& BLOB_FLAG_MIGRATION_ENCRYPTED ≠ 0 ↔ keys.migrationkey.symkey.valid = true) ∧
      (flags &&& BLOB_FLAG_ENCRYPTED ≠ 0 ↔ ie = true) ∧
      out.is_encrypted = some ie ∧
      (keys.migrationkey.symkey.valid = false →
        payload = tlv_record ⟨env.TAG_MIGRATION_DATA, buffer⟩) ∧
      (keys.migrationkey.symkey.valid = true →
        ∃ c md, payload = tlv_record ⟨env.TAG_ENCRYPTED_MIGRATION_DATA, c⟩
                            ++ tlv_record ⟨env.TAG_HMAC, md⟩) := by
  cases hmk : keys.migrationkey.symkey.valid
  · simp only [hmk, Bool.false_eq_true, if_false, not_true_eq_false, append_one,
      TLV_DATA] at h
    cases ie
    · simp only [Bool.false_eq_true, if_false] at h
      obtain ⟨h1, h2⟩ := export_tail _ _ _ out h (by decide)
      exact ⟨_, _, h1, by decide, by decide, by decide, h2, fun _ => rfl,
        fun hc => by cases hc⟩
    · simp only [if_true] at h
      obtain ⟨h1, h2⟩ := export_tail _ _ _ out h (by decide)
      exact ⟨_, _, h1, by decide, by decide, by decide, h2, fun _ => rfl,
        fun hc => by cases hc⟩
  · simp only [hmk, if_true] at h
    obtain ⟨hout, h⟩ := export_step _ _ _ out h hrc
    obtain ⟨c, md, hcm⟩ := EncryptData_shape env keys.migrationkey _ _ _ hmk hout rfl
    rw [hcm, append_two] at h
    cases ie
    · simp only [Bool.false_eq_true, if_false] at h
      obtain ⟨h1, h2⟩ := export_tail _ _ _ out h (by decide)
      exact ⟨_, _, h1, by decide, by decide, by decide, h2, (fun hc => by cases hc),
        fun _ => ⟨c, md, rfl⟩⟩
    · simp only [if_true] at h
      obtain ⟨h1, h2⟩ := export_tail _ _ _ out h (by decide)
      exact ⟨_, _, h1, by decide, by decide, by decide, h2, (fun hc => by cases hc),
        fun _ => ⟨c, md, rfl⟩⟩

/-- C10: for every successful `SWTPM_NVRAM_GetStateBlob`, the returned blob is the header
(version 2, hdrsize 10, total_len = length) with flags in which MIGRATION_DATA is set,
MIGRATION_ENCRYPTED is set exactly when a migration key is installed and ENCRYPTED is set
exactly when `decrypt` is false and a state key is installed; `is_encrypted` equals the
ENCRYPTED bit; the payload is one MIGRATION_DATA record when no migration key is
installed and an ENCRYPTED_MIGRATION_DATA record followed by an HMAC record
otherwise. -/
theorem C10_export_flags (env : Env) (fs : FileSys) (io : IOFaults) (keys : Keys)
    (tpm_number : Nat) (name : Bytes) (decrypt : Bool) (out : BlobOut)
    (h : SWTPM_NVRAM_GetStateBlob env fs io keys tpm_number name decrypt = some out)
    (hrc : out.rc = 0) :
    ∃ flags payload,
      out.data = some ([2, 1, 0, 10] ++ htons flags ++ htonl (payload.length + 10)
                        ++ payload) ∧
      flags &&& BLOB_FLAG_MIGRATION_DATA ≠ 0 ∧
      (flags &&& BLOB_FLAG_MIGRATION_ENCRYPTED ≠ 0 ↔ keys.migrationkey.symkey.valid = true) ∧
      (flags &&& BLOB_FLAG_ENCRYPTED ≠ 0 ↔
        (decrypt = false ∧ keys.filekey.symkey.valid = true)) ∧
      out.is_encrypted = some (decide (flags &&& BLOB_FLAG_ENCRYPTED ≠ 0)) ∧
      (keys.migrationkey.symkey.valid = false →
        ∃ inner, payload = tlv_record ⟨env.TAG_MIGRATION_DATA, inner⟩) ∧
      (keys.migrationkey.symkey.valid = true →
        ∃ c md, payload = tlv_record ⟨env.TAG_ENCRYPTED_MIGRATION_DATA, c⟩
                            ++ tlv_record ⟨env.TAG_HMAC, md⟩) := by
  unfold SWTPM_NVRAM_GetStateBlob at h
  cases hl : SWTPM_NVRAM_LoadData env fs io keys.filekey tpm_number name with
  | none => simp [hl] at h
  | some l =>
    simp only [hl] at h
    by_cases hlrc : l.rc = 0
    · simp only [hlrc, ne_eq, not_true_eq_false, if_false] at h
      cases hd : l.data with
      | none => simp [hd] at h
      | some plain =>
        simp only [hd] at h
        have key : ∀ buffer ie, (ie = true ↔ (decrypt = false ∧
              keys.filekey.symkey.valid = true)) →
            (∃ flags payload,
              out.data = some ([2, 1, 0, 10] ++ htons flags ++ htonl (payload.length + 10)
                                ++ payload) ∧
              flags &&& BLOB_FLAG_MIGRATION_DATA ≠ 0 ∧
              (flags &&& BLOB_FLAG_MIGRATION_ENCRYPTED ≠ 0 ↔
                keys.migrationkey.symkey.valid = true) ∧
              (flags &&& BLOB_FLAG_ENCRYPTED ≠ 0 ↔ ie = true) ∧
              out.is_encrypted = some ie ∧
              (keys.migrationkey.symkey.valid = false →
                payload = tlv_record ⟨env.TAG_MIGRATION_DATA, buffer⟩) ∧
              (keys.migrationkey.symkey.valid = true →
                ∃ c md, payload = tlv_record ⟨env.TAG_ENCRYPTED_MIGRATION_DATA, c⟩
                                    ++ tlv_record ⟨env.TAG_HMAC, md⟩)) →
            ∃ flags payload,
              out.data = some ([2, 1, 0, 10] ++ htons flags ++ htonl (payload.length + 10)
                                ++ payload) ∧
              flags &&& BLOB_FLAG_MIGRATION_DATA ≠ 0 ∧
              (flags &&& BLOB_FLAG_MIGRATION_ENCRYPTED ≠ 0 ↔
                keys.migrationkey.symkey.valid = true) ∧
              (flags &&& BLOB_FLAG_ENCRYPTED ≠ 0 ↔
                (decrypt = false ∧ keys.filekey.symkey.valid = true)) ∧
              out.is_encrypted = some (decide (flags &&& BLOB_FLAG_ENCRYPTED ≠ 0)) ∧
              (keys.migrationkey.symkey.valid = false →
                ∃ inner, payload = tlv_record ⟨env.TAG_MIGRATION_DATA, inner⟩) ∧
              (keys.migrationkey.symkey.valid = true →
                ∃ c md, payload = tlv_record ⟨env.TAG_ENCRYPTED_MIGRATION_DATA, c⟩
                                    ++ tlv_record ⟨env.TAG_HMAC, md⟩) := by
          intro buffer ie hie ⟨flags, payload, h1, h2, h3, h4, h5, h6, h7⟩
          refine ⟨flags, payload, h1, h2, h3, h4.trans hie, ?_, fun hm => ⟨_, h6 hm⟩, h7⟩
          rw [h5]
          congr 1
          by_cases hb : ie = true
          · simp [hb, h4.mpr hb]
          · have : ¬ (flags &&& BLOB_FLAG_ENCRYPTED ≠ 0) := fun hc => hb (h4.mp hc)
            simp only [Bool.not_eq_true] at hb
            simp [hb, this]
        by_cases henc : ((!decrypt) && keys.filekey.symkey.valid) = true
        · simp only [henc, if_true] at h
          obtain ⟨_, h⟩ := export_step _ _ _ out h hrc
          refine key _ true ?_ (export_outer env keys _ true out h hrc)
          simp only [Bool.and_eq_true, Bool.not_eq_true', true_iff] at henc ⊢
          exact henc
        · have henc' : ((!decrypt) && keys.filekey.symkey.valid) = false := by
            simpa using henc
          simp only [henc', Bool.false_eq_true, if_false, ne_eq, not_true_eq_false] at h
          refine key _ false ?_ (export_outer env keys _ false out h hrc)
          simp only [Bool.false_eq_true, false_iff]
          intro hc
          apply henc
          simp [hc.1, hc.2]
    · simp [hlrc] at h
      subst h
      exact absurd hrc hlrc

/-- C10, at the export of "hello" with the state key `aesKey 7` and the migration key
`aesKey 9` installed and `decrypt = false`. -/
theorem C10_export_flags_witness :
    ∃ flags payload,
      (BlobOut.mk 0 (some helloExport) (some true)).data
        = some ([2, 1, 0, 10] ++ htons flags ++ htonl (payload.length + 10) ++ payload) ∧
      flags &&& BLOB_FLAG_MIGRATION_DATA ≠ 0 ∧
      (flags &&& BLOB_FLAG_MIGRATION_ENCRYPTED ≠ 0 ↔
        (Keys.mk (aesKey 7) (aesKey 9)).migrationkey.symkey.valid = true) ∧
      (flags &&& BLOB_FLAG_ENCRYPTED ≠ 0 ↔
        (false = false ∧ (Keys.mk (aesKey 7) (aesKey 9)).filekey.symkey.valid = true)) ∧
      (BlobOut.mk 0 (some helloExport) (some true)).is_encrypted
        = some (decide (flags &&& BLOB_FLAG_ENCRYPTED ≠ 0)) ∧
      ((Keys.mk (aesKey 7) (aesKey 9)).migrationkey.symkey.valid = false →
        ∃ inner, payload = tlv_record ⟨toyEnv.TAG_MIGRATION_DATA, inner⟩) ∧
      ((Keys.mk (aesKey 7) (aesKey 9)).migrationkey.symkey.valid = true →
        ∃ c md, payload = tlv_record ⟨toyEnv.TAG_ENCRYPTED_MIGRATION_DATA, c⟩
                            ++ tlv_record ⟨toyEnv.TAG_HMAC, md⟩) :=
  C10_export_flags toyEnv (fsWith helloBlobEncrypted) noFaults ⟨aesKey 7, aesKey 9⟩ 0 [112]
    false ⟨0, some helloExport, some true⟩ (by rfl) rfl

/-! ### Export followed by import -/

theorem EncryptData_inv (env : Env) (key : encryptionkey) (tag : Nat) (data : Bytes)
    (hvalid : key.symkey.valid = true)
    (h : (SWTPM_NVRAM_EncryptData env key tag data).1 = 0) :
    ∃ c md, key.data_encmode = .ENCRYPTION_MODE_AES_CBC ∧
      env.TPM_SymmetricKeyData_Encrypt key.symkey data = (0, c) ∧
      env.HMAC (key.symkey.userKey.take 16) c = some md ∧
      (SWTPM_NVRAM_EncryptData env key tag data).2 = [⟨tag, c⟩, ⟨env.TAG_HMAC, md⟩] := by
  unfold SWTPM_NVRAM_EncryptData at h ⊢
  simp only [hvalid, if_true] at h ⊢
  cases hm : key.data_encmode with
  | ENCRYPTION_MODE_UNKNOWN => simp [hm, TPM_BAD_MODE] at h
  | ENCRYPTION_MODE_AES_CBC =>
    simp only [hm] at h ⊢
    by_cases hr : (env.TPM_SymmetricKeyData_Encrypt key.symkey data).1 = 0
    · simp only [hr, ne_eq, not_true_eq_false, if_false, SWTPM_CalcHMAC,
        TPM_AES_BLOCK_SIZE] at h ⊢
      cases hh : env.HMAC (key.symkey.userKey.take 16)
          (env.TPM_SymmetricKeyData_Encrypt key.symkey data).2 with
      | none => simp [hh, TPM_FAIL] at h
      | some md =>
        refine ⟨(env.TPM_SymmetricKeyData_Encrypt key.symkey data).2, md, trivial, ?_, hh, ?_⟩
        · exact Prod.ext hr rfl
        · simp [TLV_DATA]
    · simp [hr] at h

theorem PrependHeader_size (payload : Bytes) (f : Nat) (r : Nat × Bytes)
    (h : SWTPM_NVRAM_PrependHeader payload f = some r) :
    payload.length + 10 < 4294967296 := by
  unfold SWTPM_NVRAM_PrependHeader at h
  dsimp only at h
  split at h
  · cases h
  · rename_i hlt
    simp only [sizeof_blobheader] at hlt
    have := Nat.mod_lt (10 + payload.length) (by decide : 4294967296 > 0)
    omega

theorem export_tail_size (payload : Bytes) (flags : Nat) (ie : Bool) (out : BlobOut)
    (h : (match SWTPM_NVRAM_PrependHeader payload flags with
          | none => none
          | some r => some (BlobOut.mk r.1 (some r.2) (some ie))) = some out) :
    payload.length + 10 < 4294967296 := by
  cases hp : SWTPM_NVRAM_PrependHeader payload flags with
  | none => simp [hp] at h
  | some r => exact PrependHeader_size payload flags r hp

theorem sub32_prepended (n : Nat) (hn : n + 10 < 4294967296) : sub32 (n + 10) 10 = n := by
  unfold sub32
  omega

theorem tlv_record_ne_nil (td : tlv_data) : tlv_record td ≠ [] := by
  simp [tlv_record, htons]

/-- Import of a blob made of a version-2 header and a non-empty payload, up to the
point where the migration layer is taken off. -/
theorem SetStateBlob_prepended (env : Env) (keys : Keys) (payload : Bytes) (f : Nat)
    (is_encrypted : Bool) (blobtype : Nat)
    (hst : tpmlib_blobtype_to_statetype blobtype ≠ 0)
    (hn : payload.length + 10 < 4294967296) (hf : f < 65536) (hne : payload ≠ []) :
    SWTPM_NVRAM_SetStateBlob env keys
        ([2, 1, 0, 10] ++ htons f ++ htonl (payload.length + 10) ++ payload)
        is_encrypted blobtype =
      if f &&& BLOB_FLAG_MIGRATION_ENCRYPTED ≠ 0 then
        if !SWTPM_NVRAM_Has_MigrationKey keys then some ⟨TPM_KEYNOTFOUND, []⟩
        else
          match SWTPM_NVRAM_DecryptData env keys.migrationkey payload
                  env.TAG_ENCRYPTED_MIGRATION_DATA 2 with
          | none => none
          | some r =>
            if r.rc ≠ 0 then some ⟨r.rc, r.calls⟩
            else SWTPM_NVRAM_SetStateBlob_inner env keys is_encrypted
                   (tpmlib_blobtype_to_statetype blobtype) f 2 r.data r.calls
      else
        if (SWTPM_NVRAM_GetPlainData payload env.TAG_MIGRATION_DATA 2).rc ≠ 0 then
          some ⟨(SWTPM_NVRAM_GetPlainData payload env.TAG_MIGRATION_DATA 2).rc, []⟩
        else SWTPM_NVRAM_SetStateBlob_inner env keys is_encrypted
               (tpmlib_blobtype_to_statetype blobtype) f 2
               (SWTPM_NVRAM_GetPlainData payload env.TAG_MIGRATION_DATA 2).data [] := by
  have hlen : payload.length ≠ 0 := fun h => hne (List.length_eq_zero.mp h)
  rw [SetStateBlob_header env keys _ is_encrypted blobtype 2 10 f hst
    (CheckHeader_prepended payload f hn hf)
    (by rw [length_prepended, sub32_prepended _ hn]; exact hlen)]
  have hno : ¬ (10 > payload.length + 10) := by omega
  simp only [drop_prepended, length_prepended, hno, if_false]

theorem SetStateBlob_inner_plain (env : Env) (keys : Keys) (st f : Nat) (P : Bytes)
    (calls : List Call) (htag : env.TAG_DATA < 65536) (hP : P.length < 4294967296)
    (hf : f &&& BLOB_FLAG_ENCRYPTED = 0) :
    SWTPM_NVRAM_SetStateBlob_inner env keys false st f 2
        (some (tlv_record ⟨env.TAG_DATA, P⟩)) calls
      = some (callSetState env calls st (some P)) := by
  have hg := GetPlainData_record env.TAG_DATA P [] htag hP
  rw [List.append_nil] at hg
  simp [SWTPM_NVRAM_SetStateBlob_inner, hf, hg]

theorem SetStateBlob_inner_encrypted (env : Env) (keys : Keys) (e : Bool) (st f : Nat)
    (c md P : Bytes) (calls : List Call)
    (hte : env.TAG_ENCRYPTED_DATA < 65536) (hth : env.TAG_HMAC < 65536)
    (hne : env.TAG_ENCRYPTED_DATA ≠ env.TAG_HMAC)
    (hvalid : keys.filekey.symkey.valid = true)
    (hmode : keys.filekey.data_encmode = .ENCRYPTION_MODE_AES_CBC)
    (hc : c.length < 4294967296) (hlen : md.length = 32)
    (hmac : env.HMAC (keys.filekey.symkey.userKey.take 16) c = some md)
    (hdec : env.TPM_SymmetricKeyData_Decrypt keys.filekey.symkey c = (0, P))
    (he : e = true ∨ f &&& BLOB_FLAG_ENCRYPTED ≠ 0) :
    SWTPM_NVRAM_SetStateBlob_inner env keys e st f 2
        (some (tlv_record ⟨env.TAG_ENCRYPTED_DATA, c⟩ ++ tlv_record ⟨env.TAG_HMAC, md⟩)) calls
      = some (callSetState env
          (calls ++ [.HMAC (keys.filekey.symkey.userKey.take 16) c,
                     .Decrypt keys.filekey.symkey c]) st (some P)) := by
  have hd := DecryptData_envelope env keys.filekey env.TAG_ENCRYPTED_DATA c md hvalid hmode
    hte hth hne hc hlen hmac
  have he' : (e = true ∨ ¬ f &&& BLOB_FLAG_ENCRYPTED = 0) := he
  simp [SWTPM_NVRAM_SetStateBlob_inner, he', SWTPM_NVRAM_Has_FileKey, hvalid, hd, hdec]

theorem SetStateBlob_outer_plain (env : Env) (keys : Keys) (inner : Bytes) (f : Nat)
    (e : Bool) (blobtype : Nat)
    (hst : tpmlib_blobtype_to_statetype blobtype ≠ 0)
    (htag : env.TAG_MIGRATION_DATA < 65536)
    (hn : (tlv_record ⟨env.TAG_MIGRATION_DATA, inner⟩).length + 10 < 4294967296)
    (hf : f < 65536) (hbit : f &&& BLOB_FLAG_MIGRATION_ENCRYPTED = 0) :
    SWTPM_NVRAM_SetStateBlob env keys
        ([2, 1, 0, 10] ++ htons f
          ++ htonl ((tlv_record ⟨env.TAG_MIGRATION_DATA, inner⟩).length + 10)
          ++ tlv_record ⟨env.TAG_MIGRATION_DATA, inner⟩) e blobtype =
      SWTPM_NVRAM_SetStateBlob_inner env keys e (tpmlib_blobtype_to_statetype blobtype) f 2
        (some inner) [] := by
  rw [SetStateBlob_prepended env keys _ f e blobtype hst hn hf (tlv_record_ne_nil _)]
  have hl : inner.length < 4294967296 := by
    rw [length_tlv_record] at hn
    simp only at hn
    omega
  have hg := GetPlainData_record env.TAG_MIGRATION_DATA inner [] htag hl
  rw [List.append_nil] at hg
  simp [hbit, hg]

theorem SetStateBlob_outer_encrypted (env : Env) (keys : Keys) (c md inner : Bytes)
    (f : Nat) (e : Bool) (blobtype : Nat)
    (hst : tpmlib_blobtype_to_statetype blobtype ≠ 0)
    (hte : env.TAG_ENCRYPTED_MIGRATION_DATA < 65536) (hth : env.TAG_HMAC < 65536)
    (hne : env.TAG_ENCRYPTED_MIGRATION_DATA ≠ env.TAG_HMAC)
    (hvalid : keys.migrationkey.symkey.valid = true)
    (hmode : keys.migrationkey.data_encmode = .ENCRYPTION_MODE_AES_CBC)
    (hlen : md.length = 32)
    (hmac : env.HMAC (keys.migrationkey.symkey.userKey.take 16) c = some md)
    (hdec : env.TPM_SymmetricKeyData_Decrypt keys.migrationkey.symkey c = (0, inner))
    (hn : (tlv_record ⟨env.TAG_ENCRYPTED_MIGRATION_DATA, c⟩
            ++ tlv_record ⟨env.TAG_HMAC, md⟩).length + 10 < 4294967296)
    (hf : f < 65536) (hbit : f &&& BLOB_FLAG_MIGRATION_ENCRYPTED ≠ 0) :
    SWTPM_NVRAM_SetStateBlob env keys
        ([2, 1, 0, 10] ++ htons f
          ++ htonl ((tlv_record ⟨env.TAG_ENCRYPTED_MIGRATION_DATA, c⟩
                      ++ tlv_record ⟨env.TAG_HMAC, md⟩).length + 10)
          ++ (tlv_record ⟨env.TAG_ENCRYPTED_MIGRATION_DATA, c⟩
                ++ tlv_record ⟨env.TAG_HMAC, md⟩)) e blobtype =
      SWTPM_NVRAM_SetStateBlob_inner env keys e (tpmlib_blobtype_to_statetype blobtype) f 2
        (some inner)
        [.HMAC (keys.migrationkey.symkey.userKey.take 16) c,
         .Decrypt keys.migrationkey.symkey c] := by
  rw [SetStateBlob_prepended env keys _ f e blobtype hst hn hf
    (by simp [tlv_record, htons])]
  have hc : c.length < 4294967296 := by
    simp only [List.length_append, length_tlv_record] at hn
    omega
  have hd := DecryptData_envelope env keys.migrationkey env.TAG_ENCRYPTED_MIGRATION_DATA c md
    hvalid hmode hte hth hne hc hlen hmac
  simp [hbit, SWTPM_NVRAM_Has_MigrationKey, hvalid, hd, hdec]

/-- C3 (counterexample): with no key installed on either side, the export of "hello"
succeeds and `SWTPM_NVRAM_LoadData` returns "hello", but importing that export with
`is_encrypted = true` fails with TPM_KEYNOTFOUND and never calls `TPMLIB_SetState`;
likewise the export made with a migration key fails to import with TPM_KEYNOTFOUND
where that migration key is not installed. -/
theorem C3_counterexample :
    SWTPM_NVRAM_LoadData toyEnv (fsWith helloBlob) noFaults nokey 0 [112]
      = some ⟨0, some [104, 101, 108, 108, 111], some 5⟩ ∧
    SWTPM_NVRAM_GetStateBlob toyEnv (fsWith helloBlob) noFaults ⟨nokey, nokey⟩ 0 [112] false
      = some ⟨0, some helloExportPlain, some false⟩ ∧
    SWTPM_NVRAM_SetStateBlob toyEnv ⟨nokey, nokey⟩ helloExportPlain true
      PTM_BLOB_TYPE_PERMANENT = some ⟨TPM_KEYNOTFOUND, []⟩ ∧
    SWTPM_NVRAM_GetStateBlob toyEnv (fsWith helloBlobEncrypted) noFaults
      ⟨aesKey 7, aesKey 9⟩ 0 [112] false = some ⟨0, some helloExport, some true⟩ ∧
    SWTPM_NVRAM_SetStateBlob toyEnv ⟨aesKey 7, nokey⟩ helloExport false
      PTM_BLOB_TYPE_PERMANENT = some ⟨TPM_KEYNOTFOUND, []⟩ := by
  refine ⟨by rfl, by rfl, by rfl, by rfl, by rfl⟩

/-- C3 (amended): export/import round trip under matching keys. Let the AES primitive
satisfy Decrypt(K, Encrypt(K, X)) = X, let HMAC values have 32 bytes, the tags be distinct
16-bit values and the lengths of P and of its ciphertext fit 32 bits. If `SWTPM_NVRAM_LoadData`
returns the plaintext P for a name and `SWTPM_NVRAM_GetStateBlob` succeeds for it (any
`decrypt`), then on every importing side that has the exporter's migration key when
the exporter has one, has the exporter's state key when the export is still
encrypted, and passes `is_encrypted = true` only for an export that is encrypted,
`SWTPM_NVRAM_SetStateBlob` of the exported blob hands `TPMLIB_SetState` exactly P,
as its only `TPMLIB_SetState` call, and returns that call's result. -/
theorem C3_export_import_roundtrip (env : Env) (fs : FileSys) (io : IOFaults)
    (ks kd : Keys) (tpm_number : Nat) (name : Bytes) (decrypt e : Bool) (blobtype : Nat)
    (P : Bytes) (len : Option Nat) (out : BlobOut)
    (htags : tagsOk env)
    (hinv : ∀ k x c, env.TPM_SymmetricKeyData_Encrypt k x = (0, c) →
              env.TPM_SymmetricKeyData_Decrypt k c = (0, x))
    (hsz : (env.TPM_SymmetricKeyData_Encrypt ks.filekey.symkey P).2.length < 4294967296)
    (hmaclen : ∀ k d md, env.HMAC k d = some md → md.length = 32)
    (hP : P.length < 4294967296)
    (hload : SWTPM_NVRAM_LoadData env fs io ks.filekey tpm_number name
               = some ⟨0, some P, len⟩)
    (hexp : SWTPM_NVRAM_GetStateBlob env fs io ks tpm_number name decrypt = some out)
    (hrc : out.rc = 0)
    (hst : tpmlib_blobtype_to_statetype blobtype ≠ 0)
    (hmk : ks.migrationkey.symkey.valid = true → kd.migrationkey = ks.migrationkey)
    (hfk : out.is_encrypted = some true → kd.filekey = ks.filekey)
    (he : e = true → out.is_encrypted = some true) :
    ∃ blob, out.data = some blob ∧
      ∃ calls,
        SWTPM_NVRAM_SetStateBlob env kd blob e blobtype =
          some ⟨env.TPMLIB_SetState (tpmlib_blobtype_to_statetype blobtype) (some P),
                calls ++ [.SetState (tpmlib_blobtype_to_statetype blobtype) (some P)]⟩ ∧
        ∀ st b, Call.SetState st b ∉ calls := by
  obtain ⟨t1, t2, t3, t4, t5, t6, t7⟩ := htags
  unfold SWTPM_NVRAM_GetStateBlob at hexp
  simp only [hload, ne_eq, not_true_eq_false, if_false] at hexp
  by_cases henc : ((!decrypt) && ks.filekey.symkey.valid) = true
  · -- the export is encrypted with the state key
    simp only [henc, if_true] at hexp
    obtain ⟨hin, hexp⟩ := export_step _ _ _ out hexp hrc
    have hfkv : ks.filekey.symkey.valid = true := by
      simp only [Bool.and_eq_true] at henc
      exact henc.2
    obtain ⟨c1, md1, hmode1, henc1, hmac1, htd1⟩ :=
      EncryptData_inv env ks.filekey _ _ hfkv hin
    rw [htd1, append_two] at hexp
    have hc1 : c1.length < 4294967296 := by
      have := hsz
      rw [henc1] at this
      exact this
    by_cases hmkv : ks.migrationkey.symkey.valid = true
    · simp only [hmkv, if_true] at hexp
      obtain ⟨hout, hexp⟩ := export_step _ _ _ out hexp hrc
      obtain ⟨c2, md2, hmode2, henc2, hmac2, htd2⟩ :=
        EncryptData_inv env ks.migrationkey _ _ hmkv hout
      rw [htd2, append_two] at hexp
      have hsize := export_tail_size _ _ _ out hexp
      obtain ⟨hd, hie⟩ := export_tail _ _ _ out hexp (by decide)
      have hkm := hmk hmkv
      have hkf := hfk hie
      refine ⟨_, hd, ?_⟩
      rw [SetStateBlob_outer_encrypted env kd c2 md2 _ _ e blobtype hst t5 t3 t7
          (by rw [hkm]; exact hmkv) (by rw [hkm]; exact hmode2) (hmaclen _ _ _ hmac2)
          (by rw [hkm]; exact hmac2) (by rw [hkm]; exact hinv _ _ _ henc2) hsize
          (by decide) (by decide)]
      rw [SetStateBlob_inner_encrypted env kd e _ _ c1 md1 P _ t2 t3 t6
          (by rw [hkf]; exact hfkv) (by rw [hkf]; exact hmode1) hc1 (hmaclen _ _ _ hmac1)
          (by rw [hkf]; exact hmac1) (by rw [hkf]; exact hinv _ _ _ henc1)
          (Or.inr (by decide))]
      exact ⟨_, rfl, by intro st b; simp⟩
    · have hmkv' : ks.migrationkey.symkey.valid = false := by simpa using hmkv
      simp only [hmkv', Bool.false_eq_true, if_false, not_true_eq_false, append_one,
        TLV_DATA] at hexp
      have hsize := export_tail_size _ _ _ out hexp
      obtain ⟨hd, hie⟩ := export_tail _ _ _ out hexp (by decide)
      have hkf := hfk hie
      refine ⟨_, hd, ?_⟩
      rw [SetStateBlob_outer_plain env kd _ _ e blobtype hst t4 hsize (by decide)
          (by decide)]
      rw [SetStateBlob_inner_encrypted env kd e _ _ c1 md1 P _ t2 t3 t6
          (by rw [hkf]; exact hfkv) (by rw [hkf]; exact hmode1) hc1 (hmaclen _ _ _ hmac1)
          (by rw [hkf]; exact hmac1) (by rw [hkf]; exact hinv _ _ _ henc1)
          (Or.inr (by decide))]
      exact ⟨_, rfl, by intro st b; simp⟩
  · -- the export carries the plaintext in a DATA record
    have henc' : ((!decrypt) && ks.filekey.symkey.valid) = false := by simpa using henc
    simp only [henc', Bool.false_eq_true, if_false, not_true_eq_false, append_one,
      TLV_DATA] at hexp
    by_cases hmkv : ks.migrationkey.symkey.valid = true
    · simp only [hmkv, if_true] at hexp
      obtain ⟨hout, hexp⟩ := export_step _ _ _ out hexp hrc
      obtain ⟨c2, md2, hmode2, henc2, hmac2, htd2⟩ :=
        EncryptData_inv env ks.migrationkey _ _ hmkv hout
      rw [htd2, append_two] at hexp
      have hsize := export_tail_size _ _ _ out hexp
      obtain ⟨hd, hie⟩ := export_tail _ _ _ out hexp (by decide)
      have hkm := hmk hmkv
      have hef : e = false := by
        cases e
        · rfl
        · have := he rfl
          rw [hie] at this
          cases this
      subst hef
      refine ⟨_, hd, ?_⟩
      rw [SetStateBlob_outer_encrypted env kd c2 md2 _ _ false blobtype hst t5 t3 t7
          (by rw [hkm]; exact hmkv) (by rw [hkm]; exact hmode2) (hmaclen _ _ _ hmac2)
          (by rw [hkm]; exact hmac2) (by rw [hkm]; exact hinv _ _ _ henc2) hsize
          (by decide) (by decide)]
      rw [SetStateBlob_inner_plain env kd _ _ P _ t1 hP (by decide)]
      exact ⟨_, rfl, by intro st b; simp⟩
    · have hmkv' : ks.migrationkey.symkey.valid = false := by simpa using hmkv
      simp only [hmkv', Bool.false_eq_true, if_false, not_true_eq_false, append_one,
        TLV_DATA] at hexp
      have hsize := export_tail_size _ _ _ out hexp
      obtain ⟨hd, hie⟩ := export_tail _ _ _ out hexp (by decide)
      have hef : e = false := by
        cases e
        · rfl
        · have := he rfl
          rw [hie] at this
          cases this
      subst hef
      refine ⟨_, hd, ?_⟩
      rw [SetStateBlob_outer_plain env kd _ _ false blobtype hst t4 hsize (by decide)
          (by decide)]
      rw [SetStateBlob_inner_plain env kd _ _ P _ t1 hP (by decide)]
      exact ⟨_, rfl, by intro st b; simp⟩

theorem toyEnv_inverse (k : TPM_SYMMETRIC_KEY_DATA) (x c : Bytes)
    (h : toyEnv.TPM_SymmetricKeyData_Encrypt k x = (0, c)) :
    toyEnv.TPM_SymmetricKeyData_Decrypt k c = (0, x) := by
  simp only [toyEnv, Prod.mk.injEq, true_and] at h
  subst h
  simp [toyEnv]

theorem toyEnv_hmac_length (k d md : Bytes) (h : toyEnv.HMAC k d = some md) :
    md.length = 32 := by
  simp only [toyEnv, Option.some.injEq] at h
  subst h
  simp

/-- C3 (amended), at the export of "hello" made with the state key `aesKey 7` and the
migration key `aesKey 9` and imported where both keys are installed. -/
theorem C3_export_import_roundtrip_witness :
    ∃ blob, (BlobOut.mk 0 (some helloExport) (some true)).data = some blob ∧
      ∃ calls,
        SWTPM_NVRAM_SetStateBlob toyEnv ⟨aesKey 7, aesKey 9⟩ blob false
            PTM_BLOB_TYPE_PERMANENT =
          some ⟨toyEnv.TPMLIB_SetState (tpmlib_blobtype_to_statetype PTM_BLOB_TYPE_PERMANENT)
                  (some [104, 101, 108, 108, 111]),
                calls ++ [.SetState (tpmlib_blobtype_to_statetype PTM_BLOB_TYPE_PERMANENT)
                  (some [104, 101, 108, 108, 111])]⟩ ∧
        ∀ st b, Call.SetState st b ∉ calls :=
  C3_export_import_roundtrip toyEnv (fsWith helloBlobEncrypted) noFaults
    ⟨aesKey 7, aesKey 9⟩ ⟨aesKey 7, aesKey 9⟩ 0 [112] false false PTM_BLOB_TYPE_PERMANENT
    [104, 101, 108, 108, 111] (some 5) ⟨0, some helloExport, some true⟩
    (by decide) toyEnv_inverse (by decide) toyEnv_hmac_length (by decide) (by rfl) (by rfl)
    rfl (by decide) (fun _ => rfl) (fun _ => rfl) (fun h => by cases h)


/-! ### Legacy files -/

/-- The unwrap path on a buffer that `CheckHeader` rejects: header version 1, offset 0. -/
theorem unwrap_headerless (env : Env) (filekey : encryptionkey) (data : Bytes) (rc : Nat)
    (hhdr : SWTPM_NVRAM_CheckHeader data = .err rc) :
    SWTPM_NVRAM_LoadData_unwrap env filekey data =
      match SWTPM_NVRAM_GetDecryptedData env filekey data env.TAG_ENCRYPTED_DATA
              env.TAG_DATA 1 with
      | none => none
      | some r =>
        if r.rc = 0 then some ⟨0, r.data, r.data.map List.length⟩
        else some ⟨r.rc, none, some data.length⟩ := by
  unfold SWTPM_NVRAM_LoadData_unwrap
  rw [hhdr]
  simp

/-- C11 (counterexample): the headerless file made of the 32-byte digest of "hello"
followed by "hello" is rejected by `CheckHeader`, and `SWTPM_NVRAM_LoadData` with no state
key returns all 37 bytes, digest included, not the 5 bytes after the digest. -/
theorem C11_counterexample :
    legacyFile = toyEnv.SHA256 [104, 101, 108, 108, 111] ++ [104, 101, 108, 108, 111] ∧
    (toyEnv.SHA256 [104, 101, 108, 108, 111]).length = 32 ∧
    SWTPM_NVRAM_CheckHeader legacyFile = .err TPM_BAD_PARAMETER ∧
    SWTPM_NVRAM_LoadData toyEnv (fsWith legacyFile) noFaults nokey 0 [112]
      = some ⟨0, some legacyFile, some 37⟩ ∧
    legacyFile ≠ [104, 101, 108, 108, 111] := by
  refine ⟨by rfl, by rfl, by rfl, by rfl, by decide⟩

/-- C11 (amended): for a persisted headerless file (one that `CheckHeader` rejects),
`SWTPM_NVRAM_LoadData` with no state key installed succeeds and returns the whole file
content unchanged, a leading 32-byte digest included. The SHA-256 prefix is verified and
removed only when an AES-CBC state key is installed: the file is decrypted and, if the
first 32 bytes of the decryption are the SHA-256 digest of the rest, the rest is
returned, otherwise the result is TPM_FAIL. -/
theorem C11_legacy_read (env : Env) (fs : FileSys) (filekey : encryptionkey)
    (tpm_number : Nat) (name data : Bytes) (rc : Nat)
    (hname : (SWTPM_NVRAM_GetFilenameForName fs.state_directory FILENAME_MAX
                tpm_number name).1 = 0)
    (hfile : fs.files (SWTPM_NVRAM_GetFilenameForName fs.state_directory FILENAME_MAX
                tpm_number name).2 = some data)
    (hlen : data.length < 4294967296)
    (hhdr : SWTPM_NVRAM_CheckHeader data = .err rc) :
    (filekey.symkey.valid = false →
      SWTPM_NVRAM_LoadData env fs noFaults filekey tpm_number name
        = some ⟨0, some data, some data.length⟩) ∧
    (∀ digest body, filekey.symkey.valid = true →
      filekey.data_encmode = .ENCRYPTION_MODE_AES_CBC →
      env.TPM_SymmetricKeyData_Decrypt filekey.symkey data = (0, digest ++ body) →
      digest.length = 32 →
      (env.SHA256 body = digest →
        SWTPM_NVRAM_LoadData env fs noFaults filekey tpm_number name
          = some ⟨0, some body, some body.length⟩) ∧
      (env.SHA256 body ≠ digest →
        SWTPM_NVRAM_LoadData env fs noFaults filekey tpm_number name
          = some ⟨TPM_FAIL, none, some data.length⟩)) := by
  rw [LoadData_ok env fs filekey tpm_number name data hname hfile hlen,
    unwrap_headerless env filekey data rc hhdr]
  refine ⟨?_, ?_⟩
  · intro hk
    simp [SWTPM_NVRAM_GetDecryptedData, hk, SWTPM_NVRAM_GetPlainData]
  · intro digest body hk hmode hdec hl
    have h1 : ¬ (digest.length + body.length < 32) := by omega
    have h2 : (digest ++ body).take 32 = digest := by
      rw [← hl, List.take_left]
    have h3 : (digest ++ body).drop 32 = body := by
      rw [← hl, List.drop_left]
    refine ⟨?_, ?_⟩
    · intro hsha
      simp [SWTPM_NVRAM_GetDecryptedData, hk, SWTPM_NVRAM_DecryptData, hmode, hdec,
        SWTPM_CheckHash, SHA256_DIGEST_LENGTH, h1, h2, h3, hsha]
    · intro hsha
      have hsha' : ¬ digest = env.SHA256 body := fun h => hsha h.symm
      simp [SWTPM_NVRAM_GetDecryptedData, hk, SWTPM_NVRAM_DecryptData, hmode, hdec,
        SWTPM_CheckHash, SHA256_DIGEST_LENGTH, h1, h2, h3, hsha', TPM_FAIL]

/-- C11 (amended), at the headerless file holding the digest of "hello" and "hello". -/
theorem C11_legacy_read_witness :
    SWTPM_NVRAM_LoadData toyEnv (fsWith legacyFile) noFaults nokey 0 [112]
      = some ⟨0, some legacyFile, some legacyFile.length⟩ :=
  (C11_legacy_read toyEnv (fsWith legacyFile) nokey 0 [112] legacyFile TPM_BAD_PARAMETER
    (by decide) (by rfl) (by decide) (by rfl)).1 rfl

/-! ### The key registry -/

/-- C12 (counterexample): a 32-byte key given with the AES-CBC mode is refused by
`SWTPM_NVRAM_Set_FileKey` and `SWTPM_NVRAM_Set_MigrationKey` with TPM_BAD_KEY_PROPERTY,
the registry is unchanged and `Has_FileKey` / `Has_MigrationKey` stay false. -/
theorem C12_counterexample :
    SWTPM_NVRAM_Set_FileKey initialKeys (List.replicate 32 7) .ENCRYPTION_MODE_AES_CBC
      = (TPM_BAD_KEY_PROPERTY, initialKeys) ∧
    SWTPM_NVRAM_Set_MigrationKey initialKeys (List.replicate 32 7) .ENCRYPTION_MODE_AES_CBC
      = (TPM_BAD_KEY_PROPERTY, initialKeys) ∧
    SWTPM_NVRAM_Has_FileKey
      (SWTPM_NVRAM_Set_FileKey initialKeys (List.replicate 32 7)
        .ENCRYPTION_MODE_AES_CBC).2 = false ∧
    SWTPM_NVRAM_Has_MigrationKey
      (SWTPM_NVRAM_Set_MigrationKey initialKeys (List.replicate 32 7)
        .ENCRYPTION_MODE_AES_CBC).2 = false ∧
    TPM_BAD_KEY_PROPERTY ≠ TPM_SUCCESS := by
  refine ⟨by rfl, by rfl, by rfl, by rfl, by decide⟩

/-- C12 (amended): `SWTPM_NVRAM_Set_FileKey` and `SWTPM_NVRAM_Set_MigrationKey` accept
every 16-byte key given with the AES-CBC mode: they return TPM_SUCCESS, and afterwards
`Has_FileKey` (respectively `Has_MigrationKey`) is true, the 16 key bytes are the stored
key, the mode is AES-CBC and the other key is untouched. Every 32-byte key given with
the AES-CBC mode is refused with TPM_BAD_KEY_PROPERTY and the registry is unchanged. -/
theorem C12_accepted_key_sizes (keys : Keys) (key : Bytes) (h : key.length = 16) :
    (SWTPM_NVRAM_Set_FileKey keys key .ENCRYPTION_MODE_AES_CBC).1 = TPM_SUCCESS ∧
    SWTPM_NVRAM_Has_FileKey
      (SWTPM_NVRAM_Set_FileKey keys key .ENCRYPTION_MODE_AES_CBC).2 = true ∧
    (SWTPM_NVRAM_Set_FileKey keys key .ENCRYPTION_MODE_AES_CBC).2.filekey.symkey.userKey.take
      16 = key ∧
    (SWTPM_NVRAM_Set_FileKey keys key .ENCRYPTION_MODE_AES_CBC).2.filekey.data_encmode
      = .ENCRYPTION_MODE_AES_CBC ∧
    (SWTPM_NVRAM_Set_FileKey keys key .ENCRYPTION_MODE_AES_CBC).2.migrationkey
      = keys.migrationkey ∧
    (SWTPM_NVRAM_Set_MigrationKey keys key .ENCRYPTION_MODE_AES_CBC).1 = TPM_SUCCESS ∧
    SWTPM_NVRAM_Has_MigrationKey
      (SWTPM_NVRAM_Set_MigrationKey keys key .ENCRYPTION_MODE_AES_CBC).2 = true ∧
    (SWTPM_NVRAM_Set_MigrationKey keys key
      .ENCRYPTION_MODE_AES_CBC).2.migrationkey.symkey.userKey.take 16 = key ∧
    (SWTPM_NVRAM_Set_MigrationKey keys key
      .ENCRYPTION_MODE_AES_CBC).2.migrationkey.data_encmode = .ENCRYPTION_MODE_AES_CBC ∧
    (SWTPM_NVRAM_Set_MigrationKey keys key .ENCRYPTION_MODE_AES_CBC).2.filekey
      = keys.filekey ∧
    (∀ key32 : Bytes, key32.length = 32 →
      SWTPM_NVRAM_Set_FileKey keys key32 .ENCRYPTION_MODE_AES_CBC
        = (TPM_BAD_KEY_PROPERTY, keys) ∧
      SWTPM_NVRAM_Set_MigrationKey keys key32 .ENCRYPTION_MODE_AES_CBC
        = (TPM_BAD_KEY_PROPERTY, keys)) := by
  refine ⟨?_, ?_, ?_, ?_, ?_, ?_, ?_, ?_, ?_, ?_, ?_⟩
  · simp [SWTPM_NVRAM_Set_FileKey, SWTPM_NVRAM_KeyParamCheck, TPM_AES_BLOCK_SIZE, h,
      TPM_SUCCESS]
  · simp [SWTPM_NVRAM_Set_FileKey, SWTPM_NVRAM_KeyParamCheck, TPM_AES_BLOCK_SIZE, h,
      SWTPM_NVRAM_Has_FileKey]
  · simp [SWTPM_NVRAM_Set_FileKey, SWTPM_NVRAM_KeyParamCheck, TPM_AES_BLOCK_SIZE, h,
      memcpy]
  · simp [SWTPM_NVRAM_Set_FileKey, SWTPM_NVRAM_KeyParamCheck, TPM_AES_BLOCK_SIZE, h]
  · simp [SWTPM_NVRAM_Set_FileKey, SWTPM_NVRAM_KeyParamCheck, TPM_AES_BLOCK_SIZE, h]
  · simp [SWTPM_NVRAM_Set_MigrationKey, SWTPM_NVRAM_KeyParamCheck, TPM_AES_BLOCK_SIZE, h,
      TPM_SUCCESS]
  · simp [SWTPM_NVRAM_Set_MigrationKey, SWTPM_NVRAM_KeyParamCheck, TPM_AES_BLOCK_SIZE, h,
      SWTPM_NVRAM_Has_MigrationKey]
  · simp [SWTPM_NVRAM_Set_MigrationKey, SWTPM_NVRAM_KeyParamCheck, TPM_AES_BLOCK_SIZE, h,
      memcpy]
  · simp [SWTPM_NVRAM_Set_MigrationKey, SWTPM_NVRAM_KeyParamCheck, TPM_AES_BLOCK_SIZE, h]
  · simp [SWTPM_NVRAM_Set_MigrationKey, SWTPM_NVRAM_KeyParamCheck, TPM_AES_BLOCK_SIZE, h]
  · intro key32 h32
    simp [SWTPM_NVRAM_Set_FileKey, SWTPM_NVRAM_Set_MigrationKey, SWTPM_NVRAM_KeyParamCheck,
      TPM_AES_BLOCK_SIZE, h32, TPM_BAD_KEY_PROPERTY]

/-- C12 (amended), at the 16-byte key of sevens on the initial registry: the state key
is installed. -/
theorem C12_accepted_key_sizes_witness :
    SWTPM_NVRAM_Set_FileKey initialKeys (List.replicate 16 7) .ENCRYPTION_MODE_AES_CBC
      = (TPM_SUCCESS, ⟨aesKey 7, nokey⟩) ∧
    SWTPM_NVRAM_Has_FileKey
      (SWTPM_NVRAM_Set_FileKey initialKeys (List.replicate 16 7)
        .ENCRYPTION_MODE_AES_CBC).2 = true :=
  ⟨by rfl, (C12_accepted_key_sizes initialKeys (List.replicate 16 7) (by rfl)).2.1⟩

/-- C13: `SWTPM_NVRAM_Set_FileKey` and `SWTPM_NVRAM_Set_MigrationKey` return TPM_BAD_MODE
for the unknown mode (whatever the key length) and TPM_BAD_KEY_PROPERTY for the AES-CBC
mode with a key length other than the accepted one, and whenever they fail the whole
registry is unchanged; at program start `Has_FileKey` and `Has_MigrationKey` are false;
a set of one key never changes the other key. -/
theorem C13_no_partial_key_installation (keys : Keys) (key : Bytes)
    (encmode : encryption_mode) :
    (SWTPM_NVRAM_Set_FileKey keys key .ENCRYPTION_MODE_UNKNOWN = (TPM_BAD_MODE, keys) ∧
     SWTPM_NVRAM_Set_MigrationKey keys key .ENCRYPTION_MODE_UNKNOWN = (TPM_BAD_MODE, keys)) ∧
    (key.length ≠ 16 →
      SWTPM_NVRAM_Set_FileKey keys key .ENCRYPTION_MODE_AES_CBC
        = (TPM_BAD_KEY_PROPERTY, keys) ∧
      SWTPM_NVRAM_Set_MigrationKey keys key .ENCRYPTION_MODE_AES_CBC
        = (TPM_BAD_KEY_PROPERTY, keys)) ∧
    ((SWTPM_NVRAM_Set_FileKey keys key encmode).1 ≠ 0 →
      (SWTPM_NVRAM_Set_FileKey keys key encmode).2 = keys) ∧
    ((SWTPM_NVRAM_Set_MigrationKey keys key encmode).1 ≠ 0 →
      (SWTPM_NVRAM_Set_MigrationKey keys key encmode).2 = keys) ∧
    (SWTPM_NVRAM_Has_FileKey initialKeys = false ∧
     SWTPM_NVRAM_Has_MigrationKey initialKeys = false) ∧
    (SWTPM_NVRAM_Set_FileKey keys key encmode).2.migrationkey = keys.migrationkey ∧
    (SWTPM_NVRAM_Set_MigrationKey keys key encmode).2.filekey = keys.filekey := by
  refine ⟨⟨?_, ?_⟩, ?_, ?_, ?_, ⟨rfl, rfl⟩, ?_, ?_⟩
  · simp [SWTPM_NVRAM_Set_FileKey, SWTPM_NVRAM_KeyParamCheck, TPM_BAD_MODE]
  · simp [SWTPM_NVRAM_Set_MigrationKey, SWTPM_NVRAM_KeyParamCheck, TPM_BAD_MODE]
  · intro h
    simp [SWTPM_NVRAM_Set_FileKey, SWTPM_NVRAM_Set_MigrationKey, SWTPM_NVRAM_KeyParamCheck,
      TPM_AES_BLOCK_SIZE, h, TPM_BAD_KEY_PROPERTY]
  · intro h
    unfold SWTPM_NVRAM_Set_FileKey at h ⊢
    by_cases hrc : SWTPM_NVRAM_KeyParamCheck key.length encmode = 0
    · simp [hrc] at h
    · simp [hrc]
  · intro h
    unfold SWTPM_NVRAM_Set_MigrationKey at h ⊢
    by_cases hrc : SWTPM_NVRAM_KeyParamCheck key.length encmode = 0
    · simp [hrc] at h
    · simp [hrc]
  · unfold SWTPM_NVRAM_Set_FileKey
    by_cases hrc : SWTPM_NVRAM_KeyParamCheck key.length encmode = 0 <;> simp [hrc]
  · unfold SWTPM_NVRAM_Set_MigrationKey
    by_cases hrc : SWTPM_NVRAM_KeyParamCheck key.length encmode = 0 <;> simp [hrc]


/-! ### In-band replies of the request pipeline -/

theorem length_errresp (errcode : Nat) (v : TPMLIB_TPMVersion) :
    (errresp errcode v).length = 10 := by
  simp [errresp, htons, htonl]

theorem errresp_bytes (errcode : Nat) (v : TPMLIB_TPMVersion) :
    errresp errcode v =
      (if v = .TPMLIB_TPM_VERSION_2 then [128, 1] else [0, 196]) ++ [0, 0, 0, 10]
        ++ htonl errcode := by
  cases v <;> simp [errresp, htons, htonl, sizeof_tpm_resp_header]

theorem write_error_response_new (r : Resp) (errcode : Nat) (v : TPMLIB_TPMVersion)
    (h : r.rbuffer = none ∨ r.rTotal < 10) :
    tpmlib_write_error_response true r errcode v = ⟨some (errresp errcode v), 10, 10⟩ := by
  simp [tpmlib_write_error_response, sizeof_tpm_resp_header, h, memcpy]

theorem write_error_response_reuse (malloc_ok : Bool) (r : Resp) (errcode : Nat)
    (v : TPMLIB_TPMVersion) (b : Bytes) (hb : r.rbuffer = some b) (ht : 10 ≤ r.rTotal) :
    tpmlib_write_error_response malloc_ok r errcode v =
      ⟨some (errresp errcode v ++ b.drop 10), 10, r.rTotal⟩ := by
  have h1 : ¬ r.rTotal < 10 := by omega
  simp [tpmlib_write_error_response, sizeof_tpm_resp_header, hb, h1, memcpy, length_errresp]

/-- Whenever a buffer is at hand (the allocation succeeds, or the caller's buffer has
room for a response header), `tpmlib_write_error_response` leaves a well-formed reply. -/
theorem write_error_response_wellformed (malloc_ok : Bool) (r : Resp) (errcode : Nat)
    (v : TPMLIB_TPMVersion)
    (h : malloc_ok = true ∨ (r.rbuffer ≠ none ∧ 10 ≤ r.rTotal)) :
    WellFormedReply (tpmlib_write_error_response malloc_ok r errcode v) v errcode := by
  unfold WellFormedReply
  by_cases hc : r.rbuffer = none ∨ r.rTotal < 10
  · have hm : malloc_ok = true := by
      rcases h with h | ⟨h1, h2⟩
      · exact h
      · rcases hc with hc | hc
        · exact absurd hc h1
        · omega
    subst hm
    rw [write_error_response_new r errcode v hc]
    refine ⟨rfl, le_refl _, _, rfl, ?_⟩
    rw [← errresp_bytes, ← length_errresp errcode v, List.take_length]
  · have hb : r.rbuffer ≠ none := fun h0 => hc (Or.inl h0)
    have ht : 10 ≤ r.rTotal := by
      have : ¬ r.rTotal < 10 := fun h0 => hc (Or.inr h0)
      omega
    cases hbuf : r.rbuffer with
    | none => exact absurd hbuf hb
    | some b =>
      rw [write_error_response_reuse malloc_ok r errcode v b hbuf ht]
      refine ⟨rfl, ht, _, rfl, ?_⟩
      rw [← errresp_bytes, ← length_errresp errcode v, List.take_left]

theorem process_short (c : Consts) (malloc_ok : Bool) (r : Resp) (command : Bytes)
    (flags locality : Nat) (v : TPMLIB_TPMVersion) (h : command.length < 10) :
    tpmlib_process c malloc_ok r command flags locality v =
      ⟨TPM_SUCCESS, tpmlib_write_shortmsg_error_response malloc_ok r v, locality, []⟩ := by
  simp [tpmlib_process, sizeof_tpm_req_header, h]

theorem process_setlocality (c : Consts) (malloc_ok : Bool) (r : Resp) (command : Bytes)
    (flags locality : Nat) (v : TPMLIB_TPMVersion) (h : 10 ≤ command.length)
    (hord : req_ordinal command = setLocalityOrdinal c v) :
    tpmlib_process c malloc_ok r command flags locality v =
      tpmlib_process_setlocality c malloc_ok r command v flags locality := by
  have hn : ¬ command.length < 10 := by omega
  cases v <;> simp [tpmlib_process, sizeof_tpm_req_header, hn, hord, setLocalityOrdinal]

theorem setlocality_long (c : Consts) (malloc_ok : Bool) (r : Resp) (command : Bytes)
    (flags locality : Nat) (v : TPMLIB_TPMVersion) (hlen : 11 ≤ command.length) :
    tpmlib_process_setlocality c malloc_ok r command v flags locality =
      if flags &&& c.LOCALITY_FLAG_ALLOW_SETLOCALITY = 0 then
        ⟨TPM_SUCCESS, tpmlib_write_error_response malloc_ok r
          (if v = .TPMLIB_TPM_VERSION_2 then TPM_RC_FAILURE else TPM_FAIL) v, locality, []⟩
      else if command.getD 10 0 ≥ 5 ∨
          (command.getD 10 0 = 4 ∧ flags &&& c.LOCALITY_FLAG_REJECT_LOCALITY_4 ≠ 0) then
        ⟨TPM_SUCCESS, tpmlib_write_error_response malloc_ok r
          (if v = .TPMLIB_TPM_VERSION_2 then TPM_RC_LOCALITY else TPM_BAD_LOCALITY) v,
          locality, []⟩
      else
        ⟨TPM_SUCCESS, tpmlib_write_error_response malloc_ok r 0 v, command.getD 10 0, []⟩ := by
  have h : command.length ≥ 10 + 1 := hlen
  simp only [tpmlib_process_setlocality, sizeof_tpm_req_header, h, if_true,
    tpmlib_write_fatal_error_response, tpmlib_write_locality_error_response,
    tpmlib_write_success_response]

/-- The reply that `tpmlib_write_error_response` leaves in a freshly allocated buffer:
exactly the 10 bytes tag, size 10 and result code. -/
theorem write_error_response_fresh (malloc_ok : Bool) (r : Resp) (errcode : Nat)
    (v : TPMLIB_TPMVersion) (hm : malloc_ok = true) (hn : r.rbuffer = none) :
    tpmlib_write_error_response malloc_ok r errcode v =
      ⟨some ((if v = .TPMLIB_TPM_VERSION_2 then [128, 1] else [0, 196]) ++ [0, 0, 0, 10]
        ++ htonl errcode), 10, 10⟩ := by
  subst hm
  rw [write_error_response_new r errcode v (Or.inl hn), errresp_bytes]

/-- C14: for every command of at least 11 bytes whose ordinal is the SET_LOCALITY ordinal
of the TPM version, `tpmlib_process` returns TPM_SUCCESS and forwards nothing, and with l
the byte at offset 10: (a) if `locality_flags` lacks ALLOW_SETLOCALITY it writes the fatal
error (TPM_FAIL for TPM 1.2, TPM_RC_FAILURE for TPM 2) and keeps the locality; (b)
otherwise, if l >= 5 or (l = 4 and REJECT_LOCALITY_4 is set), it writes TPM_BAD_LOCALITY /
TPM_RC_LOCALITY and keeps the locality; (c) otherwise it writes the success response and
sets the locality to l. A changed locality occurs in case (c) only. "Writes" is pinned to
the bytes: whenever a response buffer is at hand (the allocation succeeds or the caller's
buffer holds 10 bytes) the response has `rlength = 10`, `rTotal >= 10` and the 10 bytes
tag (`80 01` / `00 C4`), size 10 and the big-endian result code of the case; into a fresh
buffer it is exactly these 10 bytes with `rTotal = 10`. -/
theorem C14_setlocality_decision_table (c : Consts) (malloc_ok : Bool) (r : Resp)
    (command : Bytes) (flags locality : Nat) (v : TPMLIB_TPMVersion)
    (hlen : 11 ≤ command.length)
    (hord : req_ordinal command = setLocalityOrdinal c v) :
    (tpmlib_process c malloc_ok r command flags locality v).rc = TPM_SUCCESS ∧
    (tpmlib_process c malloc_ok r command flags locality v).forwarded = [] ∧
    (flags &&& c.LOCALITY_FLAG_ALLOW_SETLOCALITY = 0 →
      (tpmlib_process c malloc_ok r command flags locality v).resp =
        tpmlib_write_error_response malloc_ok r
          (if v = .TPMLIB_TPM_VERSION_2 then TPM_RC_FAILURE else TPM_FAIL) v ∧
      (tpmlib_process c malloc_ok r command flags locality v).locality = locality ∧
      (malloc_ok = true ∨ (r.rbuffer ≠ none ∧ 10 ≤ r.rTotal) →
        WellFormedReply (tpmlib_process c malloc_ok r command flags locality v).resp v
          (if v = .TPMLIB_TPM_VERSION_2 then TPM_RC_FAILURE else TPM_FAIL)) ∧
      (malloc_ok = true → r.rbuffer = none →
        (tpmlib_process c malloc_ok r command flags locality v).resp =
          ⟨some ((if v = .TPMLIB_TPM_VERSION_2 then [128, 1] else [0, 196])
            ++ [0, 0, 0, 10]
            ++ htonl (if v = .TPMLIB_TPM_VERSION_2 then TPM_RC_FAILURE else TPM_FAIL)),
            10, 10⟩)) ∧
    (flags &&& c.LOCALITY_FLAG_ALLOW_SETLOCALITY ≠ 0 →
      (command.getD 10 0 ≥ 5 ∨
        (command.getD 10 0 = 4 ∧ flags &&& c.LOCALITY_FLAG_REJECT_LOCALITY_4 ≠ 0)) →
      (tpmlib_process c malloc_ok r command flags locality v).resp =
        tpmlib_write_error_response malloc_ok r
          (if v = .TPMLIB_TPM_VERSION_2 then TPM_RC_LOCALITY else TPM_BAD_LOCALITY) v ∧
      (tpmlib_process c malloc_ok r command flags locality v).locality = locality ∧
      (malloc_ok = true ∨ (r.rbuffer ≠ none ∧ 10 ≤ r.rTotal) →
        WellFormedReply (tpmlib_process c malloc_ok r command flags locality v).resp v
          (if v = .TPMLIB_TPM_VERSION_2 then TPM_RC_LOCALITY else TPM_BAD_LOCALITY)) ∧
      (malloc_ok = true → r.rbuffer = none →
        (tpmlib_process c malloc_ok r command flags locality v).resp =
          ⟨some ((if v = .TPMLIB_TPM_VERSION_2 then [128, 1] else [0, 196])
            ++ [0, 0, 0, 10]
            ++ htonl (if v = .TPMLIB_TPM_VERSION_2 then TPM_RC_LOCALITY
                else TPM_BAD_LOCALITY)),
            10, 10⟩)) ∧
    (flags &&& c.LOCALITY_FLAG_ALLOW_SETLOCALITY ≠ 0 →
      ¬ (command.getD 10 0 ≥ 5 ∨
        (command.getD 10 0 = 4 ∧ flags &&& c.LOCALITY_FLAG_REJECT_LOCALITY_4 ≠ 0)) →
      (tpmlib_process c malloc_ok r command flags locality v).resp =
        tpmlib_write_error_response malloc_ok r 0 v ∧
      (tpmlib_process c malloc_ok r command flags locality v).locality
        = command.getD 10 0 ∧
      (malloc_ok = true ∨ (r.rbuffer ≠ none ∧ 10 ≤ r.rTotal) →
        WellFormedReply (tpmlib_process c malloc_ok r command flags locality v).resp v 0) ∧
      (malloc_ok = true → r.rbuffer = none →
        (tpmlib_process c malloc_ok r command flags locality v).resp =
          ⟨some ((if v = .TPMLIB_TPM_VERSION_2 then [128, 1] else [0, 196])
            ++ [0, 0, 0, 10, 0, 0, 0, 0]), 10, 10⟩)) ∧
    ((tpmlib_process c malloc_ok r command flags locality v).locality ≠ locality →
      flags &&& c.LOCALITY_FLAG_ALLOW_SETLOCALITY ≠ 0 ∧
      ¬ (command.getD 10 0 ≥ 5 ∨
        (command.getD 10 0 = 4 ∧ flags &&& c.LOCALITY_FLAG_REJECT_LOCALITY_4 ≠ 0))) := by
  rw [process_setlocality c malloc_ok r command flags locality v (by omega) hord,
    setlocality_long c malloc_ok r command flags locality v hlen]
  by_cases ha : flags &&& c.LOCALITY_FLAG_ALLOW_SETLOCALITY = 0
  · rw [if_pos ha]
    exact ⟨rfl, rfl,
      fun _ => ⟨rfl, rfl, fun hbuf => write_error_response_wellformed _ _ _ _ hbuf,
        fun hm hn => write_error_response_fresh _ _ _ _ hm hn⟩,
      fun h => absurd ha h, fun h => absurd ha h, fun h => absurd rfl h⟩
  · by_cases hb : command.getD 10 0 ≥ 5 ∨
        (command.getD 10 0 = 4 ∧ flags &&& c.LOCALITY_FLAG_REJECT_LOCALITY_4 ≠ 0)
    · rw [if_neg ha, if_pos hb]
      exact ⟨rfl, rfl, fun h => absurd h ha,
        fun _ _ => ⟨rfl, rfl, fun hbuf => write_error_response_wellformed _ _ _ _ hbuf,
          fun hm hn => write_error_response_fresh _ _ _ _ hm hn⟩,
        fun _ h => absurd hb h, fun h => absurd rfl h⟩
    · rw [if_neg ha, if_neg hb]
      exact ⟨rfl, rfl, fun h => absurd h ha, fun _ h => absurd h hb,
        fun _ _ => ⟨rfl, rfl, fun hbuf => write_error_response_wellformed _ _ _ _ hbuf,
          fun hm hn => (write_error_response_fresh _ _ 0 _ hm hn).trans (by
            cases v <;> rfl)⟩,
        fun _ => ⟨ha, hb⟩⟩

/-- C14, at the SetLocality(3) command of scenario 3 with both flag bits set, starting
from locality 1 on a TPM 2 with an empty response buffer: the reply is the 10 bytes
`80 01 00 00 00 0A 00 00 00 00` and the locality becomes 3. -/
theorem C14_setlocality_decision_table_witness :
    (tpmlib_process exampleConsts true noResp setLocality3 3 1 .TPMLIB_TPM_VERSION_2).resp =
        ⟨some [128, 1, 0, 0, 0, 10, 0, 0, 0, 0], 10, 10⟩ ∧
    (tpmlib_process exampleConsts true noResp setLocality3 3 1 .TPMLIB_TPM_VERSION_2).locality
      = 3 :=
  ⟨((C14_setlocality_decision_table exampleConsts true noResp setLocality3 3 1
      .TPMLIB_TPM_VERSION_2 (by decide) (by rfl)).2.2.2.2.1 (by decide)
      (by decide)).2.2.2 rfl rfl,
   ((C14_setlocality_decision_table exampleConsts true noResp setLocality3 3 1
      .TPMLIB_TPM_VERSION_2 (by decide) (by rfl)).2.2.2.2.1 (by decide)
      (by decide)).2.1⟩

/-- C15 (counterexample): with `locality_flags = 0` a SetLocality(5) command on a TPM 2
is answered with TPM_RC_FAILURE, not TPM_RC_LOCALITY; and with only REJECT_LOCALITY_4 set,
SetLocality(4) is answered with TPM_RC_FAILURE as well. -/
theorem C15_counterexample :
    tpmlib_process exampleConsts true noResp [128, 1, 0, 0, 0, 11, 0, 0, 1, 59, 5] 0 0
        .TPMLIB_TPM_VERSION_2
      = ⟨TPM_SUCCESS, ⟨some ([128, 1, 0, 0, 0, 10] ++ htonl TPM_RC_FAILURE), 10, 10⟩, 0, []⟩ ∧
    1 &&& exampleConsts.LOCALITY_FLAG_REJECT_LOCALITY_4 ≠ 0 ∧
    tpmlib_process exampleConsts true noResp [128, 1, 0, 0, 0, 11, 0, 0, 1, 59, 4] 1 0
        .TPMLIB_TPM_VERSION_2
      = ⟨TPM_SUCCESS, ⟨some ([128, 1, 0, 0, 0, 10] ++ htonl TPM_RC_FAILURE), 10, 10⟩, 0, []⟩ ∧
    TPM_RC_FAILURE ≠ TPM_RC_LOCALITY := by
  refine ⟨by rfl, by decide, by rfl, by decide⟩

/-- C15 (amended): the locality policy applies once SetLocality is allowed. For a
SetLocality command (at least 11 bytes, SET_LOCALITY ordinal) carrying the locality l:
with ALLOW_SETLOCALITY set, l >= 5 is answered with TPM_BAD_LOCALITY (TPM 1.2) /
TPM_RC_LOCALITY (TPM 2) and so is l = 4 when REJECT_LOCALITY_4 is set as well, both
without a change of the locality, and l = 3 is answered with success and makes the
current locality 3; without ALLOW_SETLOCALITY every such command is answered with the
fatal error and the locality stays. An answer with a result code is, whenever a response
buffer is at hand, the well-formed 10-byte reply that carries this code. -/
theorem C15_locality_policy (c : Consts) (malloc_ok : Bool) (r : Resp)
    (command : Bytes) (flags locality : Nat) (v : TPMLIB_TPMVersion)
    (hlen : 11 ≤ command.length)
    (hord : req_ordinal command = setLocalityOrdinal c v) :
    (flags &&& c.LOCALITY_FLAG_ALLOW_SETLOCALITY ≠ 0 → 5 ≤ command.getD 10 0 →
      tpmlib_process c malloc_ok r command flags locality v =
        ⟨TPM_SUCCESS, tpmlib_write_error_response malloc_ok r
          (if v = .TPMLIB_TPM_VERSION_2 then TPM_RC_LOCALITY else TPM_BAD_LOCALITY) v,
          locality, []⟩) ∧
    (flags &&& c.LOCALITY_FLAG_ALLOW_SETLOCALITY ≠ 0 →
      flags &&& c.LOCALITY_FLAG_REJECT_LOCALITY_4 ≠ 0 → command.getD 10 0 = 4 →
      tpmlib_process c malloc_ok r command flags locality v =
        ⟨TPM_SUCCESS, tpmlib_write_error_response malloc_ok r
          (if v = .TPMLIB_TPM_VERSION_2 then TPM_RC_LOCALITY else TPM_BAD_LOCALITY) v,
          locality, []⟩) ∧
    (flags &&& c.LOCALITY_FLAG_ALLOW_SETLOCALITY ≠ 0 → command.getD 10 0 = 3 →
      tpmlib_process c malloc_ok r command flags locality v =
        ⟨TPM_SUCCESS, tpmlib_write_error_response malloc_ok r 0 v, 3, []⟩) ∧
    (flags &&& c.LOCALITY_FLAG_ALLOW_SETLOCALITY = 0 →
      tpmlib_process c malloc_ok r command flags locality v =
        ⟨TPM_SUCCESS, tpmlib_write_error_response malloc_ok r
          (if v = .TPMLIB_TPM_VERSION_2 then TPM_RC_FAILURE else TPM_FAIL) v,
          locality, []⟩) ∧
    (malloc_ok = true ∨ (r.rbuffer ≠ none ∧ 10 ≤ r.rTotal) →
      ∀ code, WellFormedReply (tpmlib_write_error_response malloc_ok r code v) v code) := by
  rw [process_setlocality c malloc_ok r command flags locality v (by omega) hord,
    setlocality_long c malloc_ok r command flags locality v hlen]
  refine ⟨?_, ?_, ?_, ?_,
    fun hbuf code => write_error_response_wellformed malloc_ok r code v hbuf⟩
  · intro ha hl
    have hb : command.getD 10 0 ≥ 5 ∨
        (command.getD 10 0 = 4 ∧ flags &&& c.LOCALITY_FLAG_REJECT_LOCALITY_4 ≠ 0) :=
      Or.inl hl
    simp only [ha, if_false, hb, if_true]
  · intro ha hr hl
    have hb : command.getD 10 0 ≥ 5 ∨
        (command.getD 10 0 = 4 ∧ flags &&& c.LOCALITY_FLAG_REJECT_LOCALITY_4 ≠ 0) :=
      Or.inr ⟨hl, hr⟩
    simp only [ha, if_false, hb, if_true]
  · intro ha hl
    have hb : ¬ (command.getD 10 0 ≥ 5 ∨
        (command.getD 10 0 = 4 ∧ flags &&& c.LOCALITY_FLAG_REJECT_LOCALITY_4 ≠ 0)) := by
      rw [hl]
      intro h
      rcases h with h | ⟨h, _⟩
      · omega
      · omega
    rw [if_neg ha, if_neg hb, hl]
  · intro ha
    simp only [ha, if_true]

/-- C15 (amended), at the SetLocality(3) command of scenario 3 with ALLOW_SETLOCALITY
as only flag: the answer is the success reply `80 01 00 00 00 0A 00 00 00 00`. -/
theorem C15_locality_policy_witness :
    tpmlib_process exampleConsts true noResp setLocality3 2 0 .TPMLIB_TPM_VERSION_2 =
      ⟨TPM_SUCCESS, tpmlib_write_error_response true noResp 0 .TPMLIB_TPM_VERSION_2, 3, []⟩ ∧
    tpmlib_process exampleConsts true noResp setLocality3 2 0 .TPMLIB_TPM_VERSION_2 =
      ⟨TPM_SUCCESS, ⟨some [128, 1, 0, 0, 0, 10, 0, 0, 0, 0], 10, 10⟩, 3, []⟩ :=
  ⟨(C15_locality_policy exampleConsts true noResp setLocality3 2 0 .TPMLIB_TPM_VERSION_2
      (by decide) (by rfl)).2.2.1 (by decide) (by rfl),
   ((C15_locality_policy exampleConsts true noResp setLocality3 2 0 .TPMLIB_TPM_VERSION_2
      (by decide) (by rfl)).2.2.1 (by decide) (by rfl)).trans (by rfl)⟩

theorem setlocality_short (c : Consts) (malloc_ok : Bool) (r : Resp) (command : Bytes)
    (flags locality : Nat) (v : TPMLIB_TPMVersion) (hlen : command.length < 11) :
    tpmlib_process_setlocality c malloc_ok r command v flags locality =
      ⟨TPM_SUCCESS, tpmlib_write_shortmsg_error_response malloc_ok r v, locality, []⟩ := by
  have h : ¬ command.length ≥ 10 + 1 := by omega
  simp only [tpmlib_process_setlocality, sizeof_tpm_req_header, h, if_false]

/-- C16: for every command buffer shorter than the 10-byte request header,
`tpmlib_process` writes the error response with TPM_BAD_PARAM_SIZE (TPM 1.2) or
TPM_RC_INSUFFICIENT (TPM 2), returns TPM_SUCCESS, forwards nothing and keeps the locality;
a SET_LOCALITY command of exactly 10 bytes gets the same response; and when the response
buffer is available that response is a well-formed reply carrying this code. -/
theorem C16_size_check (c : Consts) (malloc_ok : Bool) (r : Resp) (command : Bytes)
    (flags locality : Nat) (v : TPMLIB_TPMVersion) :
    (command.length < 10 →
      tpmlib_process c malloc_ok r command flags locality v =
        ⟨TPM_SUCCESS, tpmlib_write_error_response malloc_ok r
          (if v = .TPMLIB_TPM_VERSION_2 then TPM_RC_INSUFFICIENT else TPM_BAD_PARAM_SIZE) v,
          locality, []⟩) ∧
    (command.length = 10 → req_ordinal command = setLocalityOrdinal c v →
      tpmlib_process c malloc_ok r command flags locality v =
        ⟨TPM_SUCCESS, tpmlib_write_error_response malloc_ok r
          (if v = .TPMLIB_TPM_VERSION_2 then TPM_RC_INSUFFICIENT else TPM_BAD_PARAM_SIZE) v,
          locality, []⟩) ∧
    (malloc_ok = true ∨ (r.rbuffer ≠ none ∧ 10 ≤ r.rTotal) →
      WellFormedReply (tpmlib_write_error_response malloc_ok r
          (if v = .TPMLIB_TPM_VERSION_2 then TPM_RC_INSUFFICIENT else TPM_BAD_PARAM_SIZE) v)
        v (if v = .TPMLIB_TPM_VERSION_2 then TPM_RC_INSUFFICIENT else TPM_BAD_PARAM_SIZE)) := by
  refine ⟨?_, ?_, ?_⟩
  · intro h
    rw [process_short c malloc_ok r command flags locality v h]
    rfl
  · intro h hord
    rw [process_setlocality c malloc_ok r command flags locality v (by omega) hord,
      setlocality_short c malloc_ok r command flags locality v (by omega)]
    rfl
  · intro h
    exact write_error_response_wellformed malloc_ok r _ v h

/-- C16, evaluated: a 4-byte buffer on a TPM 2 and a 10-byte SET_LOCALITY command on a
TPM 1.2 are answered with the short-message codes 0x9A and 0x19, and locality 2 stays. -/
theorem C16_size_check_witness :
    tpmlib_process exampleConsts true noResp [128, 1, 0, 0] 3 2 .TPMLIB_TPM_VERSION_2 =
      ⟨TPM_SUCCESS, ⟨some [128, 1, 0, 0, 0, 10, 0, 0, 0, 154], 10, 10⟩, 2, []⟩ ∧
    tpmlib_process exampleConsts true noResp [0, 193, 0, 0, 0, 10, 0, 0, 1, 59] 3 2
        .TPMLIB_TPM_VERSION_1_2 =
      ⟨TPM_SUCCESS, ⟨some [0, 196, 0, 0, 0, 10, 0, 0, 0, 25], 10, 10⟩, 2, []⟩ :=
  ⟨((C16_size_check exampleConsts true noResp [128, 1, 0, 0] 3 2
      .TPMLIB_TPM_VERSION_2).1 (by decide)).trans (by rfl),
   ((C16_size_check exampleConsts true noResp [0, 193, 0, 0, 0, 10, 0, 0, 1, 59] 3 2
      .TPMLIB_TPM_VERSION_1_2).2.1 (by decide) (by rfl)).trans (by rfl)⟩

/-- C18: when the response buffer can be allocated (or a buffer of at least 10 bytes is
already there), each response the request pipeline writes itself (success, fatal error,
locality error, short message) has `rlength = 10`, `rTotal >= 10` and as its 10 bytes the
tag `80 01` (TPM 2) or `00 C4` (TPM 1.2), the big-endian size 10 and the big-endian 32-bit
result code. With 0x13B as the TPM 2 SET_LOCALITY ordinal and ALLOW_SETLOCALITY set, the
command `80 01 00 00 00 0B 00 00 01 3B 03` is answered, from an empty response buffer,
with exactly `80 01 00 00 00 0A 00 00 00 00`, and the locality becomes 3. -/
theorem C18_inband_replies_wellformed (malloc_ok : Bool) (r : Resp) (v : TPMLIB_TPMVersion)
    (h : malloc_ok = true ∨ (r.rbuffer ≠ none ∧ 10 ≤ r.rTotal)) :
    WellFormedReply (tpmlib_write_success_response malloc_ok r v) v 0 ∧
    WellFormedReply (tpmlib_write_fatal_error_response malloc_ok r v) v
      (if v = .TPMLIB_TPM_VERSION_2 then TPM_RC_FAILURE else TPM_FAIL) ∧
    WellFormedReply (tpmlib_write_locality_error_response malloc_ok r v) v
      (if v = .TPMLIB_TPM_VERSION_2 then TPM_RC_LOCALITY else TPM_BAD_LOCALITY) ∧
    WellFormedReply (tpmlib_write_shortmsg_error_response malloc_ok r v) v
      (if v = .TPMLIB_TPM_VERSION_2 then TPM_RC_INSUFFICIENT else TPM_BAD_PARAM_SIZE) ∧
    (∀ (c : Consts) (flags locality : Nat), c.TPM2_CC_SET_LOCALITY = 315 →
      flags &&& c.LOCALITY_FLAG_ALLOW_SETLOCALITY ≠ 0 →
      WellFormedReply
        (tpmlib_process c malloc_ok r [128, 1, 0, 0, 0, 11, 0, 0, 1, 59, 3] flags locality
          .TPMLIB_TPM_VERSION_2).resp .TPMLIB_TPM_VERSION_2 0 ∧
      (tpmlib_process c malloc_ok r [128, 1, 0, 0, 0, 11, 0, 0, 1, 59, 3] flags locality
          .TPMLIB_TPM_VERSION_2).locality = 3 ∧
      tpmlib_process c true noResp [128, 1, 0, 0, 0, 11, 0, 0, 1, 59, 3] flags locality
          .TPMLIB_TPM_VERSION_2 =
        ⟨TPM_SUCCESS, ⟨some [128, 1, 0, 0, 0, 10, 0, 0, 0, 0], 10, 10⟩, 3, []⟩) := by
  refine ⟨write_error_response_wellformed malloc_ok r 0 v h,
    write_error_response_wellformed malloc_ok r _ v h,
    write_error_response_wellformed malloc_ok r _ v h,
    write_error_response_wellformed malloc_ok r _ v h, ?_⟩
  intro c flags locality hc ha
  have hord : req_ordinal [128, 1, 0, 0, 0, 11, 0, 0, 1, 59, 3] =
      setLocalityOrdinal c .TPMLIB_TPM_VERSION_2 := by
    show _ = c.TPM2_CC_SET_LOCALITY
    rw [hc]
    rfl
  have hb : ¬ (([128, 1, 0, 0, 0, 11, 0, 0, 1, 59, 3] : Bytes).getD 10 0 ≥ 5 ∨
      (([128, 1, 0, 0, 0, 11, 0, 0, 1, 59, 3] : Bytes).getD 10 0 = 4 ∧
        flags &&& c.LOCALITY_FLAG_REJECT_LOCALITY_4 ≠ 0)) := by
    intro h
    rcases h with h | ⟨h, _⟩
    · exact absurd h (by decide)
    · exact absurd h (by decide)
  have key : ∀ (m : Bool) (r0 : Resp),
      tpmlib_process c m r0 [128, 1, 0, 0, 0, 11, 0, 0, 1, 59, 3] flags locality
          .TPMLIB_TPM_VERSION_2 =
        ⟨TPM_SUCCESS, tpmlib_write_error_response m r0 0 .TPMLIB_TPM_VERSION_2, 3, []⟩ := by
    intro m r0
    rw [process_setlocality c m r0 _ flags locality _ (by decide) hord,
      setlocality_long c m r0 _ flags locality _ (by decide), if_neg ha, if_neg hb]
    rfl
  refine ⟨?_, ?_, ?_⟩
  · rw [key]
    exact write_error_response_wellformed malloc_ok r 0 _ h
  · rw [key]
  · rw [key]
    rfl

/-- C18, at an empty response buffer with a successful allocation on a TPM 2: the
success reply is `80 01 00 00 00 0A 00 00 00 00`. -/
theorem C18_inband_replies_wellformed_witness :
    (true = true ∨ (noResp.rbuffer ≠ none ∧ 10 ≤ noResp.rTotal)) ∧
    WellFormedReply (tpmlib_write_success_response true noResp .TPMLIB_TPM_VERSION_2)
      .TPMLIB_TPM_VERSION_2 0 ∧
    tpmlib_process exampleConsts true noResp [128, 1, 0, 0, 0, 11, 0, 0, 1, 59, 3] 2 0
        .TPMLIB_TPM_VERSION_2 =
      ⟨TPM_SUCCESS, ⟨some [128, 1, 0, 0, 0, 10, 0, 0, 0, 0], 10, 10⟩, 3, []⟩ :=
  ⟨Or.inl rfl,
   (C18_inband_replies_wellformed true noResp .TPMLIB_TPM_VERSION_2 (Or.inl rfl)).1,
   ((C18_inband_replies_wellformed true noResp .TPMLIB_TPM_VERSION_2
      (Or.inl rfl)).2.2.2.2 exampleConsts 2 0 (by rfl) (by decide)).2.2⟩

/-- C17 (counterexample): on the empty buffer the returned offset is 0, which is not
strictly smaller than the command length 0. -/
theorem C17_counterexample :
    tpmlib_handle_tcg_tpm2_cmd_header [] 0 = (0, 0) ∧
    ¬ ((tpmlib_handle_tcg_tpm2_cmd_header [] 0).1 < ([] : Bytes).length) := by
  refine ⟨by rfl, by decide⟩

/-- C17 (amended): `tpmlib_handle_tcg_tpm2_cmd_header` returns the size 9 of the TCG
send-command prefix and sets the locality to the prefix's locality byte (offset 4) exactly
when the buffer is at least 10 bytes long, its first big-endian 16-bit tag is neither
TPM2_ST_NO_SESSION nor TPM2_ST_SESSIONS and its first big-endian 32-bit word is
TPM2_SEND_COMMAND; in every other case it returns 0 and leaves the locality unchanged.
Whenever a prefix is stripped, and for every non-empty buffer, the returned offset is
strictly smaller than the command length. -/
theorem C17_tcg_prefix_detection (command : Bytes) (locality : Nat) :
    ((10 ≤ command.length ∧ (rd16 command 0).getD 0 ≠ TPM2_ST_NO_SESSION ∧
        (rd16 command 0).getD 0 ≠ TPM2_ST_SESSIONS ∧
        (rd32 command 0).getD 0 = TPM2_SEND_COMMAND) →
      tpmlib_handle_tcg_tpm2_cmd_header command locality =
        ( sizeof_tpm2_send_command_prefix, command.getD 4 0)) ∧
    (¬ (10 ≤ command.length ∧ (rd16 command 0).getD 0 ≠ TPM2_ST_NO_SESSION ∧
        (rd16 command 0).getD 0 ≠ TPM2_ST_SESSIONS ∧
        (rd32 command 0).getD 0 = TPM2_SEND_COMMAND) →
      tpmlib_handle_tcg_tpm2_cmd_header command locality = (0, locality)) ∧
    ((tpmlib_handle_tcg_tpm2_cmd_header command locality).1 ≠ 0 ↔
      (10 ≤ command.length ∧ (rd16 command 0).getD 0 ≠ TPM2_ST_NO_SESSION ∧
        (rd16 command 0).getD 0 ≠ TPM2_ST_SESSIONS ∧
        (rd32 command 0).getD 0 = TPM2_SEND_COMMAND)) ∧
    ((tpmlib_handle_tcg_tpm2_cmd_header command locality).1 ≠ 0 ∨ command ≠ [] →
      (tpmlib_handle_tcg_tpm2_cmd_header command locality).1 < command.length) := by
  have hpos : ∀ (c : Bytes), c ≠ [] → 0 < c.length := fun c hc =>
    List.length_pos.mpr hc
  by_cases h1 : command.length < 10
  · have hr : tpmlib_handle_tcg_tpm2_cmd_header command locality = (0, locality) := by
      simp [tpmlib_handle_tcg_tpm2_cmd_header, sizeof_tpm_req_header, h1]
    rw [hr]
    refine ⟨fun h => absurd h.1 (by omega), fun _ => rfl,
      ⟨fun h => absurd rfl h, fun h => absurd h.1 (by omega)⟩, ?_⟩
    intro h
    rcases h with h | h
    · exact absurd rfl h
    · exact hpos command h
  · by_cases h2 : (rd16 command 0).getD 0 = TPM2_ST_NO_SESSION
    · have hr : tpmlib_handle_tcg_tpm2_cmd_header command locality = (0, locality) := by
        simp [tpmlib_handle_tcg_tpm2_cmd_header, h2]
      rw [hr]
      refine ⟨fun h => absurd h2 h.2.1, fun _ => rfl,
        ⟨fun h => absurd rfl h, fun h => absurd h2 h.2.1⟩, ?_⟩
      intro _
      show 0 < command.length
      omega
    · by_cases h3 : (rd16 command 0).getD 0 = TPM2_ST_SESSIONS
      · have hr : tpmlib_handle_tcg_tpm2_cmd_header command locality = (0, locality) := by
          simp [tpmlib_handle_tcg_tpm2_cmd_header, h3]
        rw [hr]
        refine ⟨fun h => absurd h3 h.2.2.1, fun _ => rfl,
          ⟨fun h => absurd rfl h, fun h => absurd h3 h.2.2.1⟩, ?_⟩
        intro _
        show 0 < command.length
        omega
      · have h4 : ¬ command.length < 9 := by omega
        by_cases h5 : (rd32 command 0).getD 0 = TPM2_SEND_COMMAND
        · have hr : tpmlib_handle_tcg_tpm2_cmd_header command locality =
              ( sizeof_tpm2_send_command_prefix, command.getD 4 0) := by
            simp [tpmlib_handle_tcg_tpm2_cmd_header, sizeof_tpm_req_header,
              sizeof_tpm2_send_command_prefix, h1, h2, h3, h4, h5]
          rw [hr]
          refine ⟨fun _ => rfl, fun h => absurd ⟨by omega, h2, h3, h5⟩ h,
            ⟨fun _ => ⟨by omega, h2, h3, h5⟩, fun _ => Nat.succ_ne_zero 8⟩, ?_⟩
          intro _
          show 9 < command.length
          omega
        · have hr : tpmlib_handle_tcg_tpm2_cmd_header command locality = (0, locality) := by
            simp [tpmlib_handle_tcg_tpm2_cmd_header, sizeof_tpm_req_header,
              sizeof_tpm2_send_command_prefix, h1, h2, h3, h4, h5]
          rw [hr]
          refine ⟨fun h => absurd h.2.2.2 h5, fun _ => rfl,
            ⟨fun h => absurd rfl h, fun h => absurd h.2.2.2 h5⟩, ?_⟩
          intro _
          show 0 < command.length
          omega

/-- C17 (amended), evaluated: a buffer that starts with the prefix `00 00 00 08`,
locality byte 3, gives offset 9 and locality 3. -/
theorem C17_tcg_prefix_detection_witness :
    tpmlib_handle_tcg_tpm2_cmd_header [0, 0, 0, 8, 3, 0, 0, 0, 12, 128, 1] 0 = (9, 3) :=
  ((C17_tcg_prefix_detection [0, 0, 0, 8, 3, 0, 0, 0, 12, 128, 1] 0).1
    ⟨by decide, by decide, by decide, by rfl⟩).trans (by rfl)

/-- C19: provided the "no ordinal" value is none of the four cancelable ordinals,
`tpmlib_is_request_cancelable` returns true exactly when the request is at least 10 bytes
long and its big-endian ordinal (bytes 6..9) is CreatePrimary or Create for TPM 2, or
TakeOwnership or CreateWrapKey for TPM 1.2; it returns false for every request shorter
than a request header, and `tpmlib_get_cmd_ordinal` returns TPM_ORDINAL_NONE for such
requests. -/
theorem C19_cancelable_set (c : Consts) (v : TPMLIB_TPMVersion) (request : Bytes)
    (h1 : c.TPM_ORDINAL_NONE ≠ TPMLIB_TPM2_CC_CreatePrimary)
    (h2 : c.TPM_ORDINAL_NONE ≠ TPMLIB_TPM2_CC_Create)
    (h3 : c.TPM_ORDINAL_NONE ≠ TPMLIB_TPM_ORD_TakeOwnership)
    (h4 : c.TPM_ORDINAL_NONE ≠ TPMLIB_TPM_ORD_CreateWrapKey) :
    (tpmlib_is_request_cancelable c v request = true ↔
      10 ≤ request.length ∧
        (if v = .TPMLIB_TPM_VERSION_2 then
          req_ordinal request = TPMLIB_TPM2_CC_CreatePrimary ∨
            req_ordinal request = TPMLIB_TPM2_CC_Create
        else
          req_ordinal request = TPMLIB_TPM_ORD_TakeOwnership ∨
            req_ordinal request = TPMLIB_TPM_ORD_CreateWrapKey)) ∧
    (request.length < 10 →
      tpmlib_is_request_cancelable c v request = false ∧
      tpmlib_get_cmd_ordinal c request = c.TPM_ORDINAL_NONE) := by
  by_cases hl : request.length < 10
  · have hg : tpmlib_get_cmd_ordinal c request = c.TPM_ORDINAL_NONE := by
      simp [tpmlib_get_cmd_ordinal, sizeof_tpm_req_header, hl]
    have hf : tpmlib_is_request_cancelable c v request = false := by
      simp [tpmlib_is_request_cancelable, hg]
    refine ⟨⟨fun h => ?_, fun h => absurd h.1 (by omega)⟩, fun _ => ⟨hf, hg⟩⟩
    rw [hf] at h
    exact absurd h (by decide)
  · have hg : tpmlib_get_cmd_ordinal c request = req_ordinal request := by
      simp [tpmlib_get_cmd_ordinal, sizeof_tpm_req_header, hl]
    refine ⟨?_, fun h => absurd h hl⟩
    have hlen : 10 ≤ request.length := by omega
    by_cases hn : req_ordinal request = c.TPM_ORDINAL_NONE
    · have hf : tpmlib_is_request_cancelable c v request = false := by
        simp [tpmlib_is_request_cancelable, hg, hn]
      rw [hf]
      constructor
      · intro h
        exact absurd h (by decide)
      · intro h
        exfalso
        rcases h with ⟨_, h⟩
        split at h
        · rcases h with h | h
          · exact h1 (hn ▸ h)
          · exact h2 (hn ▸ h)
        · rcases h with h | h
          · exact h3 (hn ▸ h)
          · exact h4 (hn ▸ h)
    · cases v <;>
        simp [tpmlib_is_request_cancelable, hg, hn, hlen]

/-- C19, at a 10-byte TPM 2 request with the ordinal of CreatePrimary (0x131). -/
theorem C19_cancelable_set_witness :
    tpmlib_is_request_cancelable exampleConsts .TPMLIB_TPM_VERSION_2
      [128, 2, 0, 0, 0, 10, 0, 0, 1, 49] = true :=
  (C19_cancelable_set exampleConsts .TPMLIB_TPM_VERSION_2
    [128, 2, 0, 0, 0, 10, 0, 0, 1, 49] (by decide) (by decide) (by decide)
    (by decide)).1.mpr ⟨by decide, by rw [if_pos rfl]; exact Or.inl (by rfl)⟩

theorem maybe_shutdown_run {σ : Type} (P : σ → Bytes → σ × ProcessReply) (s : σ)
    (lastCommand : Nat) (hl : lastCommand ≠ TPMLIB_TPM2_CC_Shutdown) :
    tpmlib_maybe_send_tpm2_shutdown P s .TPMLIB_TPM_VERSION_2 lastCommand =
      shutdown_loop P [TPM2_SU_STATE, TPM2_SU_CLEAR] s [] lastCommand := by
  simp [tpmlib_maybe_send_tpm2_shutdown, hl]

theorem shutdown_loop_last {σ : Type} (P : σ → Bytes → σ × ProcessReply) (s : σ)
    (t : Nat) (sent : List Bytes) (lastCommand : Nat) :
    shutdown_loop P [t] s sent lastCommand =
      ((P s (tpm2_shutdown t)).1, sent ++ [tpm2_shutdown t],
        if (P s (tpm2_shutdown t)).2.res = 0 ∧
            ¬ (P s (tpm2_shutdown t)).2.response.length < 10 ∧
            (rd32 (P s (tpm2_shutdown t)).2.response 6).getD 0 = 0
        then TPMLIB_TPM2_CC_Shutdown else lastCommand) := by
  simp only [shutdown_loop, sizeof_tpm_resp_header, TPM_SUCCESS]
  by_cases h1 : (P s (tpm2_shutdown t)).2.res = 0
  · by_cases h2 : (P s (tpm2_shutdown t)).2.response.length < 10
    · simp [h1, h2]
    · by_cases h3 : (rd32 (P s (tpm2_shutdown t)).2.response 6).getD 0 = 0
      · simp [h1, h2, h3]
      · by_cases h4 : (rd32 (P s (tpm2_shutdown t)).2.response 6).getD 0 = TPM_RC_INITIALIZE
        · simp [h1, h2, h3, h4, TPM_RC_INITIALIZE]
        · simp [h1, h2, h3, h4]
  · simp [h1]

theorem shutdown_loop_two {σ : Type} (P : σ → Bytes → σ × ProcessReply) (s : σ)
    (t u : Nat) (lastCommand : Nat) :
    shutdown_loop P [t, u] s [] lastCommand =
      if shutdownFailed (P s (tpm2_shutdown t)).2 then
        shutdown_loop P [u] (P s (tpm2_shutdown t)).1 [tpm2_shutdown t] lastCommand
      else
        ((P s (tpm2_shutdown t)).1, [tpm2_shutdown t],
          if (rd32 (P s (tpm2_shutdown t)).2.response 6).getD 0 = 0
          then TPMLIB_TPM2_CC_Shutdown else lastCommand) := by
  rw [shutdown_loop]
  simp only [shutdownFailed, sizeof_tpm_resp_header, TPM_SUCCESS, List.nil_append]
  by_cases h1 : (P s (tpm2_shutdown t)).2.res = 0
  · by_cases h2 : (P s (tpm2_shutdown t)).2.response.length < 10
    · simp [h1, h2]
    · by_cases h3 : (rd32 (P s (tpm2_shutdown t)).2.response 6).getD 0 = 0
      · simp [h1, h2, h3]
      · by_cases h4 : (rd32 (P s (tpm2_shutdown t)).2.response 6).getD 0 = TPM_RC_INITIALIZE
        · simp [h1, h2, h3, h4, TPM_RC_INITIALIZE]
        · simp [h1, h2, h3, h4]
  · simp [h1]

theorem succeeded_not_failed (p : ProcessReply) (h : shutdownSucceeded p) :
    ¬ shutdownFailed p := by
  obtain ⟨h1, h2, h3⟩ := h
  intro hf
  rcases hf with hf | hf | ⟨hf, _⟩
  · exact hf h1
  · omega
  · exact hf h3

theorem succeeded_iff_of_not_failed (p : ProcessReply) (h : ¬ shutdownFailed p) :
    shutdownSucceeded p ↔ (rd32 p.response 6).getD 0 = 0 := by
  unfold shutdownFailed at h
  unfold shutdownSucceeded
  simp only [TPM_SUCCESS]
  push_neg at h
  obtain ⟨h1, h2, _⟩ := h
  constructor
  · intro hs
    exact hs.2.2
  · intro hs
    exact ⟨h1, h2, hs⟩

theorem succeeded_iff (p : ProcessReply) :
    shutdownSucceeded p ↔
      (p.res = 0 ∧ ¬ p.response.length < 10 ∧ (rd32 p.response 6).getD 0 = 0) := by
  unfold shutdownSucceeded
  simp only [TPM_SUCCESS, sizeof_tpm_resp_header, not_lt]

/-- C20: with `TPMLIB_Process` as an arbitrary oracle on a library state,
`tpmlib_maybe_send_tpm2_shutdown` sends nothing and keeps `lastCommand` when the TPM
version is not 2 or `lastCommand` is TPM2_Shutdown already. Otherwise it first sends
TPM2_Shutdown(SU_STATE) (`80 01 00 00 00 0C 00 00 01 45 00 01`), sends
TPM2_Shutdown(SU_CLEAR) as second and last command exactly when the first attempt failed
(library error, response shorter than a response header, or a non-zero result code other
than TPM_RC_INITIALIZE), so it sends at most two commands; `lastCommand` becomes
TPM2_Shutdown exactly when one of the sent commands returned result code 0 and keeps its
value otherwise; when the first command succeeds, exactly one TPM2_Shutdown(SU_STATE) is
sent. -/
theorem C20_auto_shutdown {σ : Type} (P : σ → Bytes → σ × ProcessReply) (s : σ)
    (v : TPMLIB_TPMVersion) (lastCommand : Nat) :
    tpm2_shutdown TPM2_SU_STATE = [128, 1, 0, 0, 0, 12, 0, 0, 1, 69, 0, 1] ∧
    tpm2_shutdown TPM2_SU_CLEAR = [128, 1, 0, 0, 0, 12, 0, 0, 1, 69, 0, 0] ∧
    (v ≠ .TPMLIB_TPM_VERSION_2 ∨ lastCommand = TPMLIB_TPM2_CC_Shutdown →
      tpmlib_maybe_send_tpm2_shutdown P s v lastCommand = (s, [], lastCommand)) ∧
    (v = .TPMLIB_TPM_VERSION_2 → lastCommand ≠ TPMLIB_TPM2_CC_Shutdown →
      (¬ shutdownFailed (P s (tpm2_shutdown TPM2_SU_STATE)).2 →
        (tpmlib_maybe_send_tpm2_shutdown P s v lastCommand).2.1
          = [tpm2_shutdown TPM2_SU_STATE]) ∧
      (shutdownFailed (P s (tpm2_shutdown TPM2_SU_STATE)).2 →
        (tpmlib_maybe_send_tpm2_shutdown P s v lastCommand).2.1
          = [tpm2_shutdown TPM2_SU_STATE, tpm2_shutdown TPM2_SU_CLEAR]) ∧
      (tpmlib_maybe_send_tpm2_shutdown P s v lastCommand).2.1.length ≤ 2 ∧
      ((tpmlib_maybe_send_tpm2_shutdown P s v lastCommand).2.2 = TPMLIB_TPM2_CC_Shutdown ↔
        shutdownSucceeded (P s (tpm2_shutdown TPM2_SU_STATE)).2 ∨
        (shutdownFailed (P s (tpm2_shutdown TPM2_SU_STATE)).2 ∧
          shutdownSucceeded
            (P (P s (tpm2_shutdown TPM2_SU_STATE)).1 (tpm2_shutdown TPM2_SU_CLEAR)).2)) ∧
      ((tpmlib_maybe_send_tpm2_shutdown P s v lastCommand).2.2 ≠ TPMLIB_TPM2_CC_Shutdown →
        (tpmlib_maybe_send_tpm2_shutdown P s v lastCommand).2.2 = lastCommand) ∧
      (shutdownSucceeded (P s (tpm2_shutdown TPM2_SU_STATE)).2 →
        tpmlib_maybe_send_tpm2_shutdown P s v lastCommand =
          ((P s (tpm2_shutdown TPM2_SU_STATE)).1, [tpm2_shutdown TPM2_SU_STATE],
            TPMLIB_TPM2_CC_Shutdown))) := by
  refine ⟨by rfl, by rfl, ?_, ?_⟩
  · intro h
    simp only [tpmlib_maybe_send_tpm2_shutdown, if_pos h]
  · intro hv hl
    subst hv
    rw [maybe_shutdown_run P s lastCommand hl, shutdown_loop_two]
    by_cases hF : shutdownFailed (P s (tpm2_shutdown TPM2_SU_STATE)).2
    · rw [if_pos hF, shutdown_loop_last]
      have hnS : ¬ shutdownSucceeded (P s (tpm2_shutdown TPM2_SU_STATE)).2 :=
        fun hs => succeeded_not_failed _ hs hF
      refine ⟨fun h => absurd hF h, fun _ => rfl, by simp, ?_, ?_,
        fun h => absurd h hnS⟩
      · rw [succeeded_iff
          (P (P s (tpm2_shutdown TPM2_SU_STATE)).1 (tpm2_shutdown TPM2_SU_CLEAR)).2]
        constructor
        · intro h
          right
          refine ⟨hF, ?_⟩
          by_contra hc
          simp only [if_neg hc] at h
          exact hl h
        · intro h
          rcases h with h | ⟨_, h⟩
          · exact absurd h hnS
          · simp only [if_pos h]
      · intro h
        by_cases hc : (P (P s (tpm2_shutdown TPM2_SU_STATE)).1
              (tpm2_shutdown TPM2_SU_CLEAR)).2.res = 0 ∧
            ¬ (P (P s (tpm2_shutdown TPM2_SU_STATE)).1
              (tpm2_shutdown TPM2_SU_CLEAR)).2.response.length < 10 ∧
            (rd32 (P (P s (tpm2_shutdown TPM2_SU_STATE)).1
              (tpm2_shutdown TPM2_SU_CLEAR)).2.response 6).getD 0 = 0
        · simp only [if_pos hc] at h
          exact absurd rfl h
        · simp only [if_neg hc]
    · rw [if_neg hF]
      have hS := succeeded_iff_of_not_failed _ hF
      refine ⟨fun _ => rfl, fun h => absurd h hF, by simp, ?_, ?_, ?_⟩
      · constructor
        · intro h
          left
          rw [hS]
          by_contra hc
          simp only [if_neg hc] at h
          exact hl h
        · intro h
          rcases h with h | ⟨h, _⟩
          · simp only [if_pos (hS.mp h)]
          · exact absurd h hF
      · intro h
        by_cases hc : (rd32 (P s (tpm2_shutdown TPM2_SU_STATE)).2.response 6).getD 0 = 0
        · simp only [if_pos hc] at h
          exact absurd rfl h
        · simp only [if_neg hc]
      · intro h
        simp only [if_pos (hS.mp h)]

/-- C20, evaluated on a library whose first answer carries result code 0: exactly one
TPM2_Shutdown(SU_STATE) is sent and `lastCommand` (here GetCapability, 0x17A) becomes
TPM2_Shutdown. -/
theorem C20_auto_shutdown_witness :
    tpmlib_maybe_send_tpm2_shutdown (countingLibrary (fun _ => 0)) 0
        .TPMLIB_TPM_VERSION_2 378 =
      (1, [[128, 1, 0, 0, 0, 12, 0, 0, 1, 69, 0, 1]], TPMLIB_TPM2_CC_Shutdown) :=
  ((C20_auto_shutdown (countingLibrary (fun _ => 0)) 0 .TPMLIB_TPM_VERSION_2
    378).2.2.2 rfl (by decide)).2.2.2.2.2 (by decide)

/-! ### Start of the TPM: backup recovery -/

theorem count_setup {σ : Type} (env : StartEnv σ) (s : σ) (v : TPMLIB_TPMVersion)
    (json_profile : Option Bytes) :
    (tpmlib_start_setup env s v json_profile).calls.count .MainInit = 0 ∧
    (tpmlib_start_setup env s v json_profile).calls.count .RestoreBackup = 0 := by
  unfold tpmlib_start_setup
  cases json_profile <;> cases v <;> simp <;> split <;> simp

theorem count_finish {σ : Type} (env : StartEnv σ) (s : σ) (flags : Nat)
    (v : TPMLIB_TPMVersion) (lock_nvram : Bool) (json_profile : Option Bytes) :
    (tpmlib_start_finish env s flags v lock_nvram json_profile).calls.count .MainInit = 0 ∧
    (tpmlib_start_finish env s flags v lock_nvram json_profile).calls.count .RestoreBackup
      = 0 := by
  unfold tpmlib_start_finish
  dsimp only
  repeat' split
  all_goals simp

theorem start_after_setup {σ : Type} (env : StartEnv σ) (s : σ) (flags : Nat)
    (v : TPMLIB_TPMVersion) (lock_nvram : Bool) (json_profile : Option Bytes)
    (h : (tpmlib_start_setup env s v json_profile).res = TPM_SUCCESS) :
    tpmlib_start env s flags v lock_nvram json_profile =
      if (tpmlib_start_init env (tpmlib_start_setup env s v json_profile).st).res
          ≠ TPM_SUCCESS then
        ⟨(tpmlib_start_init env (tpmlib_start_setup env s v json_profile).st).st,
          (tpmlib_start_setup env s v json_profile).calls ++
            (tpmlib_start_init env (tpmlib_start_setup env s v json_profile).st).calls,
          (tpmlib_start_init env (tpmlib_start_setup env s v json_profile).st).res⟩
      else
        ⟨(tpmlib_start_finish env
            (tpmlib_start_init env (tpmlib_start_setup env s v json_profile).st).st
            flags v lock_nvram json_profile).st,
          (tpmlib_start_setup env s v json_profile).calls ++
            (tpmlib_start_init env (tpmlib_start_setup env s v json_profile).st).calls ++
            (tpmlib_start_finish env
              (tpmlib_start_init env (tpmlib_start_setup env s v json_profile).st).st
              flags v lock_nvram json_profile).calls,
          (tpmlib_start_finish env
            (tpmlib_start_init env (tpmlib_start_setup env s v json_profile).st).st
            flags v lock_nvram json_profile).res⟩ := by
  unfold tpmlib_start
  simp only [h, ne_eq, not_true_eq_false, if_false]

/-- The calls and the result of `tpmlib_start` up to the calls of its last part: the
calls of `TPMLIB_MainInit` and `SWTPM_NVRAM_RestoreBackup` are those of the middle part,
and an error of the middle part is the result. -/
theorem start_counts {σ : Type} (env : StartEnv σ) (s : σ) (flags : Nat)
    (v : TPMLIB_TPMVersion) (lock_nvram : Bool) (json_profile : Option Bytes)
    (h : (tpmlib_start_setup env s v json_profile).res = TPM_SUCCESS) :
    (tpmlib_start env s flags v lock_nvram json_profile).calls.count .MainInit =
      (tpmlib_start_init env (tpmlib_start_setup env s v json_profile).st).calls.count
        .MainInit ∧
    (tpmlib_start env s flags v lock_nvram json_profile).calls.count .RestoreBackup =
      (tpmlib_start_init env (tpmlib_start_setup env s v json_profile).st).calls.count
        .RestoreBackup ∧
    ((tpmlib_start_init env (tpmlib_start_setup env s v json_profile).st).res
        ≠ TPM_SUCCESS →
      (tpmlib_start env s flags v lock_nvram json_profile).res =
        (tpmlib_start_init env (tpmlib_start_setup env s v json_profile).st).res ∧
      (tpmlib_start env s flags v lock_nvram json_profile).calls =
        (tpmlib_start_setup env s v json_profile).calls ++
        (tpmlib_start_init env (tpmlib_start_setup env s v json_profile).st).calls) := by
  rw [start_after_setup env s flags v lock_nvram json_profile h]
  have hs := count_setup env s v json_profile
  have hf := count_finish env
    (tpmlib_start_init env (tpmlib_start_setup env s v json_profile).st).st
    flags v lock_nvram json_profile
  by_cases hb : (tpmlib_start_init env (tpmlib_start_setup env s v json_profile).st).res
      ≠ TPM_SUCCESS
  · rw [if_pos hb]
    refine ⟨?_, ?_, fun _ => ⟨rfl, rfl⟩⟩
    · simp only [List.count_append, hs.1, Nat.zero_add]
    · simp only [List.count_append, hs.2, Nat.zero_add]
  · rw [if_neg hb]
    refine ⟨?_, ?_, fun h => absurd h hb⟩
    · simp only [List.count_append, hs.1, hf.1, Nat.zero_add, Nat.add_zero]
    · simp only [List.count_append, hs.2, hf.2, Nat.zero_add, Nat.add_zero]

theorem init_first_ok {σ : Type} (env : StartEnv σ) (s : σ)
    (h : (env.TPMLIB_MainInit s).2 = 0) :
    tpmlib_start_init env s = ⟨(env.TPMLIB_MainInit s).1, [.MainInit], TPM_SUCCESS⟩ := by
  simp [tpmlib_start_init, h, TPM_SUCCESS]

theorem init_no_backup {σ : Type} (env : StartEnv σ) (s : σ)
    (h : (env.TPMLIB_MainInit s).2 ≠ 0) (hb : env.tpmstate_get_make_backup = false) :
    tpmlib_start_init env s =
      ⟨(env.TPMLIB_MainInit s).1, [.MainInit], (env.TPMLIB_MainInit s).2⟩ := by
  simp [tpmlib_start_init, h, hb, TPM_SUCCESS]

theorem init_retry_fails {σ : Type} (env : StartEnv σ) (s : σ)
    (h : (env.TPMLIB_MainInit s).2 ≠ 0) (hb : env.tpmstate_get_make_backup = true)
    (hr : (env.SWTPM_NVRAM_RestoreBackup (env.TPMLIB_MainInit s).1).2 = 0)
    (h2 : (env.TPMLIB_MainInit
      (env.SWTPM_NVRAM_RestoreBackup (env.TPMLIB_MainInit s).1).1).2 ≠ 0) :
    tpmlib_start_init env s =
      ⟨(env.SWTPM_NVRAM_RestoreBackup (env.TPMLIB_MainInit
          (env.SWTPM_NVRAM_RestoreBackup (env.TPMLIB_MainInit s).1).1).1).1,
        [.MainInit, .RestoreBackup, .MainInit, .RestoreBackup],
        (env.TPMLIB_MainInit
          (env.SWTPM_NVRAM_RestoreBackup (env.TPMLIB_MainInit s).1).1).2⟩ := by
  simp [tpmlib_start_init, h, hb, hr, h2, TPM_SUCCESS]

theorem init_retry_ok {σ : Type} (env : StartEnv σ) (s : σ)
    (h : (env.TPMLIB_MainInit s).2 ≠ 0) (hb : env.tpmstate_get_make_backup = true)
    (hr : (env.SWTPM_NVRAM_RestoreBackup (env.TPMLIB_MainInit s).1).2 = 0)
    (h2 : (env.TPMLIB_MainInit
      (env.SWTPM_NVRAM_RestoreBackup (env.TPMLIB_MainInit s).1).1).2 = 0) :
    tpmlib_start_init env s =
      ⟨(env.TPMLIB_MainInit
          (env.SWTPM_NVRAM_RestoreBackup (env.TPMLIB_MainInit s).1).1).1,
        [.MainInit, .RestoreBackup, .MainInit], 0⟩ := by
  simp [tpmlib_start_init, h, hb, hr, h2, TPM_SUCCESS]

theorem init_count_le {σ : Type} (env : StartEnv σ) (s : σ) :
    (tpmlib_start_init env s).calls.count .MainInit ≤ 2 := by
  unfold tpmlib_start_init
  dsimp only
  repeat' split
  all_goals simp

/-- The state and result of `tpmlib_start` once the version and the profile are set: an
error of the middle part ends the function in the state the middle part left; otherwise
the last part runs on that state. -/
theorem start_state {σ : Type} (env : StartEnv σ) (s : σ) (flags : Nat)
    (v : TPMLIB_TPMVersion) (lock_nvram : Bool) (json_profile : Option Bytes)
    (h : (tpmlib_start_setup env s v json_profile).res = TPM_SUCCESS) :
    ((tpmlib_start_init env (tpmlib_start_setup env s v json_profile).st).res
        ≠ TPM_SUCCESS →
      (tpmlib_start env s flags v lock_nvram json_profile).st =
        (tpmlib_start_init env (tpmlib_start_setup env s v json_profile).st).st) ∧
    ((tpmlib_start_init env (tpmlib_start_setup env s v json_profile).st).res
        = TPM_SUCCESS →
      (tpmlib_start env s flags v lock_nvram json_profile).st =
        (tpmlib_start_finish env
          (tpmlib_start_init env (tpmlib_start_setup env s v json_profile).st).st
          flags v lock_nvram json_profile).st ∧
      (tpmlib_start env s flags v lock_nvram json_profile).res =
        (tpmlib_start_finish env
          (tpmlib_start_init env (tpmlib_start_setup env s v json_profile).st).st
          flags v lock_nvram json_profile).res ∧
      (tpmlib_start env s flags v lock_nvram json_profile).calls =
        (tpmlib_start_setup env s v json_profile).calls ++
          (tpmlib_start_init env (tpmlib_start_setup env s v json_profile).st).calls ++
          (tpmlib_start_finish env
            (tpmlib_start_init env (tpmlib_start_setup env s v json_profile).st).st
            flags v lock_nvram json_profile).calls) := by
  rw [start_after_setup env s flags v lock_nvram json_profile h]
  constructor
  · intro hb
    rw [if_pos hb]
  · intro hb
    have hn : ¬ (tpmlib_start_init env (tpmlib_start_setup env s v json_profile).st).res
        ≠ TPM_SUCCESS := fun hc => hc hb
    rw [if_neg hn]
    exact ⟨rfl, rfl, rfl⟩

theorem init_restore_fails {σ : Type} (env : StartEnv σ) (s : σ)
    (h : (env.TPMLIB_MainInit s).2 ≠ 0) (hb : env.tpmstate_get_make_backup = true)
    (hr : (env.SWTPM_NVRAM_RestoreBackup (env.TPMLIB_MainInit s).1).2 ≠ 0) :
    tpmlib_start_init env s =
      ⟨(env.SWTPM_NVRAM_RestoreBackup (env.TPMLIB_MainInit s).1).1,
        [.MainInit, .RestoreBackup],
        (env.SWTPM_NVRAM_RestoreBackup (env.TPMLIB_MainInit s).1).2⟩ := by
  simp [tpmlib_start_init, h, hb, hr, TPM_SUCCESS]

/-- C21: with the library calls as oracles on a state, `tpmlib_start` never calls
`TPMLIB_MainInit` more than twice. Once the version and the profile are set, with `s1`
the state then: if the first `TPMLIB_MainInit` (on `s1`) succeeds,
`SWTPM_NVRAM_RestoreBackup` is not called and the start goes on from the state that
`MainInit` left; if it fails and the backup policy is disabled, `RestoreBackup` is not
called, the first error is returned and the state is the one the failed `MainInit` left;
if it fails, the backup policy is enabled and `RestoreBackup` (on the state after the
failed `MainInit`) succeeds, `MainInit` is called a second and last time, on the state
that `RestoreBackup` left; then a failing retry is followed by a second `RestoreBackup`
on the state after the retry (trace MainInit, RestoreBackup, MainInit, RestoreBackup),
the result is the retry's error and the final state is the one this second
`RestoreBackup` left, while after a successful retry `RestoreBackup` is called once only
and the start goes on from the state that the retry left. If `RestoreBackup` itself
fails there is no retry and its error is returned. -/
theorem C21_backup_recovery {σ : Type} (env : StartEnv σ) (s : σ) (flags : Nat)
    (v : TPMLIB_TPMVersion) (lock_nvram : Bool) (json_profile : Option Bytes) :
    (tpmlib_start env s flags v lock_nvram json_profile).calls.count .MainInit ≤ 2 ∧
    (∀ (m1 r1 m2 r2 : σ × Nat),
      (tpmlib_start_setup env s v json_profile).res = TPM_SUCCESS →
      m1 = env.TPMLIB_MainInit (tpmlib_start_setup env s v json_profile).st →
      r1 = env.SWTPM_NVRAM_RestoreBackup m1.1 →
      m2 = env.TPMLIB_MainInit r1.1 →
      r2 = env.SWTPM_NVRAM_RestoreBackup m2.1 →
      (m1.2 = TPM_SUCCESS →
        (tpmlib_start env s flags v lock_nvram json_profile).calls.count .RestoreBackup = 0 ∧
        (tpmlib_start env s flags v lock_nvram json_profile).calls.count .MainInit = 1 ∧
        (tpmlib_start env s flags v lock_nvram json_profile).st =
          (tpmlib_start_finish env m1.1 flags v lock_nvram json_profile).st ∧
        (tpmlib_start env s flags v lock_nvram json_profile).res =
          (tpmlib_start_finish env m1.1 flags v lock_nvram json_profile).res ∧
        (tpmlib_start env s flags v lock_nvram json_profile).calls =
          (tpmlib_start_setup env s v json_profile).calls ++ [.MainInit] ++
            (tpmlib_start_finish env m1.1 flags v lock_nvram json_profile).calls) ∧
      (m1.2 ≠ TPM_SUCCESS → env.tpmstate_get_make_backup = false →
        (tpmlib_start env s flags v lock_nvram json_profile).calls.count .RestoreBackup = 0 ∧
        (tpmlib_start env s flags v lock_nvram json_profile).calls.count .MainInit = 1 ∧
        (tpmlib_start env s flags v lock_nvram json_profile).res = m1.2 ∧
        (tpmlib_start env s flags v lock_nvram json_profile).st = m1.1 ∧
        (tpmlib_start env s flags v lock_nvram json_profile).calls =
          (tpmlib_start_setup env s v json_profile).calls ++ [.MainInit]) ∧
      (m1.2 ≠ TPM_SUCCESS → env.tpmstate_get_make_backup = true → r1.2 ≠ TPM_SUCCESS →
        (tpmlib_start env s flags v lock_nvram json_profile).res = r1.2 ∧
        (tpmlib_start env s flags v lock_nvram json_profile).st = r1.1 ∧
        (tpmlib_start env s flags v lock_nvram json_profile).calls =
          (tpmlib_start_setup env s v json_profile).calls ++ [.MainInit, .RestoreBackup]) ∧
      (m1.2 ≠ TPM_SUCCESS → env.tpmstate_get_make_backup = true → r1.2 = TPM_SUCCESS →
        (tpmlib_start env s flags v lock_nvram json_profile).calls.count .MainInit = 2 ∧
        (m2.2 ≠ TPM_SUCCESS →
          (tpmlib_start env s flags v lock_nvram json_profile).calls.count .RestoreBackup
            = 2 ∧
          (tpmlib_start env s flags v lock_nvram json_profile).res = m2.2 ∧
          (tpmlib_start env s flags v lock_nvram json_profile).calls =
            (tpmlib_start_setup env s v json_profile).calls ++
              [.MainInit, .RestoreBackup, .MainInit, .RestoreBackup] ∧
          (tpmlib_start env s flags v lock_nvram json_profile).st = r2.1) ∧
        (m2.2 = TPM_SUCCESS →
          (tpmlib_start env s flags v lock_nvram json_profile).calls.count .RestoreBackup
            = 1 ∧
          (tpmlib_start env s flags v lock_nvram json_profile).st =
            (tpmlib_start_finish env m2.1 flags v lock_nvram json_profile).st ∧
          (tpmlib_start env s flags v lock_nvram json_profile).res =
            (tpmlib_start_finish env m2.1 flags v lock_nvram json_profile).res ∧
          (tpmlib_start env s flags v lock_nvram json_profile).calls =
            (tpmlib_start_setup env s v json_profile).calls ++
              [.MainInit, .RestoreBackup, .MainInit] ++
              (tpmlib_start_finish env m2.1 flags v lock_nvram json_profile).calls))) := by
  constructor
  · by_cases h : (tpmlib_start_setup env s v json_profile).res = TPM_SUCCESS
    · rw [(start_counts env s flags v lock_nvram json_profile h).1]
      exact init_count_le env _
    · have he : tpmlib_start env s flags v lock_nvram json_profile =
          tpmlib_start_setup env s v json_profile := by
        unfold tpmlib_start
        simp only [ne_eq, h, not_false_eq_true, if_true]
      rw [he, (count_setup env s v json_profile).1]
      omega
  · intro m1 r1 m2 r2 h hm1 hr1 hm2 hr2
    subst hm1 hr1 hm2 hr2
    obtain ⟨cM, cR, cE⟩ := start_counts env s flags v lock_nvram json_profile h
    obtain ⟨sE, sS⟩ := start_state env s flags v lock_nvram json_profile h
    rw [cM, cR]
    refine ⟨?_, ?_, ?_, ?_⟩
    · intro h1
      have hi := init_first_ok env _ h1
      have hs := sS (by rw [hi])
      rw [hs.1, hs.2.1, hs.2.2, hi]
      simp
    · intro h1 hb
      have hi := init_no_backup env _ h1 hb
      have hres := cE (by rw [hi]; exact h1)
      have hst := sE (by rw [hi]; exact h1)
      rw [hres.1, hres.2, hst, hi]
      simp
    · intro h1 hb hr
      have hi := init_restore_fails env _ h1 hb hr
      have hres := cE (by rw [hi]; exact hr)
      have hst := sE (by rw [hi]; exact hr)
      rw [hres.1, hres.2, hst, hi]
      simp
    · intro h1 hb hr
      refine ⟨?_, ?_, ?_⟩
      · by_cases h2 : (env.TPMLIB_MainInit (env.SWTPM_NVRAM_RestoreBackup
            (env.TPMLIB_MainInit (tpmlib_start_setup env s v json_profile).st).1).1).2 = 0
        · rw [init_retry_ok env _ h1 hb hr h2]
          simp
        · rw [init_retry_fails env _ h1 hb hr h2]
          simp
      · intro h2
        have hi := init_retry_fails env _ h1 hb hr h2
        have hres := cE (by rw [hi]; exact h2)
        have hst := sE (by rw [hi]; exact h2)
        rw [hres.1, hres.2, hst, hi]
        simp
      · intro h2
        have hi := init_retry_ok env _ h1 hb hr h2
        have hs := sS (by rw [hi]; rfl)
        rw [hs.1, hs.2.1, hs.2.2, hi]
        simp

/-- C21, evaluated on a library whose first two `TPMLIB_MainInit` calls fail with codes
9 and 31, with the backup policy enabled: the trace ends with MainInit, RestoreBackup,
MainInit, RestoreBackup, the result is the retry's error 31, and in the final state the
library has been initialised twice and the backup is swapped out again. -/
theorem C21_backup_recovery_witness :
    (tpmlib_start (startLibrary (fun n => if n = 0 then 9 else 31) true) ⟨0, false⟩ 0
      .TPMLIB_TPM_VERSION_2 false none).res = 31 ∧
    (tpmlib_start (startLibrary (fun n => if n = 0 then 9 else 31) true) ⟨0, false⟩ 0
      .TPMLIB_TPM_VERSION_2 false none).calls =
        [.ChooseTPMVersion, .MainInit, .RestoreBackup, .MainInit, .RestoreBackup] ∧
    (tpmlib_start (startLibrary (fun n => if n = 0 then 9 else 31) true) ⟨0, false⟩ 0
      .TPMLIB_TPM_VERSION_2 false none).st = ⟨2, false⟩ ∧
    ((startLibrary (fun n => if n = 0 then 9 else 31) true).SWTPM_NVRAM_RestoreBackup
      ⟨1, false⟩).1 = ⟨1, true⟩ :=
  ⟨((((C21_backup_recovery (startLibrary (fun n => if n = 0 then 9 else 31) true)
      ⟨0, false⟩ 0 .TPMLIB_TPM_VERSION_2 false none).2 _ _ _ _ rfl rfl rfl rfl rfl).2.2.2
      (by decide) rfl rfl).2.1 (by decide)).2.1,
   ((((C21_backup_recovery (startLibrary (fun n => if n = 0 then 9 else 31) true)
      ⟨0, false⟩ 0 .TPMLIB_TPM_VERSION_2 false none).2 _ _ _ _ rfl rfl rfl rfl rfl).2.2.2
      (by decide) rfl rfl).2.1 (by decide)).2.2.1,
   ((((C21_backup_recovery (startLibrary (fun n => if n = 0 then 9 else 31) true)
      ⟨0, false⟩ 0 .TPMLIB_TPM_VERSION_2 false none).2 _ _ _ _ rfl rfl rfl rfl rfl).2.2.2
      (by decide) rfl rfl).2.1 (by decide)).2.2.2,
   by rfl⟩

/-! ### Failing stores and loads -/

/-- The files after a store, by the step at which it ends: unchanged when the file is
not opened, the file removed after a failure with the file open. -/
theorem store_cases (env : Env) (fs : FileSys) (io : IOFaults) (filekey : encryptionkey)
    (data : Bytes) (tpm_number : Nat) (name : Bytes) (encrypt : Bool) (out : StoreOut)
    (h : SWTPM_NVRAM_StoreData_Intern env fs io filekey data tpm_number name encrypt
      = some out)
    (hrc : out.rc ≠ 0) :
    (((SWTPM_NVRAM_GetFilenameForName fs.state_directory FILENAME_MAX tpm_number name).1 ≠ 0
        ∨ io.fopen_fails = true) ∧ out.fs = fs) ∨
    (((SWTPM_NVRAM_GetFilenameForName fs.state_directory FILENAME_MAX tpm_number name).1 = 0
        ∧ io.fopen_fails = false) ∧
      out.fs = (fs.set (SWTPM_NVRAM_GetFilenameForName fs.state_directory FILENAME_MAX
          tpm_number name).2 (some [])).set
        (SWTPM_NVRAM_GetFilenameForName fs.state_directory FILENAME_MAX
          tpm_number name).2 none) := by
  unfold SWTPM_NVRAM_StoreData_Intern at h
  dsimp only at h
  by_cases h1 : (SWTPM_NVRAM_GetFilenameForName fs.state_directory FILENAME_MAX
      tpm_number name).1 ≠ 0
  · rw [if_pos h1] at h
    cases h
    exact Or.inl ⟨Or.inl h1, rfl⟩
  · rw [if_neg h1] at h
    have h1' := not_not.mp h1
    by_cases h2 : io.fopen_fails = true
    · rw [if_pos h2] at h
      cases h
      exact Or.inl ⟨Or.inr h2, rfl⟩
    · rw [if_neg h2] at h
      have h2' : io.fopen_fails = false := by simpa using h2
      right
      refine ⟨⟨h1', h2'⟩, ?_⟩
      by_cases h3 : io.fchmod_fails = true
      · rw [if_pos h3] at h
        cases h
        rfl
      · rw [if_neg h3] at h
        cases hfd : SWTPM_NVRAM_StoreData_filedata env filekey data encrypt with
        | none =>
          rw [hfd] at h
          cases h
        | some r =>
          obtain ⟨rc, filedata⟩ := r
          rw [hfd] at h
          dsimp only at h
          by_cases h4 : rc ≠ 0
          · rw [if_pos h4] at h
            cases h
            rfl
          · rw [if_neg h4] at h
            by_cases h5 : io.fwrite_short = true ∨ io.fclose_fails = true
            · rw [if_pos h5] at h
              cases h
              rfl
            · rw [if_neg h5] at h
              cases h
              exact absurd rfl hrc

theorem set_files_other (fs : FileSys) (path p : Bytes) (c : Option Bytes) (h : p ≠ path) :
    (fs.set path c).files p = fs.files p := by
  simp [FileSys.set, h]

theorem set_state_directory (fs : FileSys) (path : Bytes) (c : Option Bytes) :
    (fs.set path c).state_directory = fs.state_directory := rfl

/-- The load of a name whose file does not exist. -/
theorem LoadData_missing (env : Env) (fs : FileSys) (io : IOFaults) (filekey : encryptionkey)
    (tpm_number : Nat) (name : Bytes)
    (hname : (SWTPM_NVRAM_GetFilenameForName fs.state_directory FILENAME_MAX
                tpm_number name).1 = 0)
    (hopen : io.fopen_fails = false)
    (hfile : fs.files (SWTPM_NVRAM_GetFilenameForName fs.state_directory FILENAME_MAX
                tpm_number name).2 = none) :
    SWTPM_NVRAM_LoadData env fs io filekey tpm_number name
      = some ⟨TPM_RETRY, none, some 0⟩ := by
  simp [SWTPM_NVRAM_LoadData, hname, hopen, hfile]

/-- C22 (counterexample): the blob of "hello" is stored as `p` and loads to "hello"; a
store of "world" under the same name whose `fwrite` comes up short returns TPM_FAIL, and
afterwards there is no file under the name: the load returns TPM_RETRY, not "hello". -/
theorem C22_counterexample :
    SWTPM_NVRAM_LoadData toyEnv (fsWith helloBlob) noFaults nokey 0 [112]
      = some ⟨0, some [104, 101, 108, 108, 111], some 5⟩ ∧
    (SWTPM_NVRAM_StoreData toyEnv (fsWith helloBlob)
        ⟨false, false, false, false, false, false, true, false⟩ nokey
        [119, 111, 114, 108, 100] 0 [112]).map (fun o => o.rc) = some TPM_FAIL ∧
    (SWTPM_NVRAM_StoreData toyEnv (fsWith helloBlob)
        ⟨false, false, false, false, false, false, true, false⟩ nokey
        [119, 111, 114, 108, 100] 0 [112]).map
        (fun o => o.fs.files [47, 115, 47, 116, 112, 109, 45, 48, 48, 46, 112])
      = some none ∧
    (SWTPM_NVRAM_StoreData toyEnv (fsWith helloBlob)
        ⟨false, false, false, false, false, false, true, false⟩ nokey
        [119, 111, 114, 108, 100] 0 [112]).bind
        (fun o => SWTPM_NVRAM_LoadData toyEnv o.fs noFaults nokey 0 [112])
      = some ⟨TPM_RETRY, none, some 0⟩ := by
  refine ⟨by rfl, by rfl, by rfl, by rfl⟩

/-- C22 (amended): `SWTPM_NVRAM_StoreData` writes to the file of the name itself and
removes it after a failure with the file open. If a store fails, the state directory and
the files of all other names are unchanged; if it fails before the file is open (file
name too long, `fopen` fails), all files are unchanged, so the blob stored before is
still there; if it fails at a later step (`fchmod`, encryption, write, close), no file is
left under the name and a load of the name returns TPM_RETRY. -/
theorem C22_store_failure (env : Env) (fs : FileSys) (io : IOFaults)
    (filekey : encryptionkey) (data : Bytes) (tpm_number : Nat) (name : Bytes)
    (out : StoreOut)
    (h : SWTPM_NVRAM_StoreData env fs io filekey data tpm_number name = some out)
    (hrc : out.rc ≠ 0) :
    out.fs.state_directory = fs.state_directory ∧
    (∀ p, p ≠ (SWTPM_NVRAM_GetFilenameForName fs.state_directory FILENAME_MAX
        tpm_number name).2 → out.fs.files p = fs.files p) ∧
    ((SWTPM_NVRAM_GetFilenameForName fs.state_directory FILENAME_MAX tpm_number name).1 ≠ 0
        ∨ io.fopen_fails = true → out.fs = fs) ∧
    ((SWTPM_NVRAM_GetFilenameForName fs.state_directory FILENAME_MAX tpm_number name).1 = 0
        → io.fopen_fails = false →
      out.fs.files (SWTPM_NVRAM_GetFilenameForName fs.state_directory FILENAME_MAX
        tpm_number name).2 = none ∧
      ∀ key, SWTPM_NVRAM_LoadData env out.fs noFaults key tpm_number name
        = some ⟨TPM_RETRY, none, some 0⟩) := by
  rcases store_cases env fs io filekey data tpm_number name true out h hrc with
    ⟨hc, hfs⟩ | ⟨⟨hc1, hc2⟩, hfs⟩
  · rw [hfs]
    refine ⟨rfl, fun _ _ => rfl, fun _ => rfl, ?_⟩
    intro h1 h2
    rcases hc with hc | hc
    · exact absurd h1 hc
    · rw [h2] at hc
      exact absurd hc (by decide)
  · have hfile : out.fs.files (SWTPM_NVRAM_GetFilenameForName fs.state_directory
        FILENAME_MAX tpm_number name).2 = none := by
      rw [hfs]
      exact set_files_same _ _ _
    have hdir : out.fs.state_directory = fs.state_directory := by
      rw [hfs]
      rfl
    refine ⟨hdir, ?_, ?_, ?_⟩
    · intro p hp
      rw [hfs, set_files_other _ _ _ _ hp, set_files_other _ _ _ _ hp]
    · intro hc
      rcases hc with hc | hc
      · exact absurd hc1 hc
      · rw [hc2] at hc
        exact absurd hc (by decide)
    · intro _ _
      refine ⟨hfile, fun key => ?_⟩
      apply LoadData_missing
      · rw [hdir]
        exact hc1
      · rfl
      · rw [hdir]
        exact hfile

/-- C22 (amended), at the failing store of the counterexample: no file is left under the
name `p`. -/
theorem C22_store_failure_witness :
    (fsWith helloBlob).files [47, 115, 47, 116, 112, 109, 45, 48, 48, 46, 112]
      = some helloBlob ∧
    (((fsWith helloBlob).set [47, 115, 47, 116, 112, 109, 45, 48, 48, 46, 112]
        (some [])).set [47, 115, 47, 116, 112, 109, 45, 48, 48, 46, 112] none).files
      (SWTPM_NVRAM_GetFilenameForName (fsWith helloBlob).state_directory FILENAME_MAX
        0 [112]).2 = none :=
  ⟨by rfl,
   ((C22_store_failure toyEnv (fsWith helloBlob)
      ⟨false, false, false, false, false, false, true, false⟩ nokey
      [119, 111, 114, 108, 100] 0 [112]
      ⟨TPM_FAIL,
        some [2, 1, 0, 10, 0, 0, 0, 0, 0, 21, 0, 1, 0, 0, 0, 5, 119, 111, 114, 108, 100],
        ((fsWith helloBlob).set [47, 115, 47, 116, 112, 109, 45, 48, 48, 46, 112]
          (some [])).set [47, 115, 47, 116, 112, 109, 45, 48, 48, 46, 112] none⟩
      (by rfl) (by decide)).2.2.2 (by rfl) rfl).1⟩

theorem unwrap_error_null (env : Env) (filekey : encryptionkey) (data : Bytes)
    (out : LoadOut) (h : SWTPM_NVRAM_LoadData_unwrap env filekey data = some out)
    (hrc : out.rc ≠ 0) : out.data = none := by
  unfold SWTPM_NVRAM_LoadData_unwrap at h
  split at h
  · cases h
  · dsimp only at h
    split at h
    · cases h
    · split at h
      · cases h
      · split at h
        · cases h
          exact absurd rfl hrc
        · cases h
          rfl

theorem LoadData_badname (env : Env) (fs : FileSys) (io : IOFaults)
    (filekey : encryptionkey) (tpm_number : Nat) (name : Bytes)
    (hname : (SWTPM_NVRAM_GetFilenameForName fs.state_directory FILENAME_MAX
                tpm_number name).1 ≠ 0) :
    SWTPM_NVRAM_LoadData env fs io filekey tpm_number name =
      some ⟨(SWTPM_NVRAM_GetFilenameForName fs.state_directory FILENAME_MAX
                tpm_number name).1, none, some 0⟩ := by
  simp [SWTPM_NVRAM_LoadData, hname]

theorem LoadData_fopen_fails (env : Env) (fs : FileSys) (io : IOFaults)
    (filekey : encryptionkey) (tpm_number : Nat) (name : Bytes)
    (hname : (SWTPM_NVRAM_GetFilenameForName fs.state_directory FILENAME_MAX
                tpm_number name).1 = 0)
    (hopen : io.fopen_fails = true) :
    SWTPM_NVRAM_LoadData env fs io filekey tpm_number name =
      some ⟨TPM_FAIL, none, some 0⟩ := by
  simp [SWTPM_NVRAM_LoadData, hname, hopen]

/-- The load of an existing file that could be opened: without a fault it is the unwrap
path on the content, with a fault it is TPM_FAIL with `NULL` data. -/
theorem LoadData_open (env : Env) (fs : FileSys) (io : IOFaults)
    (filekey : encryptionkey) (tpm_number : Nat) (name : Bytes) (contents : Bytes)
    (hname : (SWTPM_NVRAM_GetFilenameForName fs.state_directory FILENAME_MAX
                tpm_number name).1 = 0)
    (hopen : io.fopen_fails = false)
    (hfile : fs.files (SWTPM_NVRAM_GetFilenameForName fs.state_directory FILENAME_MAX
                tpm_number name).2 = some contents) :
    SWTPM_NVRAM_LoadData env fs io filekey tpm_number name =
      if io.fchmod_fails = true ∨ io.fseek_end_fails = true ∨ io.ftell_fails = true ∨
          io.fseek_set_fails = true ∨
          (io.fread_short = true ∧ contents.length % 4294967296 ≠ 0) ∨
          io.fclose_fails = true then
        some ⟨TPM_FAIL, none,
          some (if io.fchmod_fails = true ∨ io.fseek_end_fails = true ∨
              io.ftell_fails = true then 0 else contents.length % 4294967296)⟩
      else
        SWTPM_NVRAM_LoadData_unwrap env filekey
          (contents.take (contents.length % 4294967296)) := by
  obtain ⟨a, b, c, d, e, f, g, k⟩ := io
  simp only at hopen
  subst hopen
  simp only [SWTPM_NVRAM_LoadData, hname, hfile, TPM_FAIL]
  by_cases hz : contents.length % 4294967296 = 0
  · cases b <;> cases c <;> cases d <;> cases e <;> cases f <;> cases k <;> simp [hz]
  · cases b <;> cases c <;> cases d <;> cases e <;> cases f <;> cases k <;> simp [hz]

theorem LoadData_error_null (env : Env) (fs : FileSys) (io : IOFaults)
    (filekey : encryptionkey) (tpm_number : Nat) (name : Bytes) (out : LoadOut)
    (h : SWTPM_NVRAM_LoadData env fs io filekey tpm_number name = some out)
    (hrc : out.rc ≠ 0) : out.data = none := by
  by_cases hname : (SWTPM_NVRAM_GetFilenameForName fs.state_directory FILENAME_MAX
      tpm_number name).1 = 0
  · cases hopen : io.fopen_fails with
    | true =>
      rw [LoadData_fopen_fails env fs io filekey tpm_number name hname hopen] at h
      cases h
      rfl
    | false =>
      cases hfile : fs.files (SWTPM_NVRAM_GetFilenameForName fs.state_directory
          FILENAME_MAX tpm_number name).2 with
      | none =>
        rw [LoadData_missing env fs io filekey tpm_number name hname hopen hfile] at h
        cases h
        rfl
      | some contents =>
        rw [LoadData_open env fs io filekey tpm_number name contents hname hopen hfile] at h
        split at h
        · cases h
          rfl
        · exact unwrap_error_null env filekey _ out h hrc
  · rw [LoadData_badname env fs io filekey tpm_number name hname] at h
    cases h
    rfl

/-- C23: `SWTPM_NVRAM_LoadData` returns TPM_RETRY with `NULL` data and length 0 when the
file of the blob does not exist; when `fopen` fails for another reason, or the file is
open and `fchmod`, `fseek`, `ftell`, `fread` (of a non-empty file) or `fclose` fails, it
returns TPM_FAIL with `NULL` data; and on every non-zero result the data pointer is
`NULL`. The load has no output file system: it calls no function that creates or writes a
file. -/
theorem C23_first_boot (env : Env) (fs : FileSys) (io : IOFaults)
    (filekey : encryptionkey) (tpm_number : Nat) (name : Bytes)
    (hname : (SWTPM_NVRAM_GetFilenameForName fs.state_directory FILENAME_MAX
                tpm_number name).1 = 0) :
    (io.fopen_fails = false →
      fs.files (SWTPM_NVRAM_GetFilenameForName fs.state_directory FILENAME_MAX
        tpm_number name).2 = none →
      SWTPM_NVRAM_LoadData env fs io filekey tpm_number name
        = some ⟨TPM_RETRY, none, some 0⟩) ∧
    (io.fopen_fails = true →
      SWTPM_NVRAM_LoadData env fs io filekey tpm_number name
        = some ⟨TPM_FAIL, none, some 0⟩) ∧
    (∀ contents, io.fopen_fails = false →
      fs.files (SWTPM_NVRAM_GetFilenameForName fs.state_directory FILENAME_MAX
        tpm_number name).2 = some contents →
      (io.fchmod_fails = true ∨ io.fseek_end_fails = true ∨ io.ftell_fails = true ∨
        io.fseek_set_fails = true ∨
        (io.fread_short = true ∧ contents.length % 4294967296 ≠ 0) ∨
        io.fclose_fails = true) →
      ∃ len, SWTPM_NVRAM_LoadData env fs io filekey tpm_number name
        = some ⟨TPM_FAIL, none, some len⟩) ∧
    (∀ out, SWTPM_NVRAM_LoadData env fs io filekey tpm_number name = some out →
      out.rc ≠ 0 → out.data = none) := by
  refine ⟨?_, ?_, ?_, ?_⟩
  · intro hopen hfile
    exact LoadData_missing env fs io filekey tpm_number name hname hopen hfile
  · intro hopen
    exact LoadData_fopen_fails env fs io filekey tpm_number name hname hopen
  · intro contents hopen hfile hfault
    rw [LoadData_open env fs io filekey tpm_number name contents hname hopen hfile,
      if_pos hfault]
    exact ⟨_, rfl⟩
  · intro out h hrc
    exact LoadData_error_null env fs io filekey tpm_number name out h hrc

/-- C23, on the empty state directory: the load of `p` returns TPM_RETRY. -/
theorem C23_first_boot_witness :
    SWTPM_NVRAM_LoadData toyEnv emptyFs noFaults nokey 0 [112]
      = some ⟨TPM_RETRY, none, some 0⟩ :=
  (C23_first_boot toyEnv emptyFs noFaults nokey 0 [112] (by rfl)).1 rfl rfl

/-! ### Header and payload checks on malformed input -/

theorem rd32_short (data : Bytes) (h : data.length < 10) : rd32 data 6 = none := by
  have h9 : data[6 + 3]? = none := List.getElem?_eq_none (by omega)
  unfold rd32
  rw [h9]
  split
  · rename_i heq
    cases heq
  · rfl

/-- C24 (the code at the failing input): `SWTPM_NVRAM_CheckHeader` compares the length
with 8, the size of the pointer `bh`. A buffer of fewer than 8 bytes is rejected with
TPM_BAD_PARAMETER, but for every buffer of 8 or 9 bytes the test passes and the field
`totlen` (bytes 6..9) is read beyond the end of the buffer. -/
theorem C24_short_blob_read_beyond_buffer :
    SWTPM_NVRAM_CheckHeader [2, 1, 0, 10, 0, 0, 0, 0] = .outOfBounds ∧
    SWTPM_NVRAM_CheckHeader [2, 1, 0, 10, 0, 0, 0, 0, 0] = .outOfBounds ∧
    (∀ data : Bytes, data.length < 8 →
      SWTPM_NVRAM_CheckHeader data = .err TPM_BAD_PARAMETER) ∧
    (∀ data : Bytes, data.length = 8 ∨ data.length = 9 →
      SWTPM_NVRAM_CheckHeader data = .outOfBounds) := by
  refine ⟨by rfl, by rfl, ?_, ?_⟩
  · intro data h
    simp [SWTPM_NVRAM_CheckHeader, sizeof_bh_pointer, h]
  · intro data h
    have h1 : ¬ data.length < 8 := by omega
    have h2 : rd32 data 6 = none := rd32_short data (by omega)
    simp [SWTPM_NVRAM_CheckHeader, sizeof_bh_pointer, h1, h2]

/-- C26 (the code at the failing input): `SWTPM_NVRAM_CheckHeader` accepts a 10-byte blob
whose `hdrsize` field is 0xFFFF and returns `dataoffset = 65535`, beyond the buffer; the
32-bit difference `length - dataoffset` wraps to 4294901771, and `SetStateBlob` and the
unwrap path of `LoadData` form a payload pointer beyond the buffer. A `hdrsize` of 0 is
accepted as well, with `dataoffset = 0` below the header size. -/
theorem C26_hdrsize_not_validated :
    SWTPM_NVRAM_CheckHeader hdrsizeBlob = .ok 2 65535 0 ∧
    hdrsizeBlob.length = 10 ∧
    sub32 hdrsizeBlob.length 65535 = 4294901771 ∧
    SWTPM_NVRAM_SetStateBlob toyEnv initialKeys hdrsizeBlob false PTM_BLOB_TYPE_PERMANENT
      = none ∧
    SWTPM_NVRAM_LoadData_unwrap toyEnv nokey hdrsizeBlob = none ∧
    SWTPM_NVRAM_CheckHeader [2, 1, 0, 0, 0, 0, 0, 0, 0, 10] = .ok 2 0 0 := by
  refine ⟨by rfl, by rfl, by rfl, by rfl, by rfl, by rfl⟩

/-- C27 (the code at the failing input): a blob with header version 3 and `min_version` 1
passes `SWTPM_NVRAM_CheckHeader`; `SWTPM_NVRAM_GetPlainData` then returns 0 without
writing its output (for every version other than 1 and 2), so `LoadData` without a key
returns success with `NULL` data, while `SWTPM_NVRAM_DecryptData` with an AES-CBC key
returns TPM_FAIL for every such version. -/
theorem C27_unknown_version_not_rejected :
    SWTPM_NVRAM_CheckHeader helloBlobV3 = .ok 3 10 0 ∧
    SWTPM_NVRAM_GetPlainData (helloBlobV3.drop 10) toyEnv.TAG_DATA 3 = ⟨0, none, []⟩ ∧
    SWTPM_NVRAM_LoadData toyEnv (fsWith helloBlobV3) noFaults nokey 0 [112]
      = some ⟨0, none, none⟩ ∧
    SWTPM_NVRAM_DecryptData toyEnv (aesKey 7) (helloBlobV3.drop 10)
      toyEnv.TAG_ENCRYPTED_DATA 3 = some ⟨TPM_FAIL, none, []⟩ ∧
    (∀ (data : Bytes) (tag v : Nat), v ≠ 1 → v ≠ 2 →
      SWTPM_NVRAM_GetPlainData data tag v = ⟨0, none, []⟩) ∧
    (∀ (env : Env) (key : encryptionkey) (data : Bytes) (tag v : Nat),
      key.symkey.valid = true → key.data_encmode = .ENCRYPTION_MODE_AES_CBC →
      v ≠ 1 → v ≠ 2 →
      SWTPM_NVRAM_DecryptData env key data tag v = some ⟨TPM_FAIL, none, []⟩) := by
  refine ⟨by rfl, by rfl, by rfl, by rfl, ?_, ?_⟩
  · intro data tag v h1 h2
    simp [SWTPM_NVRAM_GetPlainData, h1, h2]
  · intro env key data tag v hk hm h1 h2
    simp [SWTPM_NVRAM_DecryptData, hk, hm, h1, h2]

/-- C28 (the code at the failing input): `SWTPM_CheckHash` has no test of the input
length. For the 5-byte input `01 02 03 04 05` the length `in_length - 32` wraps to
4294967269 and `SHA256` reads beyond the buffer; `SWTPM_NVRAM_DecryptData` reaches this
with header version 1 and a ciphertext that decrypts to 5 bytes. For an input of at
least 32 bytes the function succeeds exactly when the first 32 bytes are the SHA-256 of
the rest, and then returns the rest; otherwise it returns TPM_FAIL. -/
theorem C28_CheckHash_short_input :
    SWTPM_CheckHash toyEnv [1, 2, 3, 4, 5] = none ∧
    sub32 5 SHA256_DIGEST_LENGTH = 4294967269 ∧
    toyEnv.TPM_SymmetricKeyData_Decrypt (aesKey 7).symkey [7, 5, 4, 3, 2, 1]
      = (0, [1, 2, 3, 4, 5]) ∧
    SWTPM_NVRAM_DecryptData toyEnv (aesKey 7) [7, 5, 4, 3, 2, 1]
      toyEnv.TAG_ENCRYPTED_DATA 1 = none ∧
    (∀ (env : Env) (inp : Bytes), inp.length < 32 → SWTPM_CheckHash env inp = none) ∧
    (∀ (env : Env) (inp : Bytes), 32 ≤ inp.length →
      (inp.take 32 = env.SHA256 (inp.drop 32) →
        SWTPM_CheckHash env inp = some (0, some (inp.drop 32))) ∧
      (inp.take 32 ≠ env.SHA256 (inp.drop 32) →
        SWTPM_CheckHash env inp = some (TPM_FAIL, none))) := by
  refine ⟨by rfl, by rfl, by rfl, by rfl, ?_, ?_⟩
  · intro env inp h
    simp [SWTPM_CheckHash, SHA256_DIGEST_LENGTH, h]
  · intro env inp h
    have hn : ¬ inp.length < 32 := by omega
    refine ⟨?_, ?_⟩
    · intro he
      simp [SWTPM_CheckHash, SHA256_DIGEST_LENGTH, hn, he]
    · intro he
      simp [SWTPM_CheckHash, SHA256_DIGEST_LENGTH, hn, he]

/-! ### Key options: the key buffer at return -/

theorem memset_zero (buf : Bytes) :
    (memset buf 0 sizeof_key).take 32 = List.replicate 32 0 ∧
    (buf.length = 32 → memset buf 0 sizeof_key = List.replicate 32 0) := by
  constructor
  · simp [memset, sizeof_key, List.take_append_eq_append_take]
  · intro h
    have hd : buf.drop 32 = [] := List.drop_eq_nil_of_le (by omega)
    simp [memset, sizeof_key, hd]

theorem handle_key_options_buffer (parse : Bytes → Bytes → Nat → KeyParse) (keys : Keys)
    (o key0 : Bytes) :
    (handle_key_options parse keys (some o) key0).key
      = memset (parse o key0 sizeof_key).key 0 sizeof_key := by
  unfold handle_key_options
  dsimp only
  split
  · rfl
  · split <;> rfl

theorem handle_migration_key_options_buffer (parse : Bytes → Bytes → Nat → KeyParse)
    (keys : Keys) (o key0 : Bytes) :
    (handle_migration_key_options parse keys (some o) key0).key
      = memset (parse o key0 sizeof_key).key 0 sizeof_key := by
  unfold handle_migration_key_options
  dsimp only
  split
  · rfl
  · split <;> rfl

/-- C25: whenever `handle_key_options` or `handle_migration_key_options` is called with
a non-NULL option string, whatever `parse_key_options` does and returns and whatever the
key registry holds, the first 32 bytes of the local key buffer are zero at the return,
and the buffer, being 32 bytes long, is all zero. The return value is -1 after a parse
failure (the registry is unchanged) and after a failed `Set_FileKey` /
`Set_MigrationKey`, and 0 otherwise. -/
theorem C25_key_zeroization (parse : Bytes → Bytes → Nat → KeyParse) (keys : Keys)
    (o key0 : Bytes) :
    (handle_key_options parse keys (some o) key0).key.take 32 = List.replicate 32 0 ∧
    (handle_migration_key_options parse keys (some o) key0).key.take 32
      = List.replicate 32 0 ∧
    ((parse o key0 sizeof_key).key.length = 32 →
      (handle_key_options parse keys (some o) key0).key = List.replicate 32 0 ∧
      (handle_migration_key_options parse keys (some o) key0).key
        = List.replicate 32 0) ∧
    ((parse o key0 sizeof_key).ret < 0 →
      (handle_key_options parse keys (some o) key0).ret = -1 ∧
      (handle_key_options parse keys (some o) key0).keys = keys ∧
      (handle_migration_key_options parse keys (some o) key0).ret = -1 ∧
      (handle_migration_key_options parse keys (some o) key0).keys = keys) ∧
    (¬ (parse o key0 sizeof_key).ret < 0 →
      ((handle_key_options parse keys (some o) key0).ret =
        if (SWTPM_NVRAM_Set_FileKey keys
            ((parse o key0 sizeof_key).key.take (parse o key0 sizeof_key).keylen)
            (parse o key0 sizeof_key).encmode).1 ≠ TPM_SUCCESS then -1 else 0) ∧
      ((handle_migration_key_options parse keys (some o) key0).ret =
        if (SWTPM_NVRAM_Set_MigrationKey keys
            ((parse o key0 sizeof_key).key.take (parse o key0 sizeof_key).keylen)
            (parse o key0 sizeof_key).encmode).1 ≠ TPM_SUCCESS then -1 else 0)) := by
  rw [handle_key_options_buffer, handle_migration_key_options_buffer]
  refine ⟨(memset_zero _).1, (memset_zero _).1,
    fun h => ⟨(memset_zero _).2 h, (memset_zero _).2 h⟩, ?_, ?_⟩
  · intro h
    simp [handle_key_options, handle_migration_key_options, h]
  · intro h
    constructor
    · simp only [handle_key_options, h, if_false]
      split <;> rfl
    · simp only [handle_migration_key_options, h, if_false]
      split <;> rfl

/-- C25, evaluated with a parser that loads a 16-byte key of sevens into a buffer of 32
bytes of value 255: the call succeeds, the key is installed, and the buffer is zero. -/
theorem C25_key_zeroization_witness :
    (handle_key_options (toyKeyParse 16) initialKeys (some [102]) (List.replicate 32 255)).key
      = List.replicate 32 0 ∧
    (handle_key_options (toyKeyParse 16) initialKeys (some [102]) (List.replicate 32 255)).ret
      = 0 ∧
    (handle_key_options (toyKeyParse 16) initialKeys (some [102])
      (List.replicate 32 255)).keys = ⟨aesKey 7, nokey⟩ :=
  ⟨((C25_key_zeroization (toyKeyParse 16) initialKeys [102]
      (List.replicate 32 255)).2.2.1 (by rfl)).1,
   by rfl, by rfl⟩

/-! ### Profile options and file-descriptor arguments -/

/-- C29 (the code at the failing input): the test of `parse_profile_options` compares
the number of the parameters 'profile', 'name' and 'file' with `1 + (profilefd >= 0)`.
With 'profile' and 'fd' both given the call returns 0 and uses the profile string, and
so it does with 'profile', 'name' and 'fd' given, for every descriptor `fd >= 0`. Without
'fd', two of the three strings are refused with -1 and `NULL`, and a single source is the
one used. -/
theorem C29_profile_with_fd_accepted :
    parse_profile_options toyProfileEnv (some ⟨some [123, 125], none, none, 5, none⟩)
      = (0, some [123, 125]) ∧
    parse_profile_options toyProfileEnv (some ⟨none, none, none, 5, none⟩)
      = (0, some [102, 100]) ∧
    (∀ (env : ProfileEnv) (profile : Bytes) (name : Option Bytes) (fd : Int), 0 ≤ fd →
      parse_profile_options env (some ⟨some profile, name, none, fd, none⟩)
        = (0, some (env.g_strstrip profile))) ∧
    (∀ (env : ProfileEnv) (profile name : Bytes) (filename : Option Bytes) (fd : Int)
        (rd : Option Bytes), fd < 0 →
      parse_profile_options env (some ⟨some profile, some name, filename, fd, rd⟩)
        = (-1, none)) ∧
    (∀ (env : ProfileEnv) (profile : Bytes) (fd : Int), fd < 0 →
      parse_profile_options env (some ⟨some profile, none, none, fd, none⟩)
        = (0, some (env.g_strstrip profile))) := by
  refine ⟨by rfl, by rfl, ?_, ?_, ?_⟩
  · intro env profile name fd hfd
    cases name <;> simp [parse_profile_options, b2n, hfd]
  · intro env profile name filename fd rd hfd
    have h : ¬ fd ≥ 0 := by omega
    cases filename <;> simp [parse_profile_options, b2n, h]
  · intro env profile fd hfd
    have h : ¬ fd ≥ 0 := by omega
    simp [parse_profile_options, b2n, h]

/-- C30 (the code at the failing input): for the argument `12abc` the case of
`--keyfile-fd` accepts the descriptor 12, while the cases of `--pwdfile-fd` and
`--profile-file-fd` report an invalid file descriptor; for the complete number
`2147483648` the case of `--keyfile-fd` accepts it, the case of `--pwdfile-fd` refuses
it. The case of `--keyfile-fd` refuses an argument only if both conditions hold, as for
`2147483648x`. -/
theorem C30_keyfile_fd_check :
    strtoull [49, 50, 97, 98, 99] = (12, [97, 98, 99]) ∧
    main_keyfile_fd [49, 50, 97, 98, 99] = .fd 12 ∧
    main_pwdfile_fd [49, 50, 97, 98, 99] = .invalid_file_descriptor ∧
    main_json_profile_fd [49, 50, 97, 98, 99] = .invalid_file_descriptor ∧
    main_keyfile_fd [50, 49, 52, 55, 52, 56, 51, 54, 52, 56] = .fd 2147483648 ∧
    main_pwdfile_fd [50, 49, 52, 55, 52, 56, 51, 54, 52, 56] = .invalid_file_descriptor ∧
    main_keyfile_fd [50, 49, 52, 55, 52, 56, 51, 54, 52, 56, 120]
      = .invalid_file_descriptor ∧
    main_keyfile_fd [49, 50] = .fd 12 ∧
    main_pwdfile_fd [49, 50] = .fd 12 ∧
    main_json_profile_fd [49, 50] = .fd 12 := by
  refine ⟨by rfl, by rfl, by rfl, by rfl, by rfl, by rfl, by rfl, by rfl, by rfl, by rfl⟩

end Swtpm
